import Mathlib

/-!
# Published datasets and dataset fields of the PubSub layer

A shallow embedding of `src/pubsub/ua_pubsub_dataset.c`: the registry of
published datasets, the generation of field metadata, and the add / remove
workflows for dataset fields, followed by theorems about them.

Conventions of the embedding

* A `TAILQ` is a `List`; a pointer into a queue is the position of the element.
* A C array is a `List`; its size member is the length of the list, except for
  `dataSetMetaData.fieldsSize`, which the code updates on its own and which is
  therefore kept as a separate counter next to the storage it describes.
* Everything the file obtains from outside (random GUIDs, the clock-derived
  version, attribute reads, the heap, the type registry, the cells behind
  external pointers) is an oracle in `Env`; `World` counts how often each
  stream-like oracle has been consulted, so that the k-th call gets the k-th
  answer whatever that answer is.
* Status codes are the 32-bit numbers of the OPC UA status code table.
* An execution that leaves defined behaviour of the list model (a null or
  dangling pointer is dereferenced, an array is indexed past its end, ...)
  ends in `Except.error` with the `Fault` that names the reason.
-/

namespace Open62541

/-! ## Status codes

The header with the status code constants is generated and not among the
sources; the constants below carry the values of the OPC UA status code table.
-/

/-- A status code is a 32-bit number; the source combines codes with `|=` and
compares them with `UA_STATUSCODE_GOOD`. -/
abbrev UA_StatusCode := Nat

def UA_STATUSCODE_GOOD : UA_StatusCode := 0x00000000
def UA_STATUSCODE_BADUNEXPECTEDERROR : UA_StatusCode := 0x80010000
def UA_STATUSCODE_BADINTERNALERROR : UA_StatusCode := 0x80020000
def UA_STATUSCODE_BADOUTOFMEMORY : UA_StatusCode := 0x80030000
def UA_STATUSCODE_BADNOTSUPPORTED : UA_StatusCode := 0x803D0000
def UA_STATUSCODE_BADNOTFOUND : UA_StatusCode := 0x803E0000
def UA_STATUSCODE_BADNOTIMPLEMENTED : UA_StatusCode := 0x80400000
def UA_STATUSCODE_BADCONFIGURATIONERROR : UA_StatusCode := 0x80890000
def UA_STATUSCODE_BADINVALIDARGUMENT : UA_StatusCode := 0x80AB0000

/-! ## Built-in types -/

structure UA_Guid where
  data1 : Nat
  data2 : Nat
  data3 : Nat
  data4 : List Nat
  deriving DecidableEq

inductive UA_NodeIdIdentifier where
  | numeric (n : Nat)
  | string (s : String)
  | guid (g : UA_Guid)
  | byteString (b : List Nat)
  deriving DecidableEq

structure UA_NodeId where
  namespaceIndex : Nat
  identifier : UA_NodeIdIdentifier
  deriving DecidableEq

def UA_GUID_NULL : UA_Guid := ⟨0, 0, 0, []⟩

def UA_NODEID_NULL : UA_NodeId := ⟨0, .numeric 0⟩

def UA_NODEID_GUID (nsIndex : Nat) (guid : UA_Guid) : UA_NodeId := ⟨nsIndex, .guid guid⟩

/-- Modelled from the spec: `UA_NodeId_equal` of the types library, which is not
among the sources; identifiers are equal when namespace and identifier agree. -/
def UA_NodeId_equal (a b : UA_NodeId) : Bool := decide (a = b)

/-- Modelled from the spec: `UA_NodeId_isNull` of the types library, which is not
among the sources; the null identifier lives in namespace 0 and has a zero
number, an empty string, the null GUID or an empty byte string. -/
def UA_NodeId_isNull (p : UA_NodeId) : Bool :=
  if p.namespaceIndex ≠ 0 then false
  else match p.identifier with
    | .numeric n => decide (n = 0)
    | .string s => decide (s = "")
    | .guid g => decide (g = UA_GUID_NULL)
    | .byteString b => decide (b = [])

structure UA_LocalizedText where
  locale : String
  text : String
  deriving DecidableEq

structure UA_QualifiedName where
  namespaceIndex : Nat
  name : String
  deriving DecidableEq

/-- The descriptor of a data type, as far as this file reads it. -/
structure UA_DataType where
  typeId : UA_NodeId
  typeKind : Nat
  typeName : String
  deriving DecidableEq

/-- Modelled from the spec: the type category ordinals the source compares
with; the enumeration is declared in a header that is not among the sources.
The base kinds run up to `UA_DATATYPEKIND_ENUM`, the structured kinds lie
above. -/
def UA_DATATYPEKIND_STRING : Nat := 11
def UA_DATATYPEKIND_BYTESTRING : Nat := 14
def UA_DATATYPEKIND_LOCALIZEDTEXT : Nat := 20
def UA_DATATYPEKIND_ENUM : Nat := 25

inductive UA_VariantStorageType where
  | UA_VARIANT_DATA
  | UA_VARIANT_DATA_NODELETE
  deriving DecidableEq

/-- A variant. `type` is `none` for the null pointer of an empty variant; the
payload is kept as the sequence of its bytes, the code never looks into it. -/
structure UA_Variant where
  type : Option UA_DataType
  storageType : UA_VariantStorageType
  arrayLength : Nat
  data : List Nat
  arrayDimensions : List Nat
  deriving DecidableEq

def UA_Variant_init : UA_Variant := ⟨none, .UA_VARIANT_DATA, 0, [], []⟩

structure UA_DataValue where
  value : UA_Variant
  sourceTimestamp : Int
  serverTimestamp : Int
  sourcePicoseconds : Nat
  serverPicoseconds : Nat
  status : UA_StatusCode
  hasValue : Bool
  hasStatus : Bool
  hasSourceTimestamp : Bool
  hasServerTimestamp : Bool
  hasSourcePicoseconds : Bool
  hasServerPicoseconds : Bool
  deriving DecidableEq

structure UA_KeyValuePair where
  key : UA_QualifiedName
  value : UA_Variant
  deriving DecidableEq

structure UA_ConfigurationVersionDataType where
  majorVersion : Nat
  minorVersion : Nat
  deriving DecidableEq

/-- The two values of the field flags, `None` and `PromotedField`. -/
def UA_DATASETFIELDFLAGS_NONE : Nat := 0
def UA_DATASETFIELDFLAGS_PROMOTEDFIELD : Nat := 1

structure UA_FieldMetaData where
  name : String
  description : UA_LocalizedText
  fieldFlags : Nat
  builtInType : Nat
  dataType : UA_NodeId
  valueRank : Int
  arrayDimensions : List Nat
  maxStringLength : Nat
  dataSetFieldId : UA_Guid
  properties : List UA_KeyValuePair
  deriving DecidableEq

/-- The all-zero entry `UA_FieldMetaData_init` leaves behind; `UA_calloc` and
`UA_FieldMetaData_clear` leave the same. -/
def UA_FieldMetaData_init : UA_FieldMetaData :=
  { name := "", description := ⟨"", ""⟩, fieldFlags := 0, builtInType := 0,
    dataType := UA_NODEID_NULL, valueRank := 0, arrayDimensions := [],
    maxStringLength := 0, dataSetFieldId := UA_GUID_NULL, properties := [] }

/-- The parameters of a published variable. The two floating point members are
only ever copied and are kept as their 64-bit patterns. -/
structure UA_PublishedVariableDataType where
  publishedVariable : UA_NodeId
  attributeId : Nat
  samplingIntervalHint : Nat
  deadbandType : Nat
  deadbandValue : Nat
  indexRange : String
  substituteValue : UA_Variant
  metaDataProperties : List UA_QualifiedName
  deriving DecidableEq

def UA_PublishedVariableDataType_init : UA_PublishedVariableDataType :=
  ⟨UA_NODEID_NULL, 0, 0, 0, 0, "", UA_Variant_init, []⟩

/-! ## PubSub configuration types -/

inductive UA_DataSetFieldType where
  | UA_PUBSUB_DATASETFIELD_VARIABLE
  | UA_PUBSUB_DATASETFIELD_EVENT
  deriving DecidableEq

/-- The selector of the value source. `staticValueSource` is a pointer to a cell
that holds a pointer to the value: `none` is the null pointer, `some a` names
the cell, whose content is looked up in the environment. -/
structure UA_RtValueSource where
  rtFieldSourceEnabled : Bool
  rtInformationModelNode : Bool
  staticValueSource : Option Nat
  deriving DecidableEq

structure UA_DataSetVariableConfig where
  configurationVersion : UA_ConfigurationVersionDataType
  fieldNameAlias : String
  promotedField : Bool
  publishParameters : UA_PublishedVariableDataType
  rtValueSource : UA_RtValueSource
  maxStringLength : Nat
  deriving DecidableEq

/-- The union member `field` of a field configuration. Its only alternative is
the variable configuration, `field.variable` in the source; the member is named
`var` here because `variable` is a reserved word. -/
structure UA_DataSetFieldConfigField where
  var : UA_DataSetVariableConfig
  deriving DecidableEq

structure UA_DataSetFieldConfig where
  dataSetFieldType : UA_DataSetFieldType
  field : UA_DataSetFieldConfigField
  deriving DecidableEq

/-- The configuration of a freshly `UA_calloc`-ed field: all zero. -/
def UA_DataSetFieldConfig_init : UA_DataSetFieldConfig :=
  { dataSetFieldType := .UA_PUBSUB_DATASETFIELD_VARIABLE,
    field := ⟨{ configurationVersion := ⟨0, 0⟩, fieldNameAlias := "",
                promotedField := false,
                publishParameters := UA_PublishedVariableDataType_init,
                rtValueSource := ⟨false, false, none⟩, maxStringLength := 0 }⟩ }

inductive UA_PublishedDataSetType where
  | UA_PUBSUB_DATASET_PUBLISHEDITEMS
  | UA_PUBSUB_DATASET_PUBLISHEDEVENTS
  | UA_PUBSUB_DATASET_PUBLISHEDITEMS_TEMPLATE
  | UA_PUBSUB_DATASET_PUBLISHEDEVENTS_TEMPLATE
  deriving DecidableEq

structure UA_PublishedDataSetConfig where
  name : String
  publishedDataSetType : UA_PublishedDataSetType
  deriving DecidableEq

/-! ## The registry -/

/-- The pointer `dataSetMetaData.fields`: null, a live allocation with the
entries it holds, or an allocation that was released without the pointer being
reset. -/
inductive FieldsStorage where
  | null
  | block (cells : List UA_FieldMetaData)
  | freed
  deriving DecidableEq

structure UA_DataSetMetaDataType where
  fieldsSize : Nat
  fields : FieldsStorage
  configurationVersion : UA_ConfigurationVersionDataType
  deriving DecidableEq

structure UA_DataSetField where
  config : UA_DataSetFieldConfig
  identifier : UA_NodeId
  publishedDataSet : UA_NodeId
  fieldMetaData : UA_FieldMetaData
  configurationFrozen : Bool
  deriving DecidableEq

/-- A published dataset. Modelled from the spec: the header that declares the
structure is not among the sources; `fieldSize` and `promotedFieldsCount` are
the field count and promoted-field count of the spec, natural numbers. -/
structure UA_PublishedDataSet where
  config : UA_PublishedDataSetConfig
  dataSetMetaData : UA_DataSetMetaDataType
  fields : List UA_DataSetField
  identifier : UA_NodeId
  fieldSize : Nat
  promotedFieldsCount : Nat
  configurationFrozen : Bool
  deriving DecidableEq

structure UA_PubSubManager where
  publishedDataSets : List UA_PublishedDataSet
  deriving DecidableEq

structure UA_Server where
  pubSubManager : UA_PubSubManager
  deriving DecidableEq

structure UA_DataSetFieldResult where
  result : UA_StatusCode
  configurationVersion : UA_ConfigurationVersionDataType
  deriving DecidableEq

/-! ## The collaborators -/

/-- The external value backend of a node: `value` is a pointer to a cell that
holds a pointer to the value, `none` for the null pointer. -/
structure UA_ExternalValueBackend where
  value : Option Nat
  deriving DecidableEq

/-- The union member `backend` of a value backend, as far as this file reads
it. -/
structure UA_ValueBackendUnion where
  external : UA_ExternalValueBackend
  deriving DecidableEq

structure UA_ValueBackend where
  backend : UA_ValueBackendUnion
  deriving DecidableEq

/-- A variable node of the information model, as far as this file reads it. -/
structure UA_VariableNode where
  valueBackend : UA_ValueBackend
  deriving DecidableEq

structure UA_ReadValueId where
  nodeId : UA_NodeId
  attributeId : Nat
  indexRange : String
  dataEncoding : UA_QualifiedName
  deriving DecidableEq

/-- What `UA_ReadValueId_init` leaves behind. -/
def UA_ReadValueId_init : UA_ReadValueId := ⟨UA_NODEID_NULL, 0, "", ⟨0, ""⟩⟩

inductive UA_TimestampsToReturn where
  | UA_TIMESTAMPSTORETURN_SOURCE
  | UA_TIMESTAMPSTORETURN_SERVER
  | UA_TIMESTAMPSTORETURN_BOTH
  | UA_TIMESTAMPSTORETURN_NEITHER
  deriving DecidableEq

/-- Why an execution is not followed further by the model. -/
inductive Fault where
  /-- A null pointer is dereferenced. -/
  | nullDereference
  /-- An array is read or written past its end. -/
  | outOfBounds
  /-- Released storage is used again. -/
  | useAfterFree
  /-- A queue element is unlinked through the head of a queue it is not on. -/
  | ownerMismatch
  /-- An unsigned counter that is zero is decremented; the value it wraps to
  depends on a width that the sources do not declare. -/
  | counterWrap
  deriving DecidableEq

/-- Modelled from the spec: the external collaborators and library services
this file consumes, none of which is among the sources. The k-th answer of a
stream is its value at k.

* `randomGuid`: the identifier generator `UA_PubSubManager_generateUniqueGuid`.
* `allocOk`: whether the k-th request to the heap (made by `UA_calloc` or inside
  a library copy or resize) is served.
* `versionTime`: the clock behind `UA_PubSubConfigurationVersionTimeDifference`.
* `readArrayDimensions`, `readDataType`, `readValueRank`: the attribute read
  `readWithReadValue` at the three attribute ids this file asks for; each yields
  the status and what is stored through the output pointer.
* `findDataType`: the type registry `UA_findDataTypeWithCustom`; `none` is its
  null result.
* `staticValue`: the content of the cell a `staticValueSource` points to; `none`
  is a null pointer in the cell.
* `nodestore`: the borrow `UA_NODESTORE_GET` of a node by its identifier; `none`
  is its null result.
* `externalValue`: the content of the cell the external value backend of a node
  points to; `none` is a null pointer in the cell.
* `readAttribute`: the attribute read `readAttribute` of the k-th read, for a
  read value id and a choice of timestamps. -/
structure Env where
  randomGuid : Nat → UA_Guid
  allocOk : Nat → Bool
  versionTime : Nat → Nat
  readArrayDimensions : Nat → UA_NodeId → UA_StatusCode × UA_Variant
  readDataType : Nat → UA_NodeId → UA_StatusCode × UA_NodeId
  readValueRank : Nat → UA_NodeId → UA_StatusCode × Int
  findDataType : UA_NodeId → Option UA_DataType
  staticValue : Nat → Option UA_DataValue
  nodestore : UA_NodeId → Option UA_VariableNode
  externalValue : Nat → Option UA_DataValue
  readAttribute : Nat → UA_ReadValueId → UA_TimestampsToReturn → UA_DataValue

/-- How often each stream of the environment has been consulted so far. -/
structure World where
  guids : Nat
  allocs : Nat
  reads : Nat
  clocks : Nat
  deriving DecidableEq

def UA_PubSubManager_generateUniqueGuid (env : Env) (w : World) : UA_Guid × World :=
  (env.randomGuid w.guids, { w with guids := w.guids + 1 })

/-- The value the k-th call of `UA_PubSubConfigurationVersionTimeDifference`
returns: the clock-derived number as a `UA_UInt32`. -/
def Env.version (env : Env) (k : Nat) : Nat := env.versionTime k % 2 ^ 32

def UA_PubSubConfigurationVersionTimeDifference (env : Env) (w : World) : Nat × World :=
  (env.version w.clocks, { w with clocks := w.clocks + 1 })

/-- One request to the heap. -/
def UA_calloc (env : Env) (w : World) : Bool × World :=
  (env.allocOk w.allocs, { w with allocs := w.allocs + 1 })

/-- Modelled from the spec: `UA_String_copy`; the copy or `BadOutOfMemory` with
an empty destination. -/
def UA_String_copy (env : Env) (w : World) (src : String) : UA_StatusCode × String × World :=
  let (ok, w) := UA_calloc env w
  if ok then (UA_STATUSCODE_GOOD, src, w) else (UA_STATUSCODE_BADOUTOFMEMORY, "", w)

/-- Modelled from the spec: `UA_NodeId_copy`; the copy or `BadOutOfMemory` with
a null destination. -/
def UA_NodeId_copy (env : Env) (w : World) (src : UA_NodeId) : UA_StatusCode × UA_NodeId × World :=
  let (ok, w) := UA_calloc env w
  if ok then (UA_STATUSCODE_GOOD, src, w) else (UA_STATUSCODE_BADOUTOFMEMORY, UA_NODEID_NULL, w)

/-- Modelled from the spec: `UA_PublishedVariableDataType_copy`; the copy or
`BadOutOfMemory` with a cleared destination. -/
def UA_PublishedVariableDataType_copy (env : Env) (w : World) (src : UA_PublishedVariableDataType) :
    UA_StatusCode × UA_PublishedVariableDataType × World :=
  let (ok, w) := UA_calloc env w
  if ok then (UA_STATUSCODE_GOOD, src, w)
  else (UA_STATUSCODE_BADOUTOFMEMORY, UA_PublishedVariableDataType_init, w)

/-- The attribute read at `UA_ATTRIBUTEID_ARRAYDIMENSIONS`. -/
def readWithReadValue_ARRAYDIMENSIONS (env : Env) (w : World) (nodeId : UA_NodeId) :
    UA_StatusCode × UA_Variant × World :=
  ((env.readArrayDimensions w.reads nodeId).1, (env.readArrayDimensions w.reads nodeId).2,
    { w with reads := w.reads + 1 })

/-- The attribute read at `UA_ATTRIBUTEID_DATATYPE`. -/
def readWithReadValue_DATATYPE (env : Env) (w : World) (nodeId : UA_NodeId) :
    UA_StatusCode × UA_NodeId × World :=
  ((env.readDataType w.reads nodeId).1, (env.readDataType w.reads nodeId).2,
    { w with reads := w.reads + 1 })

/-- The attribute read at `UA_ATTRIBUTEID_VALUERANK`. -/
def readWithReadValue_VALUERANK (env : Env) (w : World) (nodeId : UA_NodeId) :
    UA_StatusCode × Int × World :=
  ((env.readValueRank w.reads nodeId).1, (env.readValueRank w.reads nodeId).2,
    { w with reads := w.reads + 1 })

/-! ## Lookup -/

/-- The walk of `UA_PublishedDataSet_findPDSbyId` over the queue of datasets:
position and content of the first dataset with the identifier. -/
def findPDSbyId (identifier : UA_NodeId) :
    List UA_PublishedDataSet → Option (Nat × UA_PublishedDataSet)
  | [] => none
  | tmpPDS :: rest =>
    if UA_NodeId_equal tmpPDS.identifier identifier then some (0, tmpPDS)
    else (findPDSbyId identifier rest).map (fun r => (r.1 + 1, r.2))

def UA_PublishedDataSet_findPDSbyId (server : UA_Server) (identifier : UA_NodeId) :
    Option (Nat × UA_PublishedDataSet) :=
  findPDSbyId identifier server.pubSubManager.publishedDataSets

/-- The inner walk of `UA_DataSetField_findDSFbyId` over the fields of one
dataset. -/
def findFieldbyId (identifier : UA_NodeId) : List UA_DataSetField → Option (Nat × UA_DataSetField)
  | [] => none
  | tmpField :: rest =>
    if UA_NodeId_equal tmpField.identifier identifier then some (0, tmpField)
    else (findFieldbyId identifier rest).map (fun r => (r.1 + 1, r.2))

/-- The outer walk of `UA_DataSetField_findDSFbyId`: position of the dataset,
position of the field in it, and the field. -/
def findDSFbyId (identifier : UA_NodeId) :
    List UA_PublishedDataSet → Option (Nat × Nat × UA_DataSetField)
  | [] => none
  | tmpPDS :: rest =>
    match findFieldbyId identifier tmpPDS.fields with
    | some (fi, tmpField) => some (0, fi, tmpField)
    | none => (findDSFbyId identifier rest).map (fun r => (r.1 + 1, r.2.1, r.2.2))

def UA_DataSetField_findDSFbyId (server : UA_Server) (identifier : UA_NodeId) :
    Option (Nat × Nat × UA_DataSetField) :=
  findDSFbyId identifier server.pubSubManager.publishedDataSets

/-! ## Field configuration -/

def UA_DataSetFieldConfig_clear (dataSetFieldConfig : UA_DataSetFieldConfig) : UA_DataSetFieldConfig :=
  if dataSetFieldConfig.dataSetFieldType = .UA_PUBSUB_DATASETFIELD_VARIABLE then
    { dataSetFieldConfig with
      field := ⟨{ dataSetFieldConfig.field.var with
                  fieldNameAlias := "",
                  publishParameters := UA_PublishedVariableDataType_init }⟩ }
  else dataSetFieldConfig

/-- Returns the status and the content of `dst` after the call. -/
def UA_DataSetFieldConfig_copy (env : Env) (w : World) (src dst : UA_DataSetFieldConfig) :
    UA_StatusCode × UA_DataSetFieldConfig × World :=
  if src.dataSetFieldType ≠ .UA_PUBSUB_DATASETFIELD_VARIABLE then
    (UA_STATUSCODE_BADNOTSUPPORTED, dst, w)
  else
    let dst := src
    let res := UA_STATUSCODE_GOOD
    let (r1, fieldNameAlias, w) := UA_String_copy env w src.field.var.fieldNameAlias
    let res := res ||| r1
    let (r2, pp, w) := UA_PublishedVariableDataType_copy env w src.field.var.publishParameters
    let res := res ||| r2
    let dst := { dst with field := ⟨{ dst.field.var with fieldNameAlias := fieldNameAlias,
                                                           publishParameters := pp }⟩ }
    if res ≠ UA_STATUSCODE_GOOD then (res, UA_DataSetFieldConfig_clear dst, w)
    else (res, dst, w)

/-- The out-parameter `config` is `none` for a null pointer and `some c` for a
pointer to storage holding `c`; its content after the call is returned next to
the status. -/
def UA_Server_getDataSetFieldConfig (env : Env) (w : World) (server : UA_Server)
    (dsf : UA_NodeId) (config : Option UA_DataSetFieldConfig) :
    UA_StatusCode × Option UA_DataSetFieldConfig × World :=
  match config with
  | none => (UA_STATUSCODE_BADINVALIDARGUMENT, none, w)
  | some dst =>
    match UA_DataSetField_findDSFbyId server dsf with
    | none => (UA_STATUSCODE_BADNOTFOUND, some dst, w)
    | some (_, _, currentDataSetField) =>
      let r := UA_DataSetFieldConfig_copy env w currentDataSetField.config dst
      (r.1, some r.2.1, r.2.2)

/-! ## Metadata generation -/

/-- The allocation of the array dimensions of an entry: the heap is only asked
when there are dimensions to copy. -/
def allocArrayDimensions (env : Env) (w : World) (arrayDimensionsSize : Nat) : Bool × World :=
  if arrayDimensionsSize > 0 then UA_calloc env w else (true, w)

/-- The array dimensions of an entry after the copy: the `memcpy` of the source
dimensions when there are some; with none the size is set to zero and the
pointer is not touched, which is the empty sequence. -/
def copyArrayDimensions (arrayDimensions : List Nat) : List Nat :=
  if arrayDimensions.length > 0 then arrayDimensions else []

/-- The static value source branch of `generateFieldMetaData` (the body of the
`if` on `rtFieldSourceEnabled && !rtInformationModelNode`). -/
def generateFieldMetaData_static (env : Env) (w : World) (var : UA_DataSetVariableConfig)
    (fieldMetaData : UA_FieldMetaData) : Except Fault (UA_StatusCode × UA_FieldMetaData × World) :=
  match var.rtValueSource.staticValueSource with
  | none => .error .nullDereference
  | some cell =>
    match env.staticValue cell with
    | none => .error .nullDereference
    | some svs =>
      let a := allocArrayDimensions env w svs.value.arrayDimensions.length
      if a.1 = false then .ok (UA_STATUSCODE_BADOUTOFMEMORY, fieldMetaData, a.2)
      else
        let fieldMetaData := { fieldMetaData with
          arrayDimensions := copyArrayDimensions svs.value.arrayDimensions }
        match svs.value.type with
        | none => .error .nullDereference
        | some type =>
          let c := UA_NodeId_copy env a.2 type.typeId
          let fieldMetaData := { fieldMetaData with dataType := c.2.1 }
          if c.1 ≠ UA_STATUSCODE_GOOD then .ok (c.1, fieldMetaData, c.2.2)
          else
            .ok (UA_STATUSCODE_GOOD,
                 { fieldMetaData with properties := [],
                                      fieldFlags := UA_DATASETFIELDFLAGS_NONE }, c.2.2)

/-- The block of `generateFieldMetaData` that runs when the data type read gave
a non-null identifier: built-in type and maximal string length from the
descriptor the type registry returns. The descriptor is dereferenced without a
check. -/
def generateFieldMetaData_classify (env : Env) (var : UA_DataSetVariableConfig)
    (fieldMetaData : UA_FieldMetaData) : Except Fault UA_FieldMetaData :=
  match env.findDataType fieldMetaData.dataType with
  | none => .error .nullDereference
  | some currentDataType =>
    let fieldMetaData :=
      if currentDataType.typeKind ≤ UA_DATATYPEKIND_ENUM then
        { fieldMetaData with builtInType := currentDataType.typeKind % 256 }
      else fieldMetaData
    if var.maxStringLength ≠ 0 then
      if currentDataType.typeKind = UA_DATATYPEKIND_BYTESTRING ∨
         currentDataType.typeKind = UA_DATATYPEKIND_STRING ∨
         currentDataType.typeKind = UA_DATATYPEKIND_LOCALIZEDTEXT then
        .ok { fieldMetaData with maxStringLength := var.maxStringLength }
      else .ok fieldMetaData
    else .ok fieldMetaData

/-- The `if` of `generateFieldMetaData` on the data type that was read: a null
identifier is only logged, any other is classified. -/
def generateFieldMetaData_dataType (env : Env) (var : UA_DataSetVariableConfig)
    (fieldMetaData : UA_FieldMetaData) : Except Fault UA_FieldMetaData :=
  if UA_NodeId_isNull fieldMetaData.dataType = false then
    generateFieldMetaData_classify env var fieldMetaData
  else .ok fieldMetaData

/-- The part of `generateFieldMetaData` after the static branch: the three
attribute reads against the published variable. -/
def generateFieldMetaData_generic (env : Env) (w : World) (var : UA_DataSetVariableConfig)
    (fieldMetaData : UA_FieldMetaData) : Except Fault (UA_StatusCode × UA_FieldMetaData × World) :=
  let pp := var.publishParameters
  let rd := readWithReadValue_ARRAYDIMENSIONS env w pp.publishedVariable
  if rd.1 ≠ UA_STATUSCODE_GOOD then .ok (rd.1, fieldMetaData, rd.2.2)
  else
    let value := rd.2.1
    let a := allocArrayDimensions env rd.2.2 value.arrayDimensions.length
    if a.1 = false then .ok (UA_STATUSCODE_BADOUTOFMEMORY, fieldMetaData, a.2)
    else
      let fieldMetaData := { fieldMetaData with
        arrayDimensions := copyArrayDimensions value.arrayDimensions }
      let rt := readWithReadValue_DATATYPE env a.2 pp.publishedVariable
      if rt.1 ≠ UA_STATUSCODE_GOOD then .ok (rt.1, fieldMetaData, rt.2.2)
      else
        let fieldMetaData := { fieldMetaData with dataType := rt.2.1 }
        match generateFieldMetaData_dataType env var fieldMetaData with
        | .error e => .error e
        | .ok fieldMetaData =>
          let rr := readWithReadValue_VALUERANK env rt.2.2 pp.publishedVariable
          if rr.1 ≠ UA_STATUSCODE_GOOD then .ok (rr.1, fieldMetaData, rr.2.2)
          else
            let fieldMetaData := { fieldMetaData with valueRank := rr.2.1 }
            let fieldMetaData :=
              if var.promotedField then
                { fieldMetaData with fieldFlags := UA_DATASETFIELDFLAGS_PROMOTEDFIELD }
              else { fieldMetaData with fieldFlags := UA_DATASETFIELDFLAGS_NONE }
            .ok (UA_STATUSCODE_GOOD, { fieldMetaData with properties := [] }, rr.2.2)

/-- The function `generateFieldMetaData`. `fieldMetaData` is the content of the
entry the caller passes in; the result is the status, the content of the entry
when the function returns, and the world. The dataset argument of the source is
only used for log messages and is left out. -/
def generateFieldMetaData (env : Env) (w : World) (field : UA_DataSetField)
    (fieldMetaData : UA_FieldMetaData) : Except Fault (UA_StatusCode × UA_FieldMetaData × World) :=
  if field.config.dataSetFieldType ≠ .UA_PUBSUB_DATASETFIELD_VARIABLE then
    .ok (UA_STATUSCODE_BADNOTSUPPORTED, fieldMetaData, w)
  else
    let g := UA_PubSubManager_generateUniqueGuid env w
    let fieldMetaData := { fieldMetaData with dataSetFieldId := g.1 }
    let fieldMetaData := { fieldMetaData with description := ⟨"", ""⟩ }
    let var := field.config.field.var
    let c := UA_String_copy env g.2 var.fieldNameAlias
    let fieldMetaData := { fieldMetaData with name := c.2.1 }
    if c.1 ≠ UA_STATUSCODE_GOOD then .ok (c.1, fieldMetaData, c.2.2)
    else if var.rtValueSource.rtFieldSourceEnabled = true ∧
            var.rtValueSource.rtInformationModelNode = false then
      generateFieldMetaData_static env c.2.2 var fieldMetaData
    else generateFieldMetaData_generic env c.2.2 var fieldMetaData

/-! ## Adding a field -/

/-- Modelled from the spec: `UA_Array_append` of the types library, which is not
among the sources, at the metadata array. On success the element is stored
behind the entries the array holds and the size grows by one; a refused
resize gives `BadOutOfMemory` and leaves array and size as they were. The
element stays readable for the caller, who copies the generated identifier
from it after the append. -/
def UA_Array_append (env : Env) (w : World) (p : FieldsStorage) (size : Nat)
    (newElem : UA_FieldMetaData) : Except Fault (UA_StatusCode × FieldsStorage × Nat × World) :=
  match p with
  | .freed => .error .useAfterFree
  | .null =>
    if size ≠ 0 then .error .nullDereference
    else
      let a := UA_calloc env w
      if a.1 = false then .ok (UA_STATUSCODE_BADOUTOFMEMORY, p, size, a.2)
      else .ok (UA_STATUSCODE_GOOD, .block [newElem], size + 1, a.2)
  | .block cells =>
    if cells.length ≠ size then .error .outOfBounds
    else
      let a := UA_calloc env w
      if a.1 = false then .ok (UA_STATUSCODE_BADOUTOFMEMORY, p, size, a.2)
      else .ok (UA_STATUSCODE_GOOD, .block (cells ++ [newElem]), size + 1, a.2)

/-- The loop of `addDataSetField` that hands every field of the queue its entry
of the metadata array again; the counter of the source is the position in the
second list. -/
def rebindFieldMetaData :
    List UA_DataSetField → List UA_FieldMetaData → Except Fault (List UA_DataSetField)
  | [], _ => .ok []
  | _ :: _, [] => .error .outOfBounds
  | dsf :: rest, m :: cells =>
    match rebindFieldMetaData rest cells with
    | .error e => .error e
    | .ok rest => .ok ({ dsf with fieldMetaData := m } :: rest)

/-- What `addDataSetField` hands back: the result structure, the content of the
out-parameter `fieldIdentifier` (`none` for a null pointer), the server and the
world. -/
structure AddReturn where
  result : UA_DataSetFieldResult
  fieldIdentifier : Option UA_NodeId
  server : UA_Server
  world : World
  deriving DecidableEq

/-- An early return of `addDataSetField`: the zeroed result with the status,
nothing else touched. -/
def addDataSetField_fail (res : UA_StatusCode) (fieldIdentifier : Option UA_NodeId)
    (server : UA_Server) (w : World) : Except Fault AddReturn :=
  .ok ⟨⟨res, ⟨0, 0⟩⟩, fieldIdentifier, server, w⟩

/-- The cells of a storage that holds a live allocation. -/
def FieldsStorage.cells : FieldsStorage → List UA_FieldMetaData
  | .block cells => cells
  | _ => []

/-- The end of `addDataSetField`, from "Register the field" on, as it leaves the
dataset: the metadata array with the appended entry, the queue with the new
field and every borrowed view bound again, the counters raised (the promoted
one only for a promoted field) and the major version set to the generated
one. -/
def addDataSetField_commit (currDS : UA_PublishedDataSet) (promotedField : Bool)
    (fields : FieldsStorage) (fieldsSize : Nat) (dsfs : List UA_DataSetField)
    (majorVersion : Nat) : UA_PublishedDataSet :=
  { currDS with
    dataSetMetaData :=
      { fieldsSize := fieldsSize, fields := fields,
        configurationVersion :=
          { currDS.dataSetMetaData.configurationVersion with majorVersion := majorVersion } },
    fields := dsfs,
    fieldSize := currDS.fieldSize + 1,
    promotedFieldsCount :=
      if promotedField = true then currDS.promotedFieldsCount + 1
      else currDS.promotedFieldsCount }

/-- The function `addDataSetField`. `fieldConfig` is `none` for a null pointer;
`fieldIdentifier` is `none` for a null pointer and else the content of the
cell it points to. -/
def addDataSetField (env : Env) (w : World) (server : UA_Server) (publishedDataSet : UA_NodeId)
    (fieldConfig : Option UA_DataSetFieldConfig) (fieldIdentifier : Option UA_NodeId) :
    Except Fault AddReturn :=
  match fieldConfig with
  | none => addDataSetField_fail UA_STATUSCODE_BADINVALIDARGUMENT fieldIdentifier server w
  | some fieldConfig =>
  match UA_PublishedDataSet_findPDSbyId server publishedDataSet with
  | none => addDataSetField_fail UA_STATUSCODE_BADNOTFOUND fieldIdentifier server w
  | some (i, currDS) =>
  if currDS.configurationFrozen = true then
    addDataSetField_fail UA_STATUSCODE_BADCONFIGURATIONERROR fieldIdentifier server w
  else if currDS.config.publishedDataSetType ≠ .UA_PUBSUB_DATASET_PUBLISHEDITEMS then
    addDataSetField_fail UA_STATUSCODE_BADNOTIMPLEMENTED fieldIdentifier server w
  else
  let a := UA_calloc env w
  if a.1 = false then
    addDataSetField_fail UA_STATUSCODE_BADINTERNALERROR fieldIdentifier server a.2
  else
  let newField : UA_DataSetField :=
    { config := UA_DataSetFieldConfig_init, identifier := UA_NODEID_NULL,
      publishedDataSet := UA_NODEID_NULL, fieldMetaData := UA_FieldMetaData_init,
      configurationFrozen := false }
  let c := UA_DataSetFieldConfig_copy env a.2 fieldConfig newField.config
  if c.1 ≠ UA_STATUSCODE_GOOD then addDataSetField_fail c.1 fieldIdentifier server c.2.2
  else
  let newField := { newField with config := c.2.1 }
  let n := UA_NodeId_copy env c.2.2 currDS.identifier
  if n.1 ≠ UA_STATUSCODE_GOOD then addDataSetField_fail n.1 fieldIdentifier server n.2.2
  else
  let newField := { newField with publishedDataSet := n.2.1 }
  match generateFieldMetaData env n.2.2 newField UA_FieldMetaData_init with
  | .error e => .error e
  | .ok (gres, fmd, gw) =>
  if gres ≠ UA_STATUSCODE_GOOD then addDataSetField_fail gres fieldIdentifier server gw
  else
  match UA_Array_append env gw currDS.dataSetMetaData.fields
          currDS.dataSetMetaData.fieldsSize fmd with
  | .error e => .error e
  | .ok (ares, fields, fieldsSize, aw) =>
  if ares ≠ UA_STATUSCODE_GOOD then addDataSetField_fail ares fieldIdentifier server aw
  else
  let newField := { newField with identifier := UA_NODEID_GUID 1 fmd.dataSetFieldId }
  let fieldIdentifier := fieldIdentifier.map (fun _ => newField.identifier)
  match rebindFieldMetaData (currDS.fields ++ [newField]) fields.cells with
  | .error e => .error e
  | .ok dsfs =>
  let v := UA_PubSubConfigurationVersionTimeDifference env aw
  let currDS : UA_PublishedDataSet :=
    addDataSetField_commit currDS newField.config.field.var.promotedField fields fieldsSize dsfs v.1
  .ok ⟨⟨UA_STATUSCODE_GOOD, currDS.dataSetMetaData.configurationVersion⟩, fieldIdentifier,
       ⟨⟨server.pubSubManager.publishedDataSets.set i currDS⟩⟩, v.2⟩

/-! ## Removing a field -/

/-- The regeneration loop of `removeDataSetField` over the remaining fields.
The second list is the part of the fresh array from the slot of the counter
on. A slot whose generation fails is cleared and the loop ends with that
status; the status is the one of the last generation that ran, or the one
passed in when none ran. -/
def regenerateFieldMetaData (env : Env) :
    World → UA_StatusCode → List UA_DataSetField → List UA_FieldMetaData →
      Except Fault (UA_StatusCode × List UA_FieldMetaData × World)
  | w, res, [], slots => .ok (res, slots, w)
  | _, _, _ :: _, [] => .error .outOfBounds
  | w, _, tmpDSF :: rest, slot :: slots =>
    match generateFieldMetaData env w tmpDSF slot with
    | .error e => .error e
    | .ok (gres, fmd, gw) =>
      if gres ≠ UA_STATUSCODE_GOOD then .ok (gres, UA_FieldMetaData_init :: slots, gw)
      else
        match regenerateFieldMetaData env gw gres rest slots with
        | .error e => .error e
        | .ok (res, slots, w) => .ok (res, fmd :: slots, w)

/-- What `removeDataSetField` hands back. -/
structure RemoveReturn where
  result : UA_DataSetFieldResult
  server : UA_Server
  world : World
  deriving DecidableEq

/-- An early return of `removeDataSetField` before anything is touched. -/
def removeDataSetField_fail (res : UA_StatusCode) (server : UA_Server) (w : World) :
    Except Fault RemoveReturn :=
  .ok ⟨⟨res, ⟨0, 0⟩⟩, server, w⟩

/-- The tail of `removeDataSetField` from "Regenerate DataSetMetaData" on, for the
dataset `pds` whose counters, version and queue are already updated. Returns
the status, whether the function has returned early (before the version is
copied into the result), the dataset and the world. -/
def removeDataSetField_regenerate (env : Env) (w : World) (pds : UA_PublishedDataSet) :
    Except Fault (UA_StatusCode × Bool × UA_PublishedDataSet × World) :=
  if pds.dataSetMetaData.fieldsSize = 0 then .error .counterWrap
  else
  let fieldsSize := pds.dataSetMetaData.fieldsSize - 1
  if fieldsSize > 0 then
    match pds.dataSetMetaData.fields with
    | .null => .error .nullDereference
    | .freed => .error .useAfterFree
    | .block cells =>
      if cells.length < fieldsSize + 1 then .error .outOfBounds
      else
        let a := UA_calloc env w
        if a.1 = false then
          .ok (UA_STATUSCODE_BADOUTOFMEMORY, true,
               { pds with dataSetMetaData :=
                   { pds.dataSetMetaData with fieldsSize := fieldsSize, fields := .freed } },
               a.2)
        else
          match regenerateFieldMetaData env a.2 UA_STATUSCODE_GOOD pds.fields
                  (List.replicate fieldsSize UA_FieldMetaData_init) with
          | .error e => .error e
          | .ok (res, fieldMetaData, rw) =>
            .ok (res, false,
                 { pds with dataSetMetaData :=
                     { pds.dataSetMetaData with fieldsSize := fieldsSize,
                                                fields := .block fieldMetaData } },
                 rw)
  else
    match pds.dataSetMetaData.fields with
    | .null => .error .nullDereference
    | .freed => .error .useAfterFree
    | .block [] => .error .outOfBounds
    | .block (_ :: _) =>
      .ok (UA_STATUSCODE_GOOD, false,
           { pds with dataSetMetaData :=
               { pds.dataSetMetaData with fieldsSize := fieldsSize, fields := .null } },
           w)

/-- The middle of `removeDataSetField`, from "Reduce the counters" to "Remove":
the counters go down, the major version is set to the generated one, and the
field at position `fi` is unlinked from the queue and released. -/
def removeDataSetField_unlink (pds : UA_PublishedDataSet) (currentField : UA_DataSetField)
    (fi : Nat) (majorVersion : Nat) : UA_PublishedDataSet :=
  { pds with
    promotedFieldsCount :=
      if currentField.config.field.var.promotedField = true then pds.promotedFieldsCount - 1
      else pds.promotedFieldsCount,
    fieldSize := pds.fieldSize - 1,
    dataSetMetaData :=
      { pds.dataSetMetaData with
        configurationVersion :=
          { pds.dataSetMetaData.configurationVersion with majorVersion := majorVersion } },
    fields := pds.fields.eraseIdx fi }

/-- The function `removeDataSetField`. The field found by identifier sits at
position `fi` of the queue of the dataset at position `di`; the dataset found
through the back-reference of the field sits at position `pi`. The source
unlinks the field through the queue head of the latter, which is only
meaningful when both are the same dataset. -/
def removeDataSetField (env : Env) (w : World) (server : UA_Server) (dsf : UA_NodeId) :
    Except Fault RemoveReturn :=
  match UA_DataSetField_findDSFbyId server dsf with
  | none => removeDataSetField_fail UA_STATUSCODE_BADNOTFOUND server w
  | some (di, fi, currentField) =>
  match UA_PublishedDataSet_findPDSbyId server currentField.publishedDataSet with
  | none => removeDataSetField_fail UA_STATUSCODE_BADNOTFOUND server w
  | some (pi, pds) =>
  if currentField.configurationFrozen = true then
    removeDataSetField_fail UA_STATUSCODE_BADCONFIGURATIONERROR server w
  else if pds.configurationFrozen = true then
    removeDataSetField_fail UA_STATUSCODE_BADCONFIGURATIONERROR server w
  else if currentField.config.field.var.promotedField = true ∧ pds.promotedFieldsCount = 0 then
    .error .counterWrap
  else if pds.fieldSize = 0 then .error .counterWrap
  else if pi ≠ di then .error .ownerMismatch
  else
  let v := UA_PubSubConfigurationVersionTimeDifference env w
  match removeDataSetField_regenerate env v.2
          (removeDataSetField_unlink pds currentField fi v.1) with
  | .error e => .error e
  | .ok (res, early, pds, rw) =>
    .ok ⟨⟨res, if early = true then ⟨0, 0⟩ else pds.dataSetMetaData.configurationVersion⟩,
         ⟨⟨server.pubSubManager.publishedDataSets.set pi pds⟩⟩, rw⟩

/-! ## Sampling -/

/-- The function `UA_PubSubDataSetField_sampleValue`: the content of `*value`
when it returns, and the world. The server argument of the source only gives
access to the node store and the attribute service, which are in the
environment. -/
def UA_PubSubDataSetField_sampleValue (env : Env) (w : World) (field : UA_DataSetField) :
    Except Fault (UA_DataValue × World) :=
  let params := field.config.field.var.publishParameters
  if field.config.field.var.rtValueSource.rtInformationModelNode = true then
    match env.nodestore params.publishedVariable with
    | none => .error .nullDereference
    | some rtNode =>
      match rtNode.valueBackend.backend.external.value with
      | none => .error .nullDereference
      | some cell =>
        match env.externalValue cell with
        | none => .error .nullDereference
        | some v =>
          .ok ({ v with value := { v.value with storageType := .UA_VARIANT_DATA_NODELETE } }, w)
  else if field.config.field.var.rtValueSource.rtFieldSourceEnabled = false then
    let rvid := UA_ReadValueId_init
    let rvid := { rvid with nodeId := params.publishedVariable }
    let rvid := { rvid with attributeId := params.attributeId }
    let rvid := { rvid with indexRange := params.indexRange }
    .ok (env.readAttribute w.reads rvid .UA_TIMESTAMPSTORETURN_BOTH,
         { w with reads := w.reads + 1 })
  else
    match field.config.field.var.rtValueSource.staticValueSource with
    | none => .error .nullDereference
    | some cell =>
      match env.staticValue cell with
      | none => .error .nullDereference
      | some v =>
        .ok ({ v with value := { v.value with storageType := .UA_VARIANT_DATA_NODELETE } }, w)

/-! ## Clearing a dataset -/

/-- The function `UA_PublishedDataSetConfig_clear`: the name is released. The
members of the template alternative, which the function releases as well, are
not carried by this model of the configuration. -/
def UA_PublishedDataSetConfig_clear (pdsConfig : UA_PublishedDataSetConfig) :
    UA_PublishedDataSetConfig :=
  { pdsConfig with name := "" }

/-- Modelled from the spec: `UA_DataSetMetaDataType_clear` of the types
library, which is not among the sources. It releases the `fieldsSize` entries
behind `fields` and the array, and leaves the structure zeroed. -/
def UA_DataSetMetaDataType_clear (p : UA_DataSetMetaDataType) :
    Except Fault UA_DataSetMetaDataType :=
  match p.fields with
  | .freed => .error .useAfterFree
  | .null =>
    if p.fieldsSize ≠ 0 then .error .nullDereference else .ok ⟨0, .null, ⟨0, 0⟩⟩
  | .block cells =>
    if cells.length < p.fieldsSize then .error .outOfBounds else .ok ⟨0, .null, ⟨0, 0⟩⟩

/-- The loop of `UA_PublishedDataSet_clear` over the queue of the dataset: for
every field, `removeDataSetField` with the identifier of the field; the result
of the call is dropped. The list is the queue as it stands when the loop
starts. A call unlinks at most the first field of the registry that carries
the identifier, and in this queue that field is the visited one or one before
it, so the successor `TAILQ_FOREACH_SAFE` has saved is still linked, and
unchanged, when the loop steps to it. -/
def UA_PublishedDataSet_clear_fields (env : Env) :
    World → UA_Server → List UA_DataSetField → Except Fault (UA_Server × World)
  | w, server, [] => .ok (server, w)
  | w, server, field :: rest =>
    match removeDataSetField env w server field.identifier with
    | .error e => .error e
    | .ok r => UA_PublishedDataSet_clear_fields env r.world r.server rest

/-- The function `UA_PublishedDataSet_clear`. The pointer `publishedDataSet` is
the position of the dataset in the queue of the registry. -/
def UA_PublishedDataSet_clear (env : Env) (w : World) (server : UA_Server)
    (publishedDataSet : Nat) : Except Fault (UA_Server × World) :=
  match server.pubSubManager.publishedDataSets[publishedDataSet]? with
  | none => .error .nullDereference
  | some pds =>
    match UA_PublishedDataSet_clear_fields env w server pds.fields with
    | .error e => .error e
    | .ok (server, w) =>
      match server.pubSubManager.publishedDataSets[publishedDataSet]? with
      | none => .error .nullDereference
      | some pds =>
        match UA_DataSetMetaDataType_clear pds.dataSetMetaData with
        | .error e => .error e
        | .ok dataSetMetaData =>
          .ok (⟨⟨server.pubSubManager.publishedDataSets.set publishedDataSet
                  { pds with config := UA_PublishedDataSetConfig_clear pds.config,
                             dataSetMetaData := dataSetMetaData,
                             identifier := UA_NODEID_NULL }⟩⟩, w)

/-! ## Notions used by the statements -/

/-- The field `addDataSetField` builds from a configuration: the copied
configuration, the back-reference to the dataset and the given identifier; the
borrowed metadata is still the zeroed one. -/
def newFieldOf (cfg : UA_DataSetFieldConfig) (pdsId identifier : UA_NodeId) : UA_DataSetField :=
  { config := cfg, identifier := identifier, publishedDataSet := pdsId,
    fieldMetaData := UA_FieldMetaData_init, configurationFrozen := false }

/-- One call of the management interface on the registry. -/
inductive Call where
  | add (publishedDataSet : UA_NodeId) (fieldConfig : Option UA_DataSetFieldConfig)
      (fieldIdentifier : Option UA_NodeId)
  | remove (dsf : UA_NodeId)

/-- Run one call: the result structure, the server and the world after it. -/
def Call.run (env : Env) (w : World) (server : UA_Server) :
    Call → Except Fault (UA_DataSetFieldResult × UA_Server × World)
  | .add publishedDataSet fieldConfig fieldIdentifier =>
    match addDataSetField env w server publishedDataSet fieldConfig fieldIdentifier with
    | .error e => .error e
    | .ok r => .ok (r.result, r.server, r.world)
  | .remove dsf =>
    match removeDataSetField env w server dsf with
    | .error e => .error e
    | .ok r => .ok (r.result, r.server, r.world)

/-- The size invariant of a dataset: `fieldSize`, the number of fields in the
queue and `dataSetMetaData.fieldsSize` are all equal. -/
def SizeInvariant (ds : UA_PublishedDataSet) : Prop :=
  ds.fieldSize = ds.fields.length ∧ ds.dataSetMetaData.fieldsSize = ds.fields.length

instance (ds : UA_PublishedDataSet) : Decidable (SizeInvariant ds) := by
  unfold SizeInvariant; infer_instance

/-- Positional correspondence of a dataset: the names of the entries of the
metadata array are, position by position, the alias names of the fields in the
queue (and there are as many entries as fields). -/
def PositionalCorrespondence (ds : UA_PublishedDataSet) : Prop :=
  ds.dataSetMetaData.fields.cells.map (fun m => m.name) =
    ds.fields.map (fun f => f.config.field.var.fieldNameAlias)

instance (ds : UA_PublishedDataSet) : Decidable (PositionalCorrespondence ds) := by
  unfold PositionalCorrespondence; infer_instance

/-- Run a sequence of calls, each against the environment given with it: the
server and the world after the last one. -/
def runCalls (w : World) (server : UA_Server) :
    List (Env × Call) → Except Fault (UA_Server × World)
  | [] => .ok (server, w)
  | (env, call) :: rest =>
    match call.run env w server with
    | .error e => .error e
    | .ok (_, server', w') => runCalls w' server' rest

/-- Whether the call is a `removeDataSetField`. -/
def Call.isRemove : Call → Bool
  | .remove _ => true
  | .add _ _ _ => false

/-- The check behind `RemovesComplete`, along the run of the sequence. -/
def removesComplete (w : World) (server : UA_Server) : List (Env × Call) → Bool
  | [] => true
  | (env, call) :: rest =>
    match call.run env w server with
    | .error _ => true
    | .ok (res, server', w') =>
      (!call.isRemove || decide (res.result = UA_STATUSCODE_GOOD) || decide (server' = server)) &&
        removesComplete w' server' rest

/-- Every `removeDataSetField` call of the sequence either returns `Good` or
leaves the registry as it was (it failed a precondition): none of them fails
while the metadata array is rebuilt. -/
def RemovesComplete (w : World) (server : UA_Server) (calls : List (Env × Call)) : Prop :=
  removesComplete w server calls = true

instance (w : World) (server : UA_Server) (calls : List (Env × Call)) :
    Decidable (RemovesComplete w server calls) := by
  unfold RemovesComplete; infer_instance

/-- The position of the dataset a call works on: the one the dataset identifier
resolves to for an add, the one that holds the field for a remove. -/
def Call.target (server : UA_Server) : Call → Option Nat
  | .add publishedDataSet _ _ =>
    (UA_PublishedDataSet_findPDSbyId server publishedDataSet).map (fun r => r.1)
  | .remove dsf => (UA_DataSetField_findDSFbyId server dsf).map (fun r => r.1)

/-! ## Concrete data for the instances -/

/-- An environment in which every collaborator answers well: the k-th GUID has
`data1 = k + 1`, the heap serves every request, the clock gives `100 + k` (and
stays at the largest `UA_UInt32` once it is reached), and every published
variable is a scalar of the null data type. -/
def demoEnv : Env :=
  { randomGuid := fun k => ⟨k + 1, 0, 0, []⟩,
    allocOk := fun _ => true,
    versionTime := fun k => min (100 + k) 4294967295,
    readArrayDimensions := fun _ _ => (UA_STATUSCODE_GOOD, UA_Variant_init),
    readDataType := fun _ _ => (UA_STATUSCODE_GOOD, UA_NODEID_NULL),
    readValueRank := fun _ _ => (UA_STATUSCODE_GOOD, -1),
    findDataType := fun _ => none,
    staticValue := fun _ => none,
    nodestore := fun _ => none,
    externalValue := fun _ => none,
    readAttribute := fun _ _ _ =>
      { value := UA_Variant_init, sourceTimestamp := 0, serverTimestamp := 0,
        sourcePicoseconds := 0, serverPicoseconds := 0, status := UA_STATUSCODE_GOOD,
        hasValue := false, hasStatus := false, hasSourceTimestamp := false,
        hasServerTimestamp := false, hasSourcePicoseconds := false,
        hasServerPicoseconds := false } }

/-- A variable field configuration with the given alias and promoted flag and
the generic value source. -/
def demoConfig (fieldNameAlias : String) (promotedField : Bool) : UA_DataSetFieldConfig :=
  { dataSetFieldType := .UA_PUBSUB_DATASETFIELD_VARIABLE,
    field := ⟨{ configurationVersion := ⟨0, 0⟩, fieldNameAlias := fieldNameAlias,
                promotedField := promotedField,
                publishParameters :=
                  { UA_PublishedVariableDataType_init with publishedVariable := ⟨1, .numeric 42⟩,
                                                           attributeId := 13 },
                rtValueSource := ⟨false, false, none⟩, maxStringLength := 0 }⟩ }

def demoPdsId : UA_NodeId := ⟨1, .numeric 7⟩

/-- An empty, unfrozen dataset of published items. -/
def demoDataSet : UA_PublishedDataSet :=
  { config := ⟨"D", .UA_PUBSUB_DATASET_PUBLISHEDITEMS⟩,
    dataSetMetaData := ⟨0, .null, ⟨0, 0⟩⟩, fields := [],
    identifier := demoPdsId, fieldSize := 0, promotedFieldsCount := 0,
    configurationFrozen := false }

def demoServer : UA_Server := ⟨⟨[demoDataSet]⟩⟩

def demoWorld : World := ⟨0, 0, 0, 0⟩

/-- Result, server and world after a call; the arguments unchanged when the
execution faults. -/
def Call.runOr (env : Env) (w : World) (server : UA_Server) (call : Call) :
    UA_DataSetFieldResult × UA_Server × World :=
  match call.run env w server with
  | .ok x => x
  | .error _ => (⟨UA_STATUSCODE_GOOD, ⟨0, 0⟩⟩, server, w)

/-- The demo registry after adding the field "temp". -/
def demoAfterTemp : UA_DataSetFieldResult × UA_Server × World :=
  Call.runOr demoEnv demoWorld demoServer (.add demoPdsId (some (demoConfig "temp" false)) none)

/-- The demo registry after adding the promoted field "pressure" as well. -/
def demoAfterPressure : UA_DataSetFieldResult × UA_Server × World :=
  Call.runOr demoEnv demoAfterTemp.2.2 demoAfterTemp.2.1
    (.add demoPdsId (some (demoConfig "pressure" true)) none)

/-- The demo environment with a failing value rank read. -/
def demoEnvValueRankFails : Env :=
  { demoEnv with readValueRank := fun _ _ => (UA_STATUSCODE_BADUNEXPECTEDERROR, 0) }

/-- The identifier the demo environment gives to the first field it adds. -/
def demoTempId : UA_NodeId := UA_NODEID_GUID 1 ⟨1, 0, 0, []⟩

/-- Add "temp", add "pressure", then remove "temp" while the value rank of the
remaining field cannot be read. -/
def demoDegradingCalls : List (Env × Call) :=
  [(demoEnv, .add demoPdsId (some (demoConfig "temp" false)) none),
   (demoEnv, .add demoPdsId (some (demoConfig "pressure" true)) none),
   (demoEnvValueRankFails, .remove demoTempId)]

/-- The same three calls with every read answered. -/
def demoCompleteCalls : List (Env × Call) :=
  [(demoEnv, .add demoPdsId (some (demoConfig "temp" false)) none),
   (demoEnv, .add demoPdsId (some (demoConfig "pressure" true)) none),
   (demoEnv, .remove demoTempId)]

/-- Server and world after a sequence of calls; the start when it faults. -/
def runCallsOr (w : World) (server : UA_Server) (calls : List (Env × Call)) : UA_Server × World :=
  match runCalls w server calls with
  | .ok x => x
  | .error _ => (server, w)

/-- The demo dataset with the frozen flag set. -/
def demoFrozenDataSet : UA_PublishedDataSet := { demoDataSet with configurationFrozen := true }

/-- A field configuration of the event kind. -/
def demoEventConfig : UA_DataSetFieldConfig :=
  { demoConfig "alarm" false with dataSetFieldType := .UA_PUBSUB_DATASETFIELD_EVENT }

/-- What metadata generation for the field "temp" yields in the demo registry
when the value rank cannot be read. -/
def demoFailedGeneration : UA_StatusCode × UA_FieldMetaData × World :=
  match generateFieldMetaData demoEnvValueRankFails { demoWorld with allocs := demoWorld.allocs + 4 }
      (newFieldOf (demoConfig "temp" false) demoDataSet.identifier UA_NODEID_NULL)
      UA_FieldMetaData_init with
  | .ok x => x
  | .error _ => (UA_STATUSCODE_GOOD, UA_FieldMetaData_init, demoWorld)

/-- What adding "pressure" to the demo registry that holds "temp" hands back,
with an out-parameter for the identifier. -/
def demoAddPressure : AddReturn :=
  match addDataSetField demoEnv demoAfterTemp.2.2 demoAfterTemp.2.1 demoPdsId
      (some (demoConfig "pressure" true)) (some UA_NODEID_NULL) with
  | .ok r => r
  | .error _ => ⟨⟨UA_STATUSCODE_GOOD, ⟨0, 0⟩⟩, none, demoServer, demoWorld⟩

/-- The dataset of the demo registry once it holds the field "temp". -/
def demoTempDataSet : UA_PublishedDataSet :=
  demoAfterTemp.2.1.pubSubManager.publishedDataSets.headD demoDataSet

/-- The field "temp" as it sits in the demo registry. -/
def demoTempField : UA_DataSetField :=
  demoTempDataSet.fields.headD (newFieldOf (demoConfig "temp" false) demoPdsId demoTempId)

/-- What removing "temp" from the demo registry that holds only "temp" hands
back. -/
def demoRemoveTemp : RemoveReturn :=
  match removeDataSetField demoEnv demoAfterTemp.2.2 demoAfterTemp.2.1 demoTempId with
  | .ok r => r
  | .error _ => ⟨⟨UA_STATUSCODE_BADINTERNALERROR, ⟨0, 0⟩⟩, demoServer, demoWorld⟩

/-- A snapshot value: a two by three array of a type with identifier 11. -/
def demoSnapshot : UA_DataValue :=
  { value := { type := some ⟨⟨0, .numeric 11⟩, 10, "Double"⟩, storageType := .UA_VARIANT_DATA,
               arrayLength := 6, data := [1, 2, 3, 4, 5, 6], arrayDimensions := [2, 3] },
    sourceTimestamp := 0, serverTimestamp := 0, sourcePicoseconds := 0, serverPicoseconds := 0,
    status := UA_STATUSCODE_GOOD, hasValue := true, hasStatus := false,
    hasSourceTimestamp := false, hasServerTimestamp := false,
    hasSourcePicoseconds := false, hasServerPicoseconds := false }

/-- The demo environment with the snapshot behind the pointer cell 5. Every
attribute read fails in it. -/
def demoStaticEnv : Env :=
  { demoEnv with
    staticValue := fun a => if a = 5 then some demoSnapshot else none,
    readArrayDimensions := fun _ _ => (UA_STATUSCODE_BADINTERNALERROR, UA_Variant_init),
    readDataType := fun _ _ => (UA_STATUSCODE_BADINTERNALERROR, UA_NODEID_NULL),
    readValueRank := fun _ _ => (UA_STATUSCODE_BADINTERNALERROR, 0) }

/-- A promoted field "level" whose value source is the static snapshot behind
cell 5. -/
def demoStaticField : UA_DataSetField :=
  newFieldOf
    { demoConfig "level" true with
      field := ⟨{ (demoConfig "level" true).field.var with
                  rtValueSource := ⟨true, false, some 5⟩ }⟩ }
    demoPdsId UA_NODEID_NULL

/-- What metadata generation yields for the static demo field. -/
def demoStaticGeneration : UA_StatusCode × UA_FieldMetaData × World :=
  match generateFieldMetaData demoStaticEnv demoWorld demoStaticField UA_FieldMetaData_init with
  | .ok x => x
  | .error _ => (UA_STATUSCODE_BADINTERNALERROR, UA_FieldMetaData_init, demoWorld)

/-- The demo dataset as a template dataset. -/
def demoTemplateDataSet : UA_PublishedDataSet :=
  { demoDataSet with config := ⟨"T", .UA_PUBSUB_DATASET_PUBLISHEDITEMS_TEMPLATE⟩ }

/-- The demo registry that holds "temp", with the field frozen. -/
def demoFrozenFieldServer : UA_Server :=
  ⟨⟨[{ demoTempDataSet with
       fields := [{ demoTempField with configurationFrozen := true }] }]⟩⟩

/-- The demo registry that holds "temp", with the dataset frozen. -/
def demoFrozenTempServer : UA_Server :=
  ⟨⟨[{ demoTempDataSet with configurationFrozen := true }]⟩⟩

/-- The demo environment for sampling: the node store holds a variable node at
the published variable of the demo configuration, its external value cell 8
holds the snapshot, the snapshot also sits behind the pointer cell 5, and an
attribute read answers with a value that records the call counter and the
attribute it was asked for. -/
def demoSampleEnv : Env :=
  { demoEnv with
    nodestore := fun n => if n = ⟨1, .numeric 42⟩ then some ⟨⟨⟨⟨some 8⟩⟩⟩⟩ else none,
    externalValue := fun a => if a = 8 then some demoSnapshot else none,
    staticValue := fun a => if a = 5 then some demoSnapshot else none,
    readAttribute := fun k rvid _ =>
      { demoSnapshot with
        value := { UA_Variant_init with data := [k, rvid.attributeId] },
        hasSourceTimestamp := true, hasServerTimestamp := true } }

/-- A field "speed" that is bound to the live node of its published
variable. -/
def demoLiveField : UA_DataSetField :=
  newFieldOf
    { demoConfig "speed" false with
      field := ⟨{ (demoConfig "speed" false).field.var with
                  rtValueSource := ⟨false, true, none⟩ }⟩ }
    demoPdsId UA_NODEID_NULL

/-- The shared identifier of a dataset: position by position, the identifier of
a field of the queue is the GUID node id in namespace 1 built from the
`dataSetFieldId` of the entry of the metadata array. -/
def SharedIdentifier (ds : UA_PublishedDataSet) : Prop :=
  ds.fields.map (fun f => f.identifier) =
    ds.dataSetMetaData.fields.cells.map (fun m => UA_NODEID_GUID 1 m.dataSetFieldId)

instance (ds : UA_PublishedDataSet) : Decidable (SharedIdentifier ds) := by
  unfold SharedIdentifier; infer_instance

/-- The borrowed views of a dataset are bound: position by position, the
`fieldMetaData` a field of the queue holds is the entry of the metadata
array. -/
def ViewsBound (ds : UA_PublishedDataSet) : Prop :=
  ds.fields.map (fun f => f.fieldMetaData) = ds.dataSetMetaData.fields.cells

instance (ds : UA_PublishedDataSet) : Decidable (ViewsBound ds) := by
  unfold ViewsBound; infer_instance

/-- The demo environment in which the data type read answers with an identifier
the type registry does not know. -/
def demoEnvUnknownType : Env :=
  { demoEnv with readDataType := fun _ _ => (UA_STATUSCODE_GOOD, ⟨1, .numeric 9999⟩) }

/-- What removing "temp" from the demo registry that holds "temp" and
"pressure" hands back. -/
def demoRemoveTempOfTwo : RemoveReturn :=
  match removeDataSetField demoEnv demoAfterPressure.2.2 demoAfterPressure.2.1 demoTempId with
  | .ok r => r
  | .error _ => ⟨⟨UA_STATUSCODE_BADINTERNALERROR, ⟨0, 0⟩⟩, demoServer, demoWorld⟩

/-- The dataset of the demo registry that holds "temp" and "pressure". -/
def demoPressureDataSet : UA_PublishedDataSet :=
  demoAfterPressure.2.1.pubSubManager.publishedDataSets.headD demoDataSet

/-- The dataset of the demo registry after "temp" was removed from "temp"
and "pressure". -/
def demoRemainingDataSet : UA_PublishedDataSet :=
  demoRemoveTempOfTwo.server.pubSubManager.publishedDataSets.headD demoDataSet

/-- The entry metadata generation gives the demo field "pressure" when the
generator is at its k-th GUID. -/
def demoPressureEntry (k : Nat) : UA_FieldMetaData :=
  { UA_FieldMetaData_init with
    name := "pressure", fieldFlags := UA_DATASETFIELDFLAGS_PROMOTEDFIELD, valueRank := -1,
    dataSetFieldId := ⟨k, 0, 0, []⟩ }

/-- The bookkeeping of a dataset is consistent: the size invariant holds, the
metadata array is a live allocation (or null) with one entry per field, and
`promotedFieldsCount` is the number of promoted fields in the queue. -/
def Consistent (ds : UA_PublishedDataSet) : Prop :=
  SizeInvariant ds ∧
  ds.dataSetMetaData.fields.cells.length = ds.fields.length ∧
  ds.dataSetMetaData.fields ≠ .freed ∧
  ds.promotedFieldsCount =
    (ds.fields.filter (fun f => f.config.field.var.promotedField)).length

instance (ds : UA_PublishedDataSet) : Decidable (Consistent ds) := by
  unfold Consistent; infer_instance

/-- What clearing the frozen dataset that holds "temp" leaves. -/
def demoClearFrozen : UA_Server × World :=
  match UA_PublishedDataSet_clear demoEnv demoWorld demoFrozenTempServer 0 with
  | .ok x => x
  | .error _ => (demoServer, demoWorld)

/-- The promoted-field counter invariant of a dataset: `promotedFieldsCount` is
the number of fields in the queue whose configuration has `promotedField`
set. -/
def PromotedInvariant (ds : UA_PublishedDataSet) : Prop :=
  ds.promotedFieldsCount =
    (ds.fields.filter (fun f => f.config.field.var.promotedField)).length

instance (ds : UA_PublishedDataSet) : Decidable (PromotedInvariant ds) := by
  unfold PromotedInvariant; infer_instance

/-- What adding the promoted static snapshot field "level" to the empty demo
registry hands back. -/
def demoAddStatic : AddReturn :=
  match addDataSetField demoStaticEnv demoWorld demoServer demoPdsId
      (some demoStaticField.config) none with
  | .ok r => r
  | .error _ => ⟨⟨UA_STATUSCODE_BADINTERNALERROR, ⟨0, 0⟩⟩, none, demoServer, demoWorld⟩

/-- The identifier the demo environment gives to the second field it adds. -/
def demoPressureId : UA_NodeId := UA_NODEID_GUID 1 ⟨2, 0, 0, []⟩

/-- The field "pressure" as it sits in the demo registry. -/
def demoPressureField : UA_DataSetField :=
  (demoPressureDataSet.fields.drop 1).headD demoTempField

/-- What removing "pressure" from the demo registry that holds "temp" and
"pressure" hands back. -/
def demoRemovePressure : RemoveReturn :=
  match removeDataSetField demoEnv demoAfterPressure.2.2 demoAfterPressure.2.1
      demoPressureId with
  | .ok r => r
  | .error _ => ⟨⟨UA_STATUSCODE_BADINTERNALERROR, ⟨0, 0⟩⟩, demoServer, demoWorld⟩

/-- What metadata generation yields for the promoted generic demo field
"pressure" from a zeroed entry. -/
def demoPressureGeneration : UA_StatusCode × UA_FieldMetaData × World :=
  match generateFieldMetaData demoEnv demoWorld
      (newFieldOf (demoConfig "pressure" true) demoPdsId UA_NODEID_NULL)
      UA_FieldMetaData_init with
  | .ok x => x
  | .error _ => (UA_STATUSCODE_BADINTERNALERROR, UA_FieldMetaData_init, demoWorld)

/-- The demo environment in which the data type read answers with the
identifier `ns=0;i=12`, which the type registry knows as the string type, and
`ns=0;i=22` is known as a structured type. -/
def demoEnvString : Env :=
  { demoEnv with
    readDataType := fun _ _ => (UA_STATUSCODE_GOOD, ⟨0, .numeric 12⟩),
    findDataType := fun n =>
      if n = ⟨0, .numeric 12⟩ then some ⟨⟨0, .numeric 12⟩, UA_DATATYPEKIND_STRING, "String"⟩
      else if n = ⟨0, .numeric 22⟩ then some ⟨⟨0, .numeric 22⟩, 27, "Structure"⟩
      else none }

/-- The demo environment in which the data type read answers with the
identifier of the structured type. -/
def demoEnvStructure : Env :=
  { demoEnvString with readDataType := fun _ _ => (UA_STATUSCODE_GOOD, ⟨0, .numeric 22⟩) }

/-- A generic field "label" with a configured maximal string length of 32. -/
def demoLabelField : UA_DataSetField :=
  newFieldOf
    { demoConfig "label" false with
      field := ⟨{ (demoConfig "label" false).field.var with maxStringLength := 32 }⟩ }
    demoPdsId UA_NODEID_NULL

/-- The field identifiers of the registry, dataset by dataset in queue order. -/
def UA_Server.fieldIdentifiers (server : UA_Server) : List UA_NodeId :=
  (server.pubSubManager.publishedDataSets.map
    (fun ds => ds.fields.map (fun f => f.identifier))).flatten

/-- The field identifiers of the registry are pairwise distinct. -/
def DistinctFieldIdentifiers (server : UA_Server) : Prop :=
  server.fieldIdentifiers.Nodup

instance (server : UA_Server) : Decidable (DistinctFieldIdentifiers server) := by
  unfold DistinctFieldIdentifiers; infer_instance

/-- The entries metadata generation yields for the fields of a list one after
another, each from a zeroed entry, and the world after the last of them; `none`
when one of the generations does not return `Good`. -/
def generateInOrder (env : Env) :
    World → List UA_DataSetField → Option (List UA_FieldMetaData × World)
  | w, [] => some ([], w)
  | w, f :: rest =>
    match generateFieldMetaData env w f UA_FieldMetaData_init with
    | .error _ => none
    | .ok (res, fmd, gw) =>
      if res = UA_STATUSCODE_GOOD then
        (generateInOrder env gw rest).map (fun r => (fmd :: r.1, r.2))
      else none

/-- The demo registry after adding a third field "flow". -/
def demoAfterFlow : UA_DataSetFieldResult × UA_Server × World :=
  Call.runOr demoEnv demoAfterPressure.2.2 demoAfterPressure.2.1
    (.add demoPdsId (some (demoConfig "flow" false)) none)

/-- The dataset of the demo registry that holds "temp", "pressure" and
"flow". -/
def demoFlowDataSet : UA_PublishedDataSet :=
  demoAfterFlow.2.1.pubSubManager.publishedDataSets.headD demoDataSet

/-- The field "flow" as it sits in the demo registry. -/
def demoFlowField : UA_DataSetField :=
  (demoFlowDataSet.fields.drop 2).headD demoTempField

/-- The demo environment in which the value rank reads succeed up to read
number 13 and fail from read number 14 on. -/
def demoEnvLateRankFails : Env :=
  { demoEnv with
    readValueRank := fun k _ =>
      if k < 14 then (UA_STATUSCODE_GOOD, -1) else (UA_STATUSCODE_BADUNEXPECTEDERROR, 0) }

/-- The entries and the world after regenerating the first remaining field
once "temp" is unlinked from "temp", "pressure" and "flow". -/
def demoDegradedEntries : List UA_FieldMetaData × World :=
  (generateInOrder demoEnvLateRankFails
    { demoAfterFlow.2.2 with allocs := demoAfterFlow.2.2.allocs + 1,
                             clocks := demoAfterFlow.2.2.clocks + 1 }
    ((demoFlowDataSet.fields.eraseIdx 0).take 1)).getD ([], demoWorld)

/-- What the generation for "flow" yields after that. -/
def demoDegradedFailure : UA_StatusCode × UA_FieldMetaData × World :=
  match generateFieldMetaData demoEnvLateRankFails demoDegradedEntries.2 demoFlowField
      UA_FieldMetaData_init with
  | .ok x => x
  | .error _ => (UA_STATUSCODE_GOOD, UA_FieldMetaData_init, demoWorld)

/-! # Theorems -/

/-! ## Lookup and copies -/

theorem getElem?_set_same {α : Type} {l : List α} {i : Nat} (x : α) (h : i < l.length) :
    (l.set i x)[i]? = some x := by
  simp [List.getElem?_set, h]

theorem getElem?_set_other {α : Type} {l : List α} {i j : Nat} (x : α) (h : i ≠ j) :
    (l.set i x)[j]? = l[j]? := by
  simp [List.getElem?_set, h]

theorem lt_length_of_getElem? {α : Type} {l : List α} {i : Nat} {x : α} (h : l[i]? = some x) :
    i < l.length := by
  by_contra hlt
  rw [List.getElem?_eq_none (Nat.le_of_not_lt hlt)] at h
  exact absurd h (by simp)

theorem findPDSbyId_some {identifier : UA_NodeId} :
    ∀ {l : List UA_PublishedDataSet} {i : Nat} {ds : UA_PublishedDataSet},
      findPDSbyId identifier l = some (i, ds) → l[i]? = some ds ∧ ds.identifier = identifier
  | [], _, _, h => by simp [findPDSbyId] at h
  | d :: rest, i, ds, h => by
    unfold findPDSbyId at h
    by_cases hd : UA_NodeId_equal d.identifier identifier = true
    · simp only [hd, if_true, Option.some.injEq, Prod.mk.injEq] at h
      obtain ⟨rfl, rfl⟩ := h
      exact ⟨by simp, by simpa [UA_NodeId_equal] using hd⟩
    · simp only [hd, Bool.false_eq_true, if_false, Option.map_eq_some'] at h
      obtain ⟨⟨k, d'⟩, hk, hkk⟩ := h
      simp only [Prod.mk.injEq] at hkk
      obtain ⟨rfl, rfl⟩ := hkk
      have := findPDSbyId_some hk
      simpa using this

theorem findFieldbyId_some {identifier : UA_NodeId} :
    ∀ {l : List UA_DataSetField} {i : Nat} {f : UA_DataSetField},
      findFieldbyId identifier l = some (i, f) → l[i]? = some f ∧ f.identifier = identifier
  | [], _, _, h => by simp [findFieldbyId] at h
  | d :: rest, i, ds, h => by
    unfold findFieldbyId at h
    by_cases hd : UA_NodeId_equal d.identifier identifier = true
    · simp only [hd, if_true, Option.some.injEq, Prod.mk.injEq] at h
      obtain ⟨rfl, rfl⟩ := h
      exact ⟨by simp, by simpa [UA_NodeId_equal] using hd⟩
    · simp only [hd, Bool.false_eq_true, if_false, Option.map_eq_some'] at h
      obtain ⟨⟨k, d'⟩, hk, hkk⟩ := h
      simp only [Prod.mk.injEq] at hkk
      obtain ⟨rfl, rfl⟩ := hkk
      have := findFieldbyId_some hk
      simpa using this

theorem findDSFbyId_some {identifier : UA_NodeId} :
    ∀ {l : List UA_PublishedDataSet} {di fi : Nat} {f : UA_DataSetField},
      findDSFbyId identifier l = some (di, fi, f) →
        ∃ ds, l[di]? = some ds ∧ ds.fields[fi]? = some f ∧ f.identifier = identifier
  | [], _, _, _, h => by simp [findDSFbyId] at h
  | d :: rest, di, fi, f, h => by
    unfold findDSFbyId at h
    cases hf : findFieldbyId identifier d.fields with
    | some r =>
      obtain ⟨k, g⟩ := r
      simp only [hf, Option.some.injEq, Prod.mk.injEq] at h
      obtain ⟨rfl, rfl, rfl⟩ := h
      exact ⟨d, by simp, findFieldbyId_some hf⟩
    | none =>
      simp only [hf, Option.map_eq_some'] at h
      obtain ⟨⟨a, b, c⟩, hk, hkk⟩ := h
      simp only [Prod.mk.injEq] at hkk
      obtain ⟨rfl, rfl, rfl⟩ := hkk
      obtain ⟨ds, h1, h2⟩ := findDSFbyId_some hk
      exact ⟨ds, by simpa using h1, h2⟩

theorem UA_DataSetFieldConfig_copy_good {env : Env} {w : World} {src dst : UA_DataSetFieldConfig}
    (h : (UA_DataSetFieldConfig_copy env w src dst).1 = UA_STATUSCODE_GOOD) :
    (UA_DataSetFieldConfig_copy env w src dst).2.1 = src ∧
      src.dataSetFieldType = .UA_PUBSUB_DATASETFIELD_VARIABLE := by
  obtain ⟨t, ⟨v⟩⟩ := src
  unfold UA_DataSetFieldConfig_copy at h ⊢
  by_cases ht : t = .UA_PUBSUB_DATASETFIELD_VARIABLE
  · simp only [ht, ne_eq, not_true_eq_false, if_false] at h ⊢
    simp only [UA_String_copy, UA_PublishedVariableDataType_copy, UA_calloc] at h ⊢
    cases h1 : env.allocOk w.allocs <;> cases h2 : env.allocOk (w.allocs + 1) <;>
      simp [h1, h2, UA_STATUSCODE_GOOD, UA_STATUSCODE_BADOUTOFMEMORY] at h ⊢
  · simp [ht, UA_STATUSCODE_BADNOTSUPPORTED, UA_STATUSCODE_GOOD] at h

/-! ## The shape of a call of addDataSetField -/

theorem UA_NodeId_copy_good {env : Env} {w : World} {src : UA_NodeId}
    (h : (UA_NodeId_copy env w src).1 = UA_STATUSCODE_GOOD) : (UA_NodeId_copy env w src).2.1 = src := by
  unfold UA_NodeId_copy UA_calloc at h ⊢
  cases h1 : env.allocOk w.allocs <;>
    simp [h1, UA_STATUSCODE_GOOD, UA_STATUSCODE_BADOUTOFMEMORY] at h ⊢

theorem UA_Array_append_good {env : Env} {w aw : World} {p p' : FieldsStorage} {size size' : Nat}
    {e : UA_FieldMetaData}
    (h : UA_Array_append env w p size e = .ok (UA_STATUSCODE_GOOD, p', size', aw)) :
    size = p.cells.length ∧ p ≠ .freed ∧ p' = .block (p.cells ++ [e]) ∧ size' = p.cells.length + 1 ∧
      aw = (UA_calloc env w).2 := by
  unfold UA_Array_append at h
  cases p with
  | freed => simp at h
  | null =>
    by_cases hs : size = 0
    · subst hs
      by_cases ha : (UA_calloc env w).1 = false
      · simp [ha, UA_STATUSCODE_GOOD, UA_STATUSCODE_BADOUTOFMEMORY] at h
      · simp [ha] at h
        simp [FieldsStorage.cells, h.1, h.2.1, h.2.2]
    · simp [hs] at h
  | block cells =>
    by_cases hs : cells.length = size
    · subst hs
      by_cases ha : (UA_calloc env w).1 = false
      · simp [ha, UA_STATUSCODE_GOOD, UA_STATUSCODE_BADOUTOFMEMORY] at h
      · simp [ha] at h
        simp [FieldsStorage.cells, h.1, h.2.1, h.2.2]
    · simp [hs] at h

theorem UA_Array_append_bad {env : Env} {w aw : World} {p p' : FieldsStorage} {size size' : Nat}
    {e : UA_FieldMetaData} {res : UA_StatusCode}
    (h : UA_Array_append env w p size e = .ok (res, p', size', aw)) (hres : res ≠ UA_STATUSCODE_GOOD) :
    p' = p ∧ size' = size := by
  unfold UA_Array_append at h
  cases p with
  | freed => simp at h
  | null =>
    by_cases hs : size = 0
    · subst hs
      by_cases ha : (UA_calloc env w).1 = false
      · simp [ha] at h
        simp [← h.2.1, ← h.2.2.1]
      · simp [ha] at h
        exact absurd h.1.symm hres
    · simp [hs] at h
  | block cells =>
    by_cases hs : cells.length = size
    · subst hs
      by_cases ha : (UA_calloc env w).1 = false
      · simp [ha] at h
        simp [← h.2.1, ← h.2.2.1]
      · simp [ha] at h
        exact absurd h.1.symm hres
    · simp [hs] at h

theorem UA_calloc_world (env : Env) (w : World) :
    (UA_calloc env w).2 = { w with allocs := w.allocs + 1 } := rfl

theorem UA_NodeId_copy_world (env : Env) (w : World) (src : UA_NodeId) :
    (UA_NodeId_copy env w src).2.2 = { w with allocs := w.allocs + 1 } := by
  unfold UA_NodeId_copy UA_calloc
  simp only []
  split <;> rfl

theorem UA_DataSetFieldConfig_copy_world {env : Env} {w : World} {src dst : UA_DataSetFieldConfig}
    (hvar : src.dataSetFieldType = .UA_PUBSUB_DATASETFIELD_VARIABLE) :
    (UA_DataSetFieldConfig_copy env w src dst).2.2 = { w with allocs := w.allocs + 2 } := by
  unfold UA_DataSetFieldConfig_copy UA_String_copy UA_PublishedVariableDataType_copy UA_calloc
  simp only [hvar, ne_eq, not_true_eq_false, if_false]
  cases h1 : env.allocOk w.allocs <;> cases h2 : env.allocOk (w.allocs + 1) <;>
    simp [h1, h2, UA_STATUSCODE_GOOD, UA_STATUSCODE_BADOUTOFMEMORY]

/-- A call of `addDataSetField` that returns either failed and touched nothing,
or went through every step. -/
theorem addDataSetField_ok {env : Env} {w : World} {server : UA_Server} {pdsId : UA_NodeId}
    {fieldConfig : Option UA_DataSetFieldConfig} {out : Option UA_NodeId} {r : AddReturn}
    (h : addDataSetField env w server pdsId fieldConfig out = .ok r) :
    (r.server = server ∧ r.result.result ≠ UA_STATUSCODE_GOOD ∧ r.fieldIdentifier = out ∧
       r.result.configurationVersion = ⟨0, 0⟩) ∨
    ∃ cfg i currDS fmd gw dsfs,
      fieldConfig = some cfg ∧
      UA_PublishedDataSet_findPDSbyId server pdsId = some (i, currDS) ∧
      currDS.configurationFrozen = false ∧
      currDS.config.publishedDataSetType = .UA_PUBSUB_DATASET_PUBLISHEDITEMS ∧
      cfg.dataSetFieldType = .UA_PUBSUB_DATASETFIELD_VARIABLE ∧
      generateFieldMetaData env { w with allocs := w.allocs + 4 }
        (newFieldOf cfg currDS.identifier UA_NODEID_NULL)
        UA_FieldMetaData_init = .ok (UA_STATUSCODE_GOOD, fmd, gw) ∧
      currDS.dataSetMetaData.fieldsSize = currDS.dataSetMetaData.fields.cells.length ∧
      currDS.dataSetMetaData.fields ≠ .freed ∧
      rebindFieldMetaData
        (currDS.fields ++ [newFieldOf cfg currDS.identifier (UA_NODEID_GUID 1 fmd.dataSetFieldId)])
        (currDS.dataSetMetaData.fields.cells ++ [fmd]) = .ok dsfs ∧
      r.result = ⟨UA_STATUSCODE_GOOD,
        ⟨env.version gw.clocks, currDS.dataSetMetaData.configurationVersion.minorVersion⟩⟩ ∧
      r.fieldIdentifier = out.map (fun _ => UA_NODEID_GUID 1 fmd.dataSetFieldId) ∧
      r.world = { gw with allocs := gw.allocs + 1, clocks := gw.clocks + 1 } ∧
      r.server = ⟨⟨server.pubSubManager.publishedDataSets.set i
        (addDataSetField_commit currDS cfg.field.var.promotedField
          (.block (currDS.dataSetMetaData.fields.cells ++ [fmd]))
          (currDS.dataSetMetaData.fields.cells.length + 1) dsfs (env.version gw.clocks))⟩⟩ := by
  unfold addDataSetField at h
  split at h
  · left; simp only [addDataSetField_fail, Except.ok.injEq] at h; subst h
    simp [UA_STATUSCODE_BADINVALIDARGUMENT, UA_STATUSCODE_GOOD]
  · rename_i cfg
    split at h
    · left; simp only [addDataSetField_fail, Except.ok.injEq] at h; subst h
      simp [UA_STATUSCODE_BADNOTFOUND, UA_STATUSCODE_GOOD]
    · rename_i i currDS hfind
      split at h
      · left; simp only [addDataSetField_fail, Except.ok.injEq] at h; subst h
        simp [UA_STATUSCODE_BADCONFIGURATIONERROR, UA_STATUSCODE_GOOD]
      · rename_i hfrozen
        split at h
        · left; simp only [addDataSetField_fail, Except.ok.injEq] at h; subst h
          simp [UA_STATUSCODE_BADNOTIMPLEMENTED, UA_STATUSCODE_GOOD]
        · rename_i htype
          simp only [] at h
          split at h
          · left; simp only [addDataSetField_fail, Except.ok.injEq] at h; subst h
            simp [UA_STATUSCODE_BADINTERNALERROR, UA_STATUSCODE_GOOD]
          · split at h
            · rename_i hc
              left; simp only [addDataSetField_fail, Except.ok.injEq] at h; subst h
              exact ⟨rfl, hc, rfl, rfl⟩
            · rename_i hc
              have hc' := UA_DataSetFieldConfig_copy_good (not_not.mp hc)
              split at h
              · rename_i hn
                left; simp only [addDataSetField_fail, Except.ok.injEq] at h; subst h
                exact ⟨rfl, hn, rfl, rfl⟩
              · rename_i hn
                have hn' := UA_NodeId_copy_good (not_not.mp hn)
                simp only [hc'.1, hn'] at h
                simp only [UA_NodeId_copy_world, UA_DataSetFieldConfig_copy_world hc'.2,
                  UA_calloc_world, Nat.add_assoc, Nat.reduceAdd] at h
                split at h
                · simp at h
                · rename_i gres fmd gw hgen
                  split at h
                  · rename_i hg
                    left; simp only [addDataSetField_fail, Except.ok.injEq] at h; subst h
                    exact ⟨rfl, hg, rfl, rfl⟩
                  · rename_i hg
                    have hg' : gres = UA_STATUSCODE_GOOD := not_not.mp hg
                    subst hg'
                    split at h
                    · simp at h
                    · rename_i ares fields fieldsSize aw happ
                      split at h
                      · rename_i ha
                        left; simp only [addDataSetField_fail, Except.ok.injEq] at h; subst h
                        exact ⟨rfl, ha, rfl, rfl⟩
                      · rename_i ha
                        have ha' : ares = UA_STATUSCODE_GOOD := not_not.mp ha
                        subst ha'
                        obtain ⟨h1, h2, h3, h4, h5⟩ := UA_Array_append_good happ
                        subst h3 h4 h5
                        split at h
                        · simp at h
                        · rename_i dsfs hreb
                          right
                          simp only [Except.ok.injEq] at h
                          subst h
                          refine ⟨cfg, i, currDS, fmd, gw, dsfs, rfl, hfind, ?_, ?_, hc'.2, ?_,
                            h1, h2, ?_, ?_, rfl, ?_, ?_⟩
                          · simpa using hfrozen
                          · simpa using htype
                          · simpa [newFieldOf] using hgen
                          · simpa [newFieldOf] using hreb
                          · simp [UA_PubSubConfigurationVersionTimeDifference,
                              addDataSetField_commit, UA_calloc_world]
                          · simp [UA_PubSubConfigurationVersionTimeDifference, UA_calloc_world]
                          · simp [UA_PubSubConfigurationVersionTimeDifference, UA_calloc_world]

theorem rebindFieldMetaData_ok :
    ∀ {fs : List UA_DataSetField} {cells : List UA_FieldMetaData} {dsfs : List UA_DataSetField},
      rebindFieldMetaData fs cells = .ok dsfs →
        dsfs.length = fs.length ∧ fs.length ≤ cells.length ∧
        dsfs.map (fun f => f.config) = fs.map (fun f => f.config) ∧
        dsfs.map (fun f => f.identifier) = fs.map (fun f => f.identifier) ∧
        dsfs.map (fun f => f.publishedDataSet) = fs.map (fun f => f.publishedDataSet) ∧
        dsfs.map (fun f => f.configurationFrozen) = fs.map (fun f => f.configurationFrozen) ∧
        dsfs.map (fun f => f.fieldMetaData) = cells.take fs.length
  | [], _, _, h => by
    simp only [rebindFieldMetaData, Except.ok.injEq] at h
    subst h; simp
  | _ :: _, [], _, h => by simp [rebindFieldMetaData] at h
  | f :: fs, m :: cells, dsfs, h => by
    unfold rebindFieldMetaData at h
    split at h
    · simp at h
    · rename_i rest hrest
      simp only [Except.ok.injEq] at h
      subst h
      obtain ⟨h1, h2, h3, h4, h5, h6, h7⟩ := rebindFieldMetaData_ok hrest
      simp [h1, h2, h3, h4, h5, h6, h7]

/-! ## The shape of a call of removeDataSetField -/

theorem removeDataSetField_regenerate_ok {env : Env} {w rw : World} {pds pds' : UA_PublishedDataSet}
    {res : UA_StatusCode} {early : Bool}
    (h : removeDataSetField_regenerate env w pds = .ok (res, early, pds', rw)) :
    0 < pds.dataSetMetaData.fieldsSize ∧
    pds' = { pds with dataSetMetaData :=
               { pds.dataSetMetaData with fieldsSize := pds.dataSetMetaData.fieldsSize - 1,
                                          fields := pds'.dataSetMetaData.fields } } := by
  unfold removeDataSetField_regenerate at h
  split at h
  · simp at h
  · rename_i hz
    refine ⟨Nat.pos_of_ne_zero hz, ?_⟩
    simp only [] at h
    split at h
    · split at h
      · simp at h
      · simp at h
      · split at h
        · simp at h
        · split at h
          · simp only [Except.ok.injEq, Prod.mk.injEq] at h
            obtain ⟨-, -, rfl, -⟩ := h
            rfl
          · split at h
            · simp at h
            · simp only [Except.ok.injEq, Prod.mk.injEq] at h
              obtain ⟨-, -, rfl, -⟩ := h
              rfl
    · split at h
      · simp at h
      · simp at h
      · simp at h
      · simp only [Except.ok.injEq, Prod.mk.injEq] at h
        obtain ⟨-, -, rfl, -⟩ := h
        rfl

theorem removeDataSetField_ok {env : Env} {w : World} {server : UA_Server} {dsf : UA_NodeId}
    {r : RemoveReturn} (h : removeDataSetField env w server dsf = .ok r) :
    (r.server = server ∧ r.result.result ≠ UA_STATUSCODE_GOOD ∧ r.world = w ∧
       r.result.configurationVersion = ⟨0, 0⟩) ∨
    ∃ di fi currentField pds res early pds',
      UA_DataSetField_findDSFbyId server dsf = some (di, fi, currentField) ∧
      UA_PublishedDataSet_findPDSbyId server currentField.publishedDataSet = some (di, pds) ∧
      currentField.configurationFrozen = false ∧ pds.configurationFrozen = false ∧
      0 < pds.fieldSize ∧
      (currentField.config.field.var.promotedField = true → 0 < pds.promotedFieldsCount) ∧
      removeDataSetField_regenerate env (UA_PubSubConfigurationVersionTimeDifference env w).2
        (removeDataSetField_unlink pds currentField fi (env.version w.clocks)) =
          .ok (res, early, pds', r.world) ∧
      r.result = ⟨res, if early = true then ⟨0, 0⟩ else pds'.dataSetMetaData.configurationVersion⟩ ∧
      r.server = ⟨⟨server.pubSubManager.publishedDataSets.set di pds'⟩⟩ := by
  unfold removeDataSetField at h
  split at h
  · left; simp only [removeDataSetField_fail, Except.ok.injEq] at h; subst h
    simp [UA_STATUSCODE_BADNOTFOUND, UA_STATUSCODE_GOOD]
  · rename_i di fi currentField hf
    split at h
    · left; simp only [removeDataSetField_fail, Except.ok.injEq] at h; subst h
      simp [UA_STATUSCODE_BADNOTFOUND, UA_STATUSCODE_GOOD]
    · rename_i pi pds hp
      split at h
      · left; simp only [removeDataSetField_fail, Except.ok.injEq] at h; subst h
        simp [UA_STATUSCODE_BADCONFIGURATIONERROR, UA_STATUSCODE_GOOD]
      · rename_i hff
        split at h
        · left; simp only [removeDataSetField_fail, Except.ok.injEq] at h; subst h
          simp [UA_STATUSCODE_BADCONFIGURATIONERROR, UA_STATUSCODE_GOOD]
        · rename_i hpf
          split at h
          · simp at h
          · rename_i hprom
            split at h
            · simp at h
            · rename_i hsz
              split at h
              · simp at h
              · rename_i hpi
                have hpi' : pi = di := not_not.mp hpi
                subst hpi'
                simp only [] at h
                split at h
                · simp at h
                · rename_i res early pds' rw hreg
                  right
                  simp only [Except.ok.injEq] at h
                  subst h
                  refine ⟨pi, fi, currentField, pds, res, early, pds', hf, hp, by simpa using hff,
                    by simpa using hpf, Nat.pos_of_ne_zero hsz, ?_, ?_, rfl, rfl⟩
                  · intro hp'
                    exact Nat.pos_of_ne_zero (fun hz => hprom ⟨hp', hz⟩)
                  · simpa [UA_PubSubConfigurationVersionTimeDifference] using hreg

/-! ## Name and identifier of generated metadata -/

theorem generateFieldMetaData_static_name {env : Env} {w w' : World} {var : UA_DataSetVariableConfig}
    {fmd fmd' : UA_FieldMetaData} {res : UA_StatusCode}
    (h : generateFieldMetaData_static env w var fmd = .ok (res, fmd', w')) :
    fmd'.name = fmd.name ∧ fmd'.dataSetFieldId = fmd.dataSetFieldId := by
  unfold generateFieldMetaData_static at h
  split at h
  · simp at h
  · split at h
    · simp at h
    · simp only [] at h
      split at h
      · simp only [Except.ok.injEq, Prod.mk.injEq] at h
        obtain ⟨-, rfl, -⟩ := h
        exact ⟨rfl, rfl⟩
      · split at h
        · simp at h
        · split at h
          · simp only [Except.ok.injEq, Prod.mk.injEq] at h
            obtain ⟨-, rfl, -⟩ := h
            exact ⟨rfl, rfl⟩
          · simp only [Except.ok.injEq, Prod.mk.injEq] at h
            obtain ⟨-, rfl, -⟩ := h
            exact ⟨rfl, rfl⟩

theorem generateFieldMetaData_classify_name {env : Env} {var : UA_DataSetVariableConfig}
    {fmd fmd' : UA_FieldMetaData}
    (h : generateFieldMetaData_classify env var fmd = .ok fmd') :
    fmd'.name = fmd.name ∧ fmd'.dataSetFieldId = fmd.dataSetFieldId := by
  unfold generateFieldMetaData_classify at h
  split at h
  · simp at h
  · simp only [] at h
    split at h
    · split at h
      · simp only [Except.ok.injEq] at h
        subst h
        split <;> exact ⟨rfl, rfl⟩
      · simp only [Except.ok.injEq] at h
        subst h
        split <;> exact ⟨rfl, rfl⟩
    · simp only [Except.ok.injEq] at h
      subst h
      split <;> exact ⟨rfl, rfl⟩

theorem generateFieldMetaData_dataType_name {env : Env} {var : UA_DataSetVariableConfig}
    {fmd fmd' : UA_FieldMetaData}
    (h : generateFieldMetaData_dataType env var fmd = .ok fmd') :
    fmd'.name = fmd.name ∧ fmd'.dataSetFieldId = fmd.dataSetFieldId := by
  unfold generateFieldMetaData_dataType at h
  split at h
  · exact generateFieldMetaData_classify_name h
  · simp only [Except.ok.injEq] at h
    subst h
    exact ⟨rfl, rfl⟩

theorem generateFieldMetaData_generic_name {env : Env} {w w' : World} {var : UA_DataSetVariableConfig}
    {fmd fmd' : UA_FieldMetaData} {res : UA_StatusCode}
    (h : generateFieldMetaData_generic env w var fmd = .ok (res, fmd', w')) :
    fmd'.name = fmd.name ∧ fmd'.dataSetFieldId = fmd.dataSetFieldId := by
  unfold generateFieldMetaData_generic at h
  simp only [] at h
  split at h
  · simp only [Except.ok.injEq, Prod.mk.injEq] at h
    obtain ⟨-, rfl, -⟩ := h
    exact ⟨rfl, rfl⟩
  · split at h
    · simp only [Except.ok.injEq, Prod.mk.injEq] at h
      obtain ⟨-, rfl, -⟩ := h
      exact ⟨rfl, rfl⟩
    · split at h
      · simp only [Except.ok.injEq, Prod.mk.injEq] at h
        obtain ⟨-, rfl, -⟩ := h
        exact ⟨rfl, rfl⟩
      · split at h
        · simp at h
        · rename_i fmd2 hcl
          have hname := generateFieldMetaData_dataType_name hcl
          split at h
          · simp only [Except.ok.injEq, Prod.mk.injEq] at h
            obtain ⟨-, rfl, -⟩ := h
            exact hname
          · simp only [Except.ok.injEq, Prod.mk.injEq] at h
            obtain ⟨-, rfl, -⟩ := h
            split <;> exact hname

theorem generateFieldMetaData_good_name {env : Env} {w w' : World} {field : UA_DataSetField}
    {fmd fmd' : UA_FieldMetaData}
    (h : generateFieldMetaData env w field fmd = .ok (UA_STATUSCODE_GOOD, fmd', w')) :
    fmd'.name = field.config.field.var.fieldNameAlias ∧
      fmd'.dataSetFieldId = env.randomGuid w.guids := by
  unfold generateFieldMetaData at h
  split at h
  · simp [UA_STATUSCODE_BADNOTSUPPORTED, UA_STATUSCODE_GOOD] at h
  · simp only [] at h
    split at h
    · rename_i hc
      simp only [Except.ok.injEq, Prod.mk.injEq] at h
      exact absurd h.1 hc
    · rename_i hc
      have hcopy : (UA_String_copy env (UA_PubSubManager_generateUniqueGuid env w).2
          field.config.field.var.fieldNameAlias).2.1 = field.config.field.var.fieldNameAlias := by
        have hc' := not_not.mp hc
        unfold UA_String_copy UA_calloc at hc' ⊢
        simp only [] at hc' ⊢
        split at hc'
        · simp_all
        · simp [UA_STATUSCODE_BADOUTOFMEMORY, UA_STATUSCODE_GOOD] at hc'
      split at h
      · obtain ⟨h1, h2⟩ := generateFieldMetaData_static_name h
        exact ⟨h1.trans hcopy, h2⟩
      · obtain ⟨h1, h2⟩ := generateFieldMetaData_generic_name h
        exact ⟨h1.trans hcopy, h2⟩

/-! ## C1: the size invariant -/

/-- C1. Size invariant. Take any call of `addDataSetField` or
`removeDataSetField` (any arguments, any answers of the collaborators) that
returns, with a good status or with an error. Every dataset of the registry in
which `fieldSize`, the number of fields in the queue and
`dataSetMetaData.fieldsSize` are all equal is still in the registry at the same
place afterwards, with the same identifier, and the three quantities are
again all equal. -/
theorem size_invariant_preserved (env : Env) (w : World) (server : UA_Server) (call : Call)
    (res : UA_DataSetFieldResult) (server' : UA_Server) (w' : World)
    (hrun : call.run env w server = .ok (res, server', w'))
    (j : Nat) (ds : UA_PublishedDataSet)
    (hj : server.pubSubManager.publishedDataSets[j]? = some ds) (hinv : SizeInvariant ds) :
    ∃ ds', server'.pubSubManager.publishedDataSets[j]? = some ds' ∧
      ds'.identifier = ds.identifier ∧ SizeInvariant ds' := by
  have hjlt : j < server.pubSubManager.publishedDataSets.length := lt_length_of_getElem? hj
  cases call with
  | add pdsId fieldConfig out =>
    simp only [Call.run] at hrun
    split at hrun
    · simp at hrun
    · rename_i r hr
      simp only [Except.ok.injEq, Prod.mk.injEq] at hrun
      obtain ⟨-, rfl, -⟩ := hrun
      rcases addDataSetField_ok hr with ⟨hs, -⟩ | ⟨cfg, i, currDS, fmd, gw, dsfs, -, hfind, -, -, -, -,
        hsz, -, hreb, -, -, -, hs⟩
      · rw [hs]; exact ⟨ds, hj, rfl, hinv⟩
      · rw [hs]
        obtain ⟨hi, hid⟩ := findPDSbyId_some hfind
        obtain ⟨hlen, -⟩ := rebindFieldMetaData_ok hreb
        by_cases hij : i = j
        · subst hij
          rw [hi] at hj
          simp only [Option.some.injEq] at hj
          subst hj
          refine ⟨_, getElem?_set_same _ hjlt, rfl, ?_⟩
          unfold SizeInvariant at hinv ⊢
          simp only [addDataSetField_commit, hlen, List.length_append, List.length_singleton]
          omega
        · exact ⟨ds, by rw [getElem?_set_other _ hij]; exact hj, rfl, hinv⟩
  | remove dsf =>
    simp only [Call.run] at hrun
    split at hrun
    · simp at hrun
    · rename_i r hr
      simp only [Except.ok.injEq, Prod.mk.injEq] at hrun
      obtain ⟨-, rfl, -⟩ := hrun
      rcases removeDataSetField_ok hr with ⟨hs, -⟩ | ⟨di, fi, currentField, pds, res', early, pds', hf, hp,
        -, -, hfs, -, hreg, -, hs⟩
      · rw [hs]; exact ⟨ds, hj, rfl, hinv⟩
      · rw [hs]
        obtain ⟨hi, hid⟩ := findPDSbyId_some hp
        obtain ⟨ds2, hds2, hfi, -⟩ := findDSFbyId_some hf
        rw [hi] at hds2
        simp only [Option.some.injEq] at hds2
        subst hds2
        obtain ⟨hpos, hpds'⟩ := removeDataSetField_regenerate_ok hreg
        by_cases hij : di = j
        · subst hij
          rw [hi] at hj
          simp only [Option.some.injEq] at hj
          subst hj
          refine ⟨_, getElem?_set_same _ hjlt, ?_, ?_⟩
          · rw [hpds']; rfl
          · have hfilt : fi < pds.fields.length := lt_length_of_getElem? hfi
            unfold SizeInvariant at hinv ⊢
            rw [hpds']
            simp only [removeDataSetField_unlink, List.length_eraseIdx, hfilt, if_true]
            omega
        · exact ⟨ds, by rw [getElem?_set_other _ hij]; exact hj, rfl, hinv⟩

/-- C1 on the demo registry: adding "temp" to the empty dataset. -/
theorem size_invariant_preserved_witness :
    SizeInvariant demoDataSet ∧
      ∃ ds', demoAfterTemp.2.1.pubSubManager.publishedDataSets[0]? = some ds' ∧
        ds'.identifier = demoDataSet.identifier ∧ SizeInvariant ds' :=
  ⟨by decide,
   size_invariant_preserved demoEnv demoWorld demoServer
     (.add demoPdsId (some (demoConfig "temp" false)) none)
     demoAfterTemp.1 demoAfterTemp.2.1 demoAfterTemp.2.2 rfl 0 demoDataSet rfl (by decide)⟩

/-! ## C2: positional correspondence -/

@[simp] theorem FieldsStorage.cells_block (cells : List UA_FieldMetaData) :
    (FieldsStorage.block cells).cells = cells := rfl

@[simp] theorem FieldsStorage.cells_null : FieldsStorage.null.cells = [] := rfl

theorem regenerateFieldMetaData_good {env : Env} :
    ∀ {fs : List UA_DataSetField} {slots out : List UA_FieldMetaData} {w w' : World}
      {res0 : UA_StatusCode},
      regenerateFieldMetaData env w res0 fs slots = .ok (UA_STATUSCODE_GOOD, out, w') →
        fs.length ≤ slots.length ∧ out.length = slots.length ∧
        (out.take fs.length).map (fun m => m.name) =
          fs.map (fun f => f.config.field.var.fieldNameAlias) ∧
        out.drop fs.length = slots.drop fs.length
  | [], slots, out, w, w', res0, h => by
    simp only [regenerateFieldMetaData, Except.ok.injEq, Prod.mk.injEq] at h
    obtain ⟨-, rfl, -⟩ := h
    simp
  | _ :: _, [], _, _, _, _, h => by simp [regenerateFieldMetaData] at h
  | f :: fs, slot :: slots, out, w, w', res0, h => by
    unfold regenerateFieldMetaData at h
    split at h
    · simp at h
    · rename_i gres fmd gw hgen
      split at h
      · rename_i hg
        simp only [Except.ok.injEq, Prod.mk.injEq] at h
        exact absurd h.1 hg
      · rename_i hg
        have hg' : gres = UA_STATUSCODE_GOOD := not_not.mp hg
        subst hg'
        split at h
        · simp at h
        · rename_i res slots' w2 hrec
          simp only [Except.ok.injEq, Prod.mk.injEq] at h
          obtain ⟨rfl, rfl, rfl⟩ := h
          obtain ⟨h1, h2, h3, h4⟩ := regenerateFieldMetaData_good hrec
          obtain ⟨hn, -⟩ := generateFieldMetaData_good_name hgen
          simp [h1, h2, h3, h4, hn]

/-- The invariant behind C2: the metadata array has as many entries as the
dataset has fields and corresponds to them position by position. -/
theorem correspondence_step {env : Env} {w w' : World} {server server' : UA_Server} {call : Call}
    {res : UA_DataSetFieldResult}
    (hrun : call.run env w server = .ok (res, server', w'))
    (hclean : call.isRemove = true → res.result = UA_STATUSCODE_GOOD ∨ server' = server)
    {j : Nat} {ds : UA_PublishedDataSet}
    (hj : server.pubSubManager.publishedDataSets[j]? = some ds)
    (hsz : ds.dataSetMetaData.fieldsSize = ds.fields.length) (hpc : PositionalCorrespondence ds) :
    ∃ ds', server'.pubSubManager.publishedDataSets[j]? = some ds' ∧
      ds'.identifier = ds.identifier ∧
      ds'.dataSetMetaData.fieldsSize = ds'.fields.length ∧ PositionalCorrespondence ds' := by
  have hjlt : j < server.pubSubManager.publishedDataSets.length := lt_length_of_getElem? hj
  cases call with
  | add pdsId fieldConfig out =>
    simp only [Call.run] at hrun
    split at hrun
    · simp at hrun
    · rename_i r hr
      simp only [Except.ok.injEq, Prod.mk.injEq] at hrun
      obtain ⟨-, rfl, -⟩ := hrun
      rcases addDataSetField_ok hr with ⟨hs, -⟩ | ⟨cfg, i, currDS, fmd, gw, dsfs, -, hfind, -, -, -,
        hgen, hsz', -, hreb, -, -, -, hs⟩
      · rw [hs]; exact ⟨ds, hj, rfl, hsz, hpc⟩
      · rw [hs]
        obtain ⟨hi, hid⟩ := findPDSbyId_some hfind
        obtain ⟨hlen, -, hcfg, -⟩ := rebindFieldMetaData_ok hreb
        obtain ⟨hname, -⟩ := generateFieldMetaData_good_name hgen
        by_cases hij : i = j
        · subst hij
          rw [hi] at hj
          simp only [Option.some.injEq] at hj
          subst hj
          refine ⟨_, getElem?_set_same _ hjlt, rfl, ?_, ?_⟩
          · simp only [addDataSetField_commit, hlen, List.length_append, List.length_singleton]
            omega
          · unfold PositionalCorrespondence at hpc ⊢
            have hmap : dsfs.map (fun f => f.config.field.var.fieldNameAlias) =
                (currDS.fields ++ [newFieldOf cfg currDS.identifier
                  (UA_NODEID_GUID 1 fmd.dataSetFieldId)]).map
                  (fun f => f.config.field.var.fieldNameAlias) := by
              have := congrArg (List.map (fun c : UA_DataSetFieldConfig => c.field.var.fieldNameAlias)) hcfg
              simpa [List.map_map, Function.comp] using this
            simp only [addDataSetField_commit, FieldsStorage.cells_block, hmap, List.map_append,
              hpc, List.map_cons, List.map_nil, hname, newFieldOf]
        · exact ⟨ds, by rw [getElem?_set_other _ hij]; exact hj, rfl, hsz, hpc⟩
  | remove dsf =>
    simp only [Call.run] at hrun
    split at hrun
    · simp at hrun
    · rename_i r hr
      simp only [Except.ok.injEq, Prod.mk.injEq] at hrun
      obtain ⟨rfl, rfl, -⟩ := hrun
      rcases hclean rfl with hgood | hsame
      · rcases removeDataSetField_ok hr with ⟨hs, hbad, -⟩ | ⟨di, fi, currentField, pds, res', early,
          pds', hf, hp, -, -, hfs, -, hreg, hres, hs⟩
        · exact absurd hgood hbad
        · rw [hs]
          obtain ⟨hi, hid⟩ := findPDSbyId_some hp
          obtain ⟨ds2, hds2, hfi, -⟩ := findDSFbyId_some hf
          rw [hi] at hds2
          simp only [Option.some.injEq] at hds2
          subst hds2
          by_cases hij : di = j
          · subst hij
            rw [hi] at hj
            simp only [Option.some.injEq] at hj
            subst hj
            have hfilt : fi < pds.fields.length := lt_length_of_getElem? hfi
            rw [hres] at hgood
            simp only [] at hgood
            subst hgood
            refine ⟨_, getElem?_set_same _ hjlt, ?_⟩
            unfold removeDataSetField_regenerate at hreg
            simp only [removeDataSetField_unlink] at hreg
            split at hreg
            · simp at hreg
            · split at hreg
              · rename_i hpos
                split at hreg
                · simp at hreg
                · simp at hreg
                · split at hreg
                  · simp at hreg
                  · split at hreg
                    · simp [UA_STATUSCODE_BADOUTOFMEMORY, UA_STATUSCODE_GOOD] at hreg
                    · split at hreg
                      · simp at hreg
                      · rename_i res2 cells2 rw2 hregen
                        simp only [Except.ok.injEq, Prod.mk.injEq] at hreg
                        obtain ⟨rfl, -, rfl, -⟩ := hreg
                        obtain ⟨h1, h2, h3, -⟩ := regenerateFieldMetaData_good hregen
                        simp only [List.length_replicate, List.length_eraseIdx, hfilt, if_true] at h1 h2 h3
                        have hlen2 : cells2.length = pds.fields.length - 1 := by omega
                        refine ⟨rfl, ?_, ?_⟩
                        · simp only [List.length_eraseIdx, hfilt, if_true]; omega
                        · unfold PositionalCorrespondence
                          simp only [FieldsStorage.cells_block]
                          rw [← h3, ← hlen2, List.take_length]
              · rename_i hpos
                split at hreg
                · simp at hreg
                · simp at hreg
                · simp at hreg
                · simp only [Except.ok.injEq, Prod.mk.injEq] at hreg
                  obtain ⟨-, -, rfl, -⟩ := hreg
                  have hone : pds.fields.length = 1 := by omega
                  have hnil : pds.fields.eraseIdx fi = [] := by
                    apply List.eq_nil_of_length_eq_zero
                    simp only [List.length_eraseIdx, hfilt, if_true]; omega
                  refine ⟨rfl, ?_, ?_⟩
                  · simp only [hnil, List.length_nil]; omega
                  · unfold PositionalCorrespondence
                    simp [hnil]
          · exact ⟨ds, by rw [getElem?_set_other _ hij]; exact hj, rfl, hsz, hpc⟩
      · rw [hsame]; exact ⟨ds, hj, rfl, hsz, hpc⟩

theorem correspondence_runCalls :
    ∀ (calls : List (Env × Call)) (w : World) (server : UA_Server) (j : Nat)
      (ds : UA_PublishedDataSet),
      server.pubSubManager.publishedDataSets[j]? = some ds →
      ds.dataSetMetaData.fieldsSize = ds.fields.length → PositionalCorrespondence ds →
      RemovesComplete w server calls →
      ∀ (server' : UA_Server) (w' : World), runCalls w server calls = .ok (server', w') →
        ∃ ds', server'.pubSubManager.publishedDataSets[j]? = some ds' ∧
          ds'.identifier = ds.identifier ∧ PositionalCorrespondence ds'
  | [], w, server, j, ds, hj, _, hpc, _, server', w', hrun => by
    simp only [runCalls, Except.ok.injEq, Prod.mk.injEq] at hrun
    obtain ⟨rfl, -⟩ := hrun
    exact ⟨ds, hj, rfl, hpc⟩
  | (env, call) :: rest, w, server, j, ds, hj, hsz, hpc, hclean, server', w', hrun => by
    unfold RemovesComplete removesComplete at hclean
    unfold runCalls at hrun
    cases hstep : call.run env w server with
    | error e => simp [hstep] at hrun
    | ok x =>
      obtain ⟨res, s1, w1⟩ := x
      simp only [hstep] at hrun hclean
      simp only [Bool.and_eq_true, Bool.or_eq_true, Bool.not_eq_true', decide_eq_true_eq] at hclean
      obtain ⟨hc, hrest⟩ := hclean
      have hc' : call.isRemove = true → res.result = UA_STATUSCODE_GOOD ∨ s1 = server := by
        intro hr
        rcases hc with (hc | hc) | hc
        · rw [hr] at hc; exact absurd hc (by simp)
        · exact Or.inl hc
        · exact Or.inr hc
      obtain ⟨ds1, hj1, hid1, hsz1, hpc1⟩ := correspondence_step hstep hc' hj hsz hpc
      obtain ⟨ds', hj', hid', hpc'⟩ :=
        correspondence_runCalls rest w1 s1 j ds1 hj1 hsz1 hpc1 hrest server' w' hrun
      exact ⟨ds', hj', hid'.trans hid1, hpc'⟩

/-- C2, as amended. Positional correspondence along a sequence of calls. Start
from a registry in which a dataset is empty (no fields, no metadata storage,
`fieldsSize` zero) and run any sequence of `addDataSetField` and
`removeDataSetField` calls, each against any environment, in which no
`removeDataSetField` fails while it rebuilds the metadata array (each remove
returns `Good` or leaves the registry untouched). Then after the sequence, hence
after each of its operations, the dataset is still at its place and the
names of its metadata entries are, position by position, the alias names of
its fields. -/
theorem positional_correspondence_of_complete_removes (calls : List (Env × Call)) (w : World)
    (server : UA_Server) (j : Nat) (ds : UA_PublishedDataSet)
    (hj : server.pubSubManager.publishedDataSets[j]? = some ds)
    (hfields : ds.fields = []) (hstorage : ds.dataSetMetaData.fields = .null)
    (hsize : ds.dataSetMetaData.fieldsSize = 0)
    (hclean : RemovesComplete w server calls)
    (server' : UA_Server) (w' : World) (hrun : runCalls w server calls = .ok (server', w')) :
    ∃ ds', server'.pubSubManager.publishedDataSets[j]? = some ds' ∧
      ds'.identifier = ds.identifier ∧ PositionalCorrespondence ds' :=
  correspondence_runCalls calls w server j ds hj (by rw [hsize, hfields]; rfl)
    (by unfold PositionalCorrespondence; rw [hstorage, hfields]; rfl) hclean server' w' hrun

/-- C2, as amended, on the demo registry: add "temp", add "pressure", remove
"temp", every read answered. -/
theorem positional_correspondence_of_complete_removes_witness :
    ∃ ds', (runCallsOr demoWorld demoServer demoCompleteCalls).1.pubSubManager.publishedDataSets[0]? =
        some ds' ∧
      ds'.identifier = demoDataSet.identifier ∧ PositionalCorrespondence ds' :=
  positional_correspondence_of_complete_removes demoCompleteCalls demoWorld demoServer 0 demoDataSet
    rfl rfl rfl rfl (by decide) _ _ rfl

/-- C2, counterexample to the claim as stated. From the empty demo dataset, add
"temp", add "pressure", then remove "temp" while the value rank read of the
remaining field fails: the three calls return, the dataset is left with the
one field "pressure" and a one-entry metadata array whose entry is cleared (its
name is empty), so field queue and metadata array no longer correspond. -/
theorem positional_correspondence_fails :
    demoDataSet.fields = [] ∧ demoDataSet.dataSetMetaData.fields = .null ∧
    demoDataSet.dataSetMetaData.fieldsSize = 0 ∧
    runCalls demoWorld demoServer demoDegradingCalls =
      .ok (runCallsOr demoWorld demoServer demoDegradingCalls) ∧
    (runCallsOr demoWorld demoServer demoDegradingCalls).1.pubSubManager.publishedDataSets.map
        (fun ds => (ds.fields.map (fun f => f.config.field.var.fieldNameAlias),
                    ds.dataSetMetaData.fields.cells.map (fun m => m.name))) =
      [(["pressure"], [""])] ∧
    ¬ (∀ ds ∈ (runCallsOr demoWorld demoServer demoDegradingCalls).1.pubSubManager.publishedDataSets,
        PositionalCorrespondence ds) := by
  refine ⟨rfl, rfl, rfl, rfl, by decide, by decide⟩

/-! ## C3 and C4: early failures of addDataSetField -/

/-- C3. Adding to a frozen dataset. When the dataset the identifier resolves to
has its `configurationFrozen` flag set, `addDataSetField` with any non-null
field configuration returns `BadConfigurationError` with a zeroed version, and
server and world are exactly what they were: `fieldSize`, the metadata array
(size and every entry) and the configuration version of the dataset are
unchanged, and no collaborator was consulted. -/
theorem add_to_frozen_dataset (env : Env) (w : World) (server : UA_Server) (pdsId : UA_NodeId)
    (i : Nat) (currDS : UA_PublishedDataSet) (cfg : UA_DataSetFieldConfig) (out : Option UA_NodeId)
    (hfind : UA_PublishedDataSet_findPDSbyId server pdsId = some (i, currDS))
    (hfrozen : currDS.configurationFrozen = true) :
    addDataSetField env w server pdsId (some cfg) out =
      .ok ⟨⟨UA_STATUSCODE_BADCONFIGURATIONERROR, ⟨0, 0⟩⟩, out, server, w⟩ := by
  simp [addDataSetField, hfind, hfrozen, addDataSetField_fail]

/-- C3 on the frozen demo dataset. -/
theorem add_to_frozen_dataset_witness :
    addDataSetField demoEnv demoWorld ⟨⟨[demoFrozenDataSet]⟩⟩ demoPdsId
        (some (demoConfig "temp" false)) none =
      .ok ⟨⟨UA_STATUSCODE_BADCONFIGURATIONERROR, ⟨0, 0⟩⟩, none, ⟨⟨[demoFrozenDataSet]⟩⟩, demoWorld⟩ :=
  add_to_frozen_dataset demoEnv demoWorld ⟨⟨[demoFrozenDataSet]⟩⟩ demoPdsId 0 demoFrozenDataSet
    (demoConfig "temp" false) none rfl rfl

/-- C4, counterexample to the claim as stated. An event field configuration
(not `Variable`) added to a frozen dataset: the frozen check comes first and
the call reports `BadConfigurationError`, which is not `BadNotSupported`. -/
theorem add_non_variable_other_status :
    demoEventConfig.dataSetFieldType ≠ .UA_PUBSUB_DATASETFIELD_VARIABLE ∧
    addDataSetField demoEnv demoWorld ⟨⟨[demoFrozenDataSet]⟩⟩ demoPdsId (some demoEventConfig) none =
      .ok ⟨⟨UA_STATUSCODE_BADCONFIGURATIONERROR, ⟨0, 0⟩⟩, none, ⟨⟨[demoFrozenDataSet]⟩⟩, demoWorld⟩ ∧
    UA_STATUSCODE_BADCONFIGURATIONERROR ≠ UA_STATUSCODE_BADNOTSUPPORTED := by
  refine ⟨by decide, rfl, by decide⟩

/-- C4, as amended. For every field configuration whose `dataSetFieldType` is
not `Variable`, `addDataSetField` returns, fails (the status is not `Good`) and
is a complete no-op: the server is unchanged (no field linked, `fieldSize` and
`promotedFieldsCount` unchanged, metadata array unchanged, version not bumped),
the out-parameter is untouched and the returned version is zero. The status is
`BadNotSupported` whenever the checks that come first pass: the dataset
exists, is not frozen, is of the published-items type, and the allocation of
the field succeeds. -/
theorem add_non_variable_is_noop (env : Env) (w : World) (server : UA_Server) (pdsId : UA_NodeId)
    (cfg : UA_DataSetFieldConfig) (out : Option UA_NodeId)
    (hcfg : cfg.dataSetFieldType ≠ .UA_PUBSUB_DATASETFIELD_VARIABLE) :
    ∃ r, addDataSetField env w server pdsId (some cfg) out = .ok r ∧
      r.server = server ∧ r.fieldIdentifier = out ∧
      r.result.result ≠ UA_STATUSCODE_GOOD ∧ r.result.configurationVersion = ⟨0, 0⟩ ∧
      (∀ i currDS, UA_PublishedDataSet_findPDSbyId server pdsId = some (i, currDS) →
        currDS.configurationFrozen = false →
        currDS.config.publishedDataSetType = .UA_PUBSUB_DATASET_PUBLISHEDITEMS →
        env.allocOk w.allocs = true →
        r.result.result = UA_STATUSCODE_BADNOTSUPPORTED) := by
  unfold addDataSetField
  simp only []
  cases hfind : UA_PublishedDataSet_findPDSbyId server pdsId with
  | none =>
    refine ⟨_, rfl, rfl, rfl, by simp [UA_STATUSCODE_BADNOTFOUND, UA_STATUSCODE_BADCONFIGURATIONERROR, UA_STATUSCODE_BADINTERNALERROR, UA_STATUSCODE_BADNOTSUPPORTED, UA_STATUSCODE_BADNOTIMPLEMENTED, UA_STATUSCODE_GOOD, addDataSetField_fail], rfl, ?_⟩
    intro i currDS h; simp at h
  | some x =>
    obtain ⟨i, currDS⟩ := x
    simp only []
    by_cases hfrozen : currDS.configurationFrozen = true
    · simp only [hfrozen, if_true]
      refine ⟨_, rfl, rfl, rfl, by simp [UA_STATUSCODE_BADNOTFOUND, UA_STATUSCODE_BADCONFIGURATIONERROR, UA_STATUSCODE_BADINTERNALERROR, UA_STATUSCODE_BADNOTSUPPORTED, UA_STATUSCODE_BADNOTIMPLEMENTED, UA_STATUSCODE_GOOD, addDataSetField_fail], rfl, ?_⟩
      intro i' currDS' h hf
      simp only [Option.some.injEq, Prod.mk.injEq] at h
      obtain ⟨-, rfl⟩ := h
      rw [hfrozen] at hf; exact absurd hf (by simp)
    · simp only [hfrozen, if_false]
      by_cases htype : currDS.config.publishedDataSetType = .UA_PUBSUB_DATASET_PUBLISHEDITEMS
      · simp only [htype, ne_eq, not_true_eq_false, if_false]
        by_cases ha : (UA_calloc env w).1 = false
        · simp only [ha, if_true]
          refine ⟨_, rfl, rfl, rfl, by simp [UA_STATUSCODE_BADNOTFOUND, UA_STATUSCODE_BADCONFIGURATIONERROR, UA_STATUSCODE_BADINTERNALERROR, UA_STATUSCODE_BADNOTSUPPORTED, UA_STATUSCODE_BADNOTIMPLEMENTED, UA_STATUSCODE_GOOD, addDataSetField_fail], rfl, ?_⟩
          intro i' currDS' _ _ _ h4
          simp only [UA_calloc] at ha
          rw [h4] at ha; exact absurd ha (by simp)
        · have hcopy : UA_DataSetFieldConfig_copy env (UA_calloc env w).2 cfg
              UA_DataSetFieldConfig_init =
              (UA_STATUSCODE_BADNOTSUPPORTED, UA_DataSetFieldConfig_init, (UA_calloc env w).2) := by
            simp [UA_DataSetFieldConfig_copy, hcfg]
          simp only [ha, if_false, hcopy]
          refine ⟨_, rfl, rfl, rfl, by simp [UA_STATUSCODE_BADNOTFOUND, UA_STATUSCODE_BADCONFIGURATIONERROR, UA_STATUSCODE_BADINTERNALERROR, UA_STATUSCODE_BADNOTSUPPORTED, UA_STATUSCODE_BADNOTIMPLEMENTED, UA_STATUSCODE_GOOD, addDataSetField_fail], rfl, ?_⟩
          intro _ _ _ _ _ _
          rfl
      · simp only [ne_eq, htype, not_false_eq_true, if_true]
        refine ⟨_, rfl, rfl, rfl, by simp [UA_STATUSCODE_BADNOTFOUND, UA_STATUSCODE_BADCONFIGURATIONERROR, UA_STATUSCODE_BADINTERNALERROR, UA_STATUSCODE_BADNOTSUPPORTED, UA_STATUSCODE_BADNOTIMPLEMENTED, UA_STATUSCODE_GOOD, addDataSetField_fail], rfl, ?_⟩
        intro i' currDS' h _ ht
        simp only [Option.some.injEq, Prod.mk.injEq] at h
        obtain ⟨-, rfl⟩ := h
        exact absurd ht htype

/-- C4, as amended, on the demo registry with an event field configuration. -/
theorem add_non_variable_is_noop_witness :
    ∃ r, addDataSetField demoEnv demoWorld demoServer demoPdsId (some demoEventConfig) none = .ok r ∧
      r.server = demoServer ∧ r.fieldIdentifier = none ∧
      r.result.result ≠ UA_STATUSCODE_GOOD ∧ r.result.configurationVersion = ⟨0, 0⟩ ∧
      (∀ i currDS, UA_PublishedDataSet_findPDSbyId demoServer demoPdsId = some (i, currDS) →
        currDS.configurationFrozen = false →
        currDS.config.publishedDataSetType = .UA_PUBSUB_DATASET_PUBLISHEDITEMS →
        demoEnv.allocOk demoWorld.allocs = true →
        r.result.result = UA_STATUSCODE_BADNOTSUPPORTED) :=
  add_non_variable_is_noop demoEnv demoWorld demoServer demoPdsId demoEventConfig none (by decide)

/-! ## Metadata generation along its branches -/

theorem generateFieldMetaData_generic_eq {env : Env} {w : World} {field : UA_DataSetField}
    {fmd : UA_FieldMetaData}
    (hvar : field.config.dataSetFieldType = .UA_PUBSUB_DATASETFIELD_VARIABLE)
    (hsrc : ¬ (field.config.field.var.rtValueSource.rtFieldSourceEnabled = true ∧
               field.config.field.var.rtValueSource.rtInformationModelNode = false))
    (h0 : env.allocOk w.allocs = true) :
    generateFieldMetaData env w field fmd =
      generateFieldMetaData_generic env { w with guids := w.guids + 1, allocs := w.allocs + 1 }
        field.config.field.var
        { fmd with dataSetFieldId := env.randomGuid w.guids, description := ⟨"", ""⟩,
                   name := field.config.field.var.fieldNameAlias } := by
  unfold generateFieldMetaData
  simp [hvar, hsrc, UA_String_copy, UA_calloc, UA_PubSubManager_generateUniqueGuid, h0,
    UA_STATUSCODE_GOOD]

theorem generateFieldMetaData_static_eq {env : Env} {w : World} {field : UA_DataSetField}
    {fmd : UA_FieldMetaData}
    (hvar : field.config.dataSetFieldType = .UA_PUBSUB_DATASETFIELD_VARIABLE)
    (hen : field.config.field.var.rtValueSource.rtFieldSourceEnabled = true)
    (hnode : field.config.field.var.rtValueSource.rtInformationModelNode = false)
    (h0 : env.allocOk w.allocs = true) :
    generateFieldMetaData env w field fmd =
      generateFieldMetaData_static env { w with guids := w.guids + 1, allocs := w.allocs + 1 }
        field.config.field.var
        { fmd with dataSetFieldId := env.randomGuid w.guids, description := ⟨"", ""⟩,
                   name := field.config.field.var.fieldNameAlias } := by
  unfold generateFieldMetaData
  simp [hvar, hen, hnode, UA_String_copy, UA_calloc, UA_PubSubManager_generateUniqueGuid, h0,
    UA_STATUSCODE_GOOD]

/-- A failing array dimensions read ends the generic generation with the status
of the read. -/
theorem generateFieldMetaData_generic_arrayDimensions_fail {env : Env} {w : World}
    {var : UA_DataSetVariableConfig} {fmd : UA_FieldMetaData}
    (hs : (env.readArrayDimensions w.reads var.publishParameters.publishedVariable).1 ≠
      UA_STATUSCODE_GOOD) :
    generateFieldMetaData_generic env w var fmd =
      .ok ((env.readArrayDimensions w.reads var.publishParameters.publishedVariable).1, fmd,
        { w with reads := w.reads + 1 }) := by
  unfold generateFieldMetaData_generic
  simp [readWithReadValue_ARRAYDIMENSIONS, hs]

/-- A failing data type read ends the generic generation with the status of the
read. -/
theorem generateFieldMetaData_generic_dataType_fail {env : Env} {w : World}
    {var : UA_DataSetVariableConfig} {fmd : UA_FieldMetaData}
    (hd : (env.readArrayDimensions w.reads var.publishParameters.publishedVariable).1 =
      UA_STATUSCODE_GOOD)
    (ha : (allocArrayDimensions env { w with reads := w.reads + 1 }
      (env.readArrayDimensions w.reads
        var.publishParameters.publishedVariable).2.arrayDimensions.length).1 = true)
    (hs : (env.readDataType (w.reads + 1) var.publishParameters.publishedVariable).1 ≠
      UA_STATUSCODE_GOOD) :
    ∃ fmd' w', generateFieldMetaData_generic env w var fmd =
      .ok ((env.readDataType (w.reads + 1) var.publishParameters.publishedVariable).1, fmd', w') := by
  unfold generateFieldMetaData_generic
  have hr : ∀ n, (allocArrayDimensions env { w with reads := w.reads + 1 } n).2.reads =
      w.reads + 1 := by
    intro n; unfold allocArrayDimensions UA_calloc; split <;> rfl
  simp [readWithReadValue_ARRAYDIMENSIONS, readWithReadValue_DATATYPE, hd, ha, hr, hs]

/-- A failing value rank read ends the generic generation with the status of the
read. -/
theorem generateFieldMetaData_generic_valueRank_fail {env : Env} {w : World}
    {var : UA_DataSetVariableConfig} {fmd fmd2 : UA_FieldMetaData}
    (hd : (env.readArrayDimensions w.reads var.publishParameters.publishedVariable).1 =
      UA_STATUSCODE_GOOD)
    (ha : (allocArrayDimensions env { w with reads := w.reads + 1 }
      (env.readArrayDimensions w.reads
        var.publishParameters.publishedVariable).2.arrayDimensions.length).1 = true)
    (ht : (env.readDataType (w.reads + 1) var.publishParameters.publishedVariable).1 =
      UA_STATUSCODE_GOOD)
    (hc : generateFieldMetaData_dataType env var
      { fmd with
        arrayDimensions := copyArrayDimensions
          (env.readArrayDimensions w.reads var.publishParameters.publishedVariable).2.arrayDimensions,
        dataType := (env.readDataType (w.reads + 1) var.publishParameters.publishedVariable).2 } =
      .ok fmd2)
    (hs : (env.readValueRank (w.reads + 2) var.publishParameters.publishedVariable).1 ≠
      UA_STATUSCODE_GOOD) :
    ∃ w', generateFieldMetaData_generic env w var fmd =
      .ok ((env.readValueRank (w.reads + 2) var.publishParameters.publishedVariable).1, fmd2, w') := by
  unfold generateFieldMetaData_generic
  have hr : ∀ n, (allocArrayDimensions env { w with reads := w.reads + 1 } n).2.reads =
      w.reads + 1 := by
    intro n; unfold allocArrayDimensions UA_calloc; split <;> rfl
  simp [readWithReadValue_ARRAYDIMENSIONS, readWithReadValue_DATATYPE, readWithReadValue_VALUERANK,
    hd, ha, hr, ht, hc, hs]

/-! ## C5: rollback of addDataSetField -/

theorem UA_DataSetFieldConfig_copy_ok {env : Env} {w : World} {src dst : UA_DataSetFieldConfig}
    (hvar : src.dataSetFieldType = .UA_PUBSUB_DATASETFIELD_VARIABLE)
    (h0 : env.allocOk w.allocs = true) (h1 : env.allocOk (w.allocs + 1) = true) :
    UA_DataSetFieldConfig_copy env w src dst =
      (UA_STATUSCODE_GOOD, src, { w with allocs := w.allocs + 2 }) := by
  obtain ⟨t, ⟨v⟩⟩ := src
  simp only at hvar
  subst hvar
  simp [UA_DataSetFieldConfig_copy, UA_String_copy, UA_PublishedVariableDataType_copy, UA_calloc,
    h0, h1, UA_STATUSCODE_GOOD]

theorem UA_NodeId_copy_ok {env : Env} {w : World} {src : UA_NodeId}
    (h0 : env.allocOk w.allocs = true) :
    UA_NodeId_copy env w src = (UA_STATUSCODE_GOOD, src, { w with allocs := w.allocs + 1 }) := by
  simp [UA_NodeId_copy, UA_calloc, h0]

/-- C5. Rollback before the point of no return. Take a dataset that the
identifier resolves to and that is not frozen and of the published-items type,
and a `Variable` field configuration, and let the four allocations that come
before metadata generation succeed, so that generation runs. If
`generateFieldMetaData` then ends with a status `s` other than `Good` (a failed
attribute read, or any other failure), `addDataSetField` returns exactly `s`
with a zeroed version, and the server is what it was: same field queue, same
`fieldSize` and `promotedFieldsCount`, same metadata array, same version. -/
theorem add_rolls_back_on_metadata_failure (env : Env) (w : World) (server : UA_Server)
    (pdsId : UA_NodeId) (i : Nat) (currDS : UA_PublishedDataSet) (cfg : UA_DataSetFieldConfig)
    (out : Option UA_NodeId) (s : UA_StatusCode) (fmd : UA_FieldMetaData) (gw : World)
    (hfind : UA_PublishedDataSet_findPDSbyId server pdsId = some (i, currDS))
    (hfrozen : currDS.configurationFrozen = false)
    (htype : currDS.config.publishedDataSetType = .UA_PUBSUB_DATASET_PUBLISHEDITEMS)
    (hvar : cfg.dataSetFieldType = .UA_PUBSUB_DATASETFIELD_VARIABLE)
    (h0 : env.allocOk w.allocs = true) (h1 : env.allocOk (w.allocs + 1) = true)
    (h2 : env.allocOk (w.allocs + 2) = true) (h3 : env.allocOk (w.allocs + 3) = true)
    (hgen : generateFieldMetaData env { w with allocs := w.allocs + 4 }
        (newFieldOf cfg currDS.identifier UA_NODEID_NULL) UA_FieldMetaData_init = .ok (s, fmd, gw))
    (hs : s ≠ UA_STATUSCODE_GOOD) :
    addDataSetField env w server pdsId (some cfg) out = .ok ⟨⟨s, ⟨0, 0⟩⟩, out, server, gw⟩ := by
  have hc : UA_DataSetFieldConfig_copy env { w with allocs := w.allocs + 1 } cfg
      UA_DataSetFieldConfig_init = (UA_STATUSCODE_GOOD, cfg, { w with allocs := w.allocs + 3 }) := by
    rw [UA_DataSetFieldConfig_copy_ok hvar h1 h2]
  have hn : UA_NodeId_copy env { w with allocs := w.allocs + 3 } currDS.identifier =
      (UA_STATUSCODE_GOOD, currDS.identifier, { w with allocs := w.allocs + 4 }) := by
    rw [UA_NodeId_copy_ok h3]
  unfold newFieldOf at hgen
  simp [addDataSetField, hfind, hfrozen, htype, UA_calloc, h0, hc, hn, hgen, hs,
    addDataSetField_fail]

/-- C5 on the demo registry: the value rank read of the new field fails with
`BadUnexpectedError`. -/
theorem add_rolls_back_on_metadata_failure_witness :
    addDataSetField demoEnvValueRankFails demoWorld demoServer demoPdsId
        (some (demoConfig "temp" false)) none =
      .ok ⟨⟨UA_STATUSCODE_BADUNEXPECTEDERROR, ⟨0, 0⟩⟩, none, demoServer,
        demoFailedGeneration.2.2⟩ :=
  add_rolls_back_on_metadata_failure demoEnvValueRankFails demoWorld demoServer demoPdsId 0
    demoDataSet (demoConfig "temp" false) none UA_STATUSCODE_BADUNEXPECTEDERROR
    demoFailedGeneration.2.1 demoFailedGeneration.2.2 rfl rfl rfl rfl rfl rfl rfl rfl rfl
    (by decide)

/-! ## C6: the round trip of a field configuration -/

theorem findFieldbyId_none {identifier : UA_NodeId} :
    ∀ {fs : List UA_DataSetField}, findFieldbyId identifier fs = none →
      ∀ g ∈ fs, g.identifier ≠ identifier
  | [], _, g, hg => by simp at hg
  | f :: fs, h, g, hg => by
    unfold findFieldbyId at h
    by_cases hf : UA_NodeId_equal f.identifier identifier = true
    · simp [hf] at h
    · simp only [hf, Bool.false_eq_true, if_false, Option.map_eq_none'] at h
      rcases List.mem_cons.mp hg with rfl | hg'
      · simpa [UA_NodeId_equal] using hf
      · exact findFieldbyId_none h g hg'

theorem findFieldbyId_at {identifier : UA_NodeId} :
    ∀ {fs : List UA_DataSetField} {n : Nat} {f : UA_DataSetField},
      fs[n]? = some f → f.identifier = identifier →
      (∀ k g, k < n → fs[k]? = some g → g.identifier ≠ identifier) →
      findFieldbyId identifier fs = some (n, f)
  | [], n, f, h, _, _ => by simp at h
  | g :: fs, 0, f, h, hid, _ => by
    simp only [List.getElem?_cons_zero, Option.some.injEq] at h
    subst h
    simp [findFieldbyId, UA_NodeId_equal, hid]
  | g :: fs, n + 1, f, h, hid, hbefore => by
    have hg : g.identifier ≠ identifier := hbefore 0 g (Nat.succ_pos n) (by simp)
    have hrec : findFieldbyId identifier fs = some (n, f) :=
      findFieldbyId_at (by simpa using h) hid
        (fun k g' hk hg' => hbefore (k + 1) g' (Nat.succ_lt_succ hk) (by simpa using hg'))
    simp [findFieldbyId, UA_NodeId_equal, hg, hrec]

theorem findDSFbyId_none {identifier : UA_NodeId} :
    ∀ {l : List UA_PublishedDataSet}, findDSFbyId identifier l = none →
      ∀ ds ∈ l, findFieldbyId identifier ds.fields = none
  | [], _, ds, hds => by simp at hds
  | d :: l, h, ds, hds => by
    unfold findDSFbyId at h
    cases hd : findFieldbyId identifier d.fields with
    | some x => simp [hd] at h
    | none =>
      simp only [hd, Option.map_eq_none'] at h
      rcases List.mem_cons.mp hds with rfl | hds'
      · exact hd
      · exact findDSFbyId_none h ds hds'

theorem findDSFbyId_set {identifier : UA_NodeId} :
    ∀ {l : List UA_PublishedDataSet} {i : Nat} {ds' : UA_PublishedDataSet} {k : Nat}
      {f : UA_DataSetField},
      findDSFbyId identifier l = none → i < l.length →
      findFieldbyId identifier ds'.fields = some (k, f) →
      findDSFbyId identifier (l.set i ds') = some (i, k, f)
  | [], i, _, _, _, _, hi, _ => by simp at hi
  | d :: l, 0, ds', k, f, _, _, hf => by
    simp [findDSFbyId, hf]
  | d :: l, i + 1, ds', k, f, h, hi, hf => by
    unfold findDSFbyId at h
    cases hd : findFieldbyId identifier d.fields with
    | some x => simp [hd] at h
    | none =>
      simp only [hd, Option.map_eq_none'] at h
      have hrec := @findDSFbyId_set identifier l i ds' k f h (by simpa using hi) hf
      simp [findDSFbyId, hd, hrec]

theorem rebindFieldMetaData_getElem :
    ∀ {fs : List UA_DataSetField} {cells : List UA_FieldMetaData} {dsfs : List UA_DataSetField},
      rebindFieldMetaData fs cells = .ok dsfs →
        ∀ (k : Nat) (g : UA_DataSetField), dsfs[k]? = some g →
          ∃ (f : UA_DataSetField) (m : UA_FieldMetaData),
            fs[k]? = some f ∧ cells[k]? = some m ∧ g = { f with fieldMetaData := m }
  | [], _, _, h, k, g, hg => by
    simp only [rebindFieldMetaData, Except.ok.injEq] at h
    subst h; simp at hg
  | _ :: _, [], _, h, _, _, _ => by simp [rebindFieldMetaData] at h
  | f :: fs, m :: cells, dsfs, h, k, g, hg => by
    unfold rebindFieldMetaData at h
    split at h
    · simp at h
    · rename_i rest hrest
      simp only [Except.ok.injEq] at h
      subst h
      cases k with
      | zero =>
        simp only [List.getElem?_cons_zero, Option.some.injEq] at hg
        exact ⟨f, m, by simp, by simp, hg.symm⟩
      | succ k =>
        simp only [List.getElem?_cons_succ] at hg
        obtain ⟨f', m', h1, h2, h3⟩ := rebindFieldMetaData_getElem hrest k g hg
        exact ⟨f', m', by simpa using h1, by simpa using h2, h3⟩

/-- C6. Round trip. If `addDataSetField` with the field configuration `cfg`
succeeds and stores the identifier `id` through its out-parameter, and no field
of the registry carried `id` before (the generator produced an identifier
distinct from those already there), then `UA_Server_getDataSetFieldConfig` on
`id`, called immediately afterwards and served by the heap for its two copies,
returns `Good` and leaves in the caller's structure a configuration equal to
`cfg` in every member: alias, promoted flag, maximal string length, value
source selector and published-variable parameters. -/
theorem add_then_getDataSetFieldConfig (env : Env) (w : World) (server : UA_Server)
    (pdsId : UA_NodeId) (cfg : UA_DataSetFieldConfig) (out : Option UA_NodeId) (r : AddReturn)
    (id : UA_NodeId) (dst : UA_DataSetFieldConfig)
    (hadd : addDataSetField env w server pdsId (some cfg) out = .ok r)
    (hgood : r.result.result = UA_STATUSCODE_GOOD)
    (hid : r.fieldIdentifier = some id)
    (hfresh : UA_DataSetField_findDSFbyId server id = none)
    (h0 : env.allocOk r.world.allocs = true) (h1 : env.allocOk (r.world.allocs + 1) = true) :
    UA_Server_getDataSetFieldConfig env r.world r.server id (some dst) =
      (UA_STATUSCODE_GOOD, some cfg, { r.world with allocs := r.world.allocs + 2 }) := by
  rcases addDataSetField_ok hadd with ⟨-, hbad, -⟩ | ⟨cfg', i, currDS, fmd, gw, dsfs, hcfg, hfind,
    -, -, hvar, -, -, -, hreb, -, hout, -, hs⟩
  · exact absurd hgood hbad
  · simp only [Option.some.injEq] at hcfg
    subst hcfg
    obtain ⟨hi, -⟩ := findPDSbyId_some hfind
    have hilt := lt_length_of_getElem? hi
    have hmem : currDS ∈ server.pubSubManager.publishedDataSets := List.getElem?_mem hi
    have hold := findFieldbyId_none (findDSFbyId_none hfresh currDS hmem)
    obtain ⟨hlen, -⟩ := rebindFieldMetaData_ok hreb
    have hidval : id = UA_NODEID_GUID 1 fmd.dataSetFieldId := by
      rw [hout] at hid
      cases out with
      | none => simp at hid
      | some o => simpa using hid.symm
    have hn : currDS.fields.length < dsfs.length := by
      rw [hlen]; simp
    obtain ⟨f, m, hf1, -, hf3⟩ :=
      rebindFieldMetaData_getElem hreb currDS.fields.length (dsfs[currDS.fields.length])
        (List.getElem?_eq_getElem hn)
    have hf1' : f = newFieldOf cfg currDS.identifier (UA_NODEID_GUID 1 fmd.dataSetFieldId) := by
      simpa using hf1.symm
    have hfound : findFieldbyId id dsfs =
        some (currDS.fields.length, dsfs[currDS.fields.length]) := by
      apply findFieldbyId_at (List.getElem?_eq_getElem hn)
      · rw [hf3, hf1', hidval]; rfl
      · intro k g hk hg
        obtain ⟨f', m', hf', -, hg'⟩ := rebindFieldMetaData_getElem hreb k g hg
        rw [List.getElem?_append_left hk] at hf'
        rw [hg']
        exact hold f' (List.getElem?_mem hf')
    have hget : UA_DataSetField_findDSFbyId r.server id =
        some (i, currDS.fields.length, dsfs[currDS.fields.length]) := by
      rw [hs]
      exact findDSFbyId_set hfresh hilt hfound
    have hconfig : (dsfs[currDS.fields.length]).config = cfg := by
      rw [hf3, hf1']; rfl
    simp only [UA_Server_getDataSetFieldConfig, hget, hconfig]
    rw [UA_DataSetFieldConfig_copy_ok hvar h0 h1]

/-- C6 on the demo registry: "pressure" is added next to "temp" and read back. -/
theorem add_then_getDataSetFieldConfig_witness :
    UA_Server_getDataSetFieldConfig demoEnv demoAddPressure.world demoAddPressure.server
        (UA_NODEID_GUID 1 ⟨2, 0, 0, []⟩) (some UA_DataSetFieldConfig_init) =
      (UA_STATUSCODE_GOOD, some (demoConfig "pressure" true),
        { demoAddPressure.world with allocs := demoAddPressure.world.allocs + 2 }) :=
  add_then_getDataSetFieldConfig demoEnv demoAfterTemp.2.2 demoAfterTemp.2.1 demoPdsId
    (demoConfig "pressure" true) (some UA_NODEID_NULL) demoAddPressure
    (UA_NODEID_GUID 1 ⟨2, 0, 0, []⟩) UA_DataSetFieldConfig_init rfl rfl rfl rfl rfl rfl

/-! ## What metadata generation leaves of the world -/

theorem allocArrayDimensions_world (env : Env) (w : World) (n : Nat) :
    (allocArrayDimensions env w n).2.clocks = w.clocks ∧
    (allocArrayDimensions env w n).2.reads = w.reads ∧
    (allocArrayDimensions env w n).2.guids = w.guids := by
  unfold allocArrayDimensions UA_calloc
  split <;> exact ⟨rfl, rfl, rfl⟩

theorem generateFieldMetaData_static_world {env : Env} {w w' : World}
    {var : UA_DataSetVariableConfig} {fmd fmd' : UA_FieldMetaData} {res : UA_StatusCode}
    (h : generateFieldMetaData_static env w var fmd = .ok (res, fmd', w')) :
    w'.clocks = w.clocks ∧ w'.reads = w.reads ∧ w'.guids = w.guids := by
  unfold generateFieldMetaData_static at h
  split at h
  · simp at h
  · split at h
    · simp at h
    · rename_i svs _
      have ha := allocArrayDimensions_world env w svs.value.arrayDimensions.length
      simp only [] at h
      split at h
      · simp only [Except.ok.injEq, Prod.mk.injEq] at h
        obtain ⟨-, -, rfl⟩ := h
        exact ha
      · split at h
        · simp at h
        · rename_i type _
          have hn := UA_NodeId_copy_world env
            (allocArrayDimensions env w svs.value.arrayDimensions.length).2 type.typeId
          split at h
          · simp only [Except.ok.injEq, Prod.mk.injEq] at h
            obtain ⟨-, -, rfl⟩ := h
            rw [hn]; exact ha
          · simp only [Except.ok.injEq, Prod.mk.injEq] at h
            obtain ⟨-, -, rfl⟩ := h
            rw [hn]; exact ha

theorem generateFieldMetaData_generic_world {env : Env} {w w' : World}
    {var : UA_DataSetVariableConfig} {fmd fmd' : UA_FieldMetaData} {res : UA_StatusCode}
    (h : generateFieldMetaData_generic env w var fmd = .ok (res, fmd', w')) :
    w'.clocks = w.clocks ∧ w'.guids = w.guids := by
  unfold generateFieldMetaData_generic at h
  simp only [] at h
  have ha := fun n => allocArrayDimensions_world env
    (readWithReadValue_ARRAYDIMENSIONS env w var.publishParameters.publishedVariable).2.2 n
  split at h
  · simp only [Except.ok.injEq, Prod.mk.injEq] at h
    obtain ⟨-, -, rfl⟩ := h
    exact ⟨rfl, rfl⟩
  · split at h
    · simp only [Except.ok.injEq, Prod.mk.injEq] at h
      obtain ⟨-, -, rfl⟩ := h
      exact ⟨(ha _).1, (ha _).2.2⟩
    · split at h
      · simp only [Except.ok.injEq, Prod.mk.injEq] at h
        obtain ⟨-, -, rfl⟩ := h
        exact ⟨(ha _).1, (ha _).2.2⟩
      · split at h
        · simp at h
        · split at h
          · simp only [Except.ok.injEq, Prod.mk.injEq] at h
            obtain ⟨-, -, rfl⟩ := h
            exact ⟨(ha _).1, (ha _).2.2⟩
          · simp only [Except.ok.injEq, Prod.mk.injEq] at h
            obtain ⟨-, -, rfl⟩ := h
            exact ⟨(ha _).1, (ha _).2.2⟩

theorem generateFieldMetaData_clocks {env : Env} {w w' : World} {field : UA_DataSetField}
    {fmd fmd' : UA_FieldMetaData} {res : UA_StatusCode}
    (h : generateFieldMetaData env w field fmd = .ok (res, fmd', w')) :
    w'.clocks = w.clocks := by
  unfold generateFieldMetaData at h
  split at h
  · simp only [Except.ok.injEq, Prod.mk.injEq] at h
    obtain ⟨-, -, rfl⟩ := h
    rfl
  · simp only [] at h
    have hc : (UA_String_copy env (UA_PubSubManager_generateUniqueGuid env w).2
        field.config.field.var.fieldNameAlias).2.2.clocks = w.clocks := by
      unfold UA_String_copy UA_calloc UA_PubSubManager_generateUniqueGuid
      simp only []
      split <;> rfl
    split at h
    · simp only [Except.ok.injEq, Prod.mk.injEq] at h
      obtain ⟨-, -, rfl⟩ := h
      exact hc
    · split at h
      · exact (generateFieldMetaData_static_world h).1.trans hc
      · exact (generateFieldMetaData_generic_world h).1.trans hc

theorem regenerateFieldMetaData_clocks {env : Env} :
    ∀ {fs : List UA_DataSetField} {slots out : List UA_FieldMetaData} {w w' : World}
      {res0 res : UA_StatusCode},
      regenerateFieldMetaData env w res0 fs slots = .ok (res, out, w') → w'.clocks = w.clocks
  | [], slots, out, w, w', res0, res, h => by
    simp only [regenerateFieldMetaData, Except.ok.injEq, Prod.mk.injEq] at h
    obtain ⟨-, -, rfl⟩ := h
    rfl
  | _ :: _, [], _, _, _, _, _, h => by simp [regenerateFieldMetaData] at h
  | f :: fs, slot :: slots, out, w, w', res0, res, h => by
    unfold regenerateFieldMetaData at h
    split at h
    · simp at h
    · rename_i gres fmd gw hgen
      have hg := generateFieldMetaData_clocks hgen
      split at h
      · simp only [Except.ok.injEq, Prod.mk.injEq] at h
        obtain ⟨-, -, rfl⟩ := h
        exact hg
      · split at h
        · simp at h
        · rename_i res2 slots2 w2 hrec
          simp only [Except.ok.injEq, Prod.mk.injEq] at h
          obtain ⟨-, -, rfl⟩ := h
          exact (regenerateFieldMetaData_clocks hrec).trans hg

theorem removeDataSetField_regenerate_clocks {env : Env} {w rw : World}
    {pds pds' : UA_PublishedDataSet} {res : UA_StatusCode} {early : Bool}
    (h : removeDataSetField_regenerate env w pds = .ok (res, early, pds', rw)) :
    rw.clocks = w.clocks ∧ (res = UA_STATUSCODE_GOOD → early = false) := by
  unfold removeDataSetField_regenerate at h
  split at h
  · simp at h
  · simp only [] at h
    split at h
    · split at h
      · simp at h
      · simp at h
      · split at h
        · simp at h
        · split at h
          · simp only [Except.ok.injEq, Prod.mk.injEq] at h
            obtain ⟨rfl, -, -, rfl⟩ := h
            exact ⟨rfl, by simp [UA_STATUSCODE_BADOUTOFMEMORY, UA_STATUSCODE_GOOD]⟩
          · split at h
            · simp at h
            · rename_i hreg
              simp only [Except.ok.injEq, Prod.mk.injEq] at h
              obtain ⟨-, rfl, -, rfl⟩ := h
              exact ⟨(regenerateFieldMetaData_clocks hreg).trans rfl, fun _ => rfl⟩
    · split at h
      · simp at h
      · simp at h
      · simp at h
      · simp only [Except.ok.injEq, Prod.mk.injEq] at h
        obtain ⟨-, rfl, -, rfl⟩ := h
        exact ⟨rfl, fun _ => rfl⟩

/-! ## C8: the configuration version -/

/-- C8. Configuration version. Let the version generator be non-decreasing
along its calls, and let the major version a dataset holds have been
produced by the generator no later than the call. Then after every successful
`addDataSetField` or `removeDataSetField` the dataset is still at its place
with a major version greater than or equal to the one before the call (and
again one the generator has produced by then), and the version pair returned
in the result is the pair stored in the dataset the call worked on. -/
theorem version_does_not_decrease (env : Env) (w : World) (server : UA_Server) (call : Call)
    (res : UA_DataSetFieldResult) (server' : UA_Server) (w' : World)
    (hrun : call.run env w server = .ok (res, server', w'))
    (hgood : res.result = UA_STATUSCODE_GOOD)
    (hmono : ∀ a b, a ≤ b → env.version a ≤ env.version b)
    (j : Nat) (ds : UA_PublishedDataSet)
    (hj : server.pubSubManager.publishedDataSets[j]? = some ds)
    (hprev : ∃ k, k ≤ w.clocks ∧
      ds.dataSetMetaData.configurationVersion.majorVersion = env.version k) :
    (∃ ds', server'.pubSubManager.publishedDataSets[j]? = some ds' ∧
      ds.dataSetMetaData.configurationVersion.majorVersion ≤
        ds'.dataSetMetaData.configurationVersion.majorVersion ∧
      ∃ k, k ≤ w'.clocks ∧
        ds'.dataSetMetaData.configurationVersion.majorVersion = env.version k) ∧
    (∃ t dt, call.target server = some t ∧
      server'.pubSubManager.publishedDataSets[t]? = some dt ∧
      res.configurationVersion = dt.dataSetMetaData.configurationVersion) := by
  have hjlt : j < server.pubSubManager.publishedDataSets.length := lt_length_of_getElem? hj
  obtain ⟨k, hk, hprev⟩ := hprev
  cases call with
  | add pdsId fieldConfig out =>
    simp only [Call.run] at hrun
    split at hrun
    · simp at hrun
    · rename_i r hr
      simp only [Except.ok.injEq, Prod.mk.injEq] at hrun
      obtain ⟨rfl, rfl, rfl⟩ := hrun
      rcases addDataSetField_ok hr with ⟨-, hbad, -⟩ | ⟨cfg, i, currDS, fmd, gw, dsfs, -, hfind, -, -, -,
        hgen, -, -, -, hres, -, hw, hs⟩
      · exact absurd hgood hbad
      · obtain ⟨hi, -⟩ := findPDSbyId_some hfind
        have hilt := lt_length_of_getElem? hi
        have hclk : gw.clocks = w.clocks := (generateFieldMetaData_clocks hgen).trans rfl
        rw [hs, hw, hres]
        refine ⟨?_, i, _, by simp [Call.target, hfind], getElem?_set_same _ hilt, rfl⟩
        by_cases hij : i = j
        · subst hij
          rw [hi] at hj
          simp only [Option.some.injEq] at hj
          subst hj
          refine ⟨_, getElem?_set_same _ hjlt, ?_, gw.clocks, by simp, rfl⟩
          simp only [addDataSetField_commit]
          rw [hprev]
          exact hmono _ _ (by omega)
        · refine ⟨ds, by rw [getElem?_set_other _ hij]; exact hj, Nat.le_refl _, k, ?_, hprev⟩
          simp only []
          omega
  | remove dsf =>
    simp only [Call.run] at hrun
    split at hrun
    · simp at hrun
    · rename_i r hr
      simp only [Except.ok.injEq, Prod.mk.injEq] at hrun
      obtain ⟨rfl, rfl, rfl⟩ := hrun
      rcases removeDataSetField_ok hr with ⟨-, hbad, -⟩ | ⟨di, fi, currentField, pds, res', early,
        pds', hf, hp, -, -, -, -, hreg, hres, hs⟩
      · exact absurd hgood hbad
      · obtain ⟨hi, -⟩ := findPDSbyId_some hp
        have hilt := lt_length_of_getElem? hi
        obtain ⟨hclk, hearly⟩ := removeDataSetField_regenerate_clocks hreg
        obtain ⟨-, hpds'⟩ := removeDataSetField_regenerate_ok hreg
        have he : early = false := hearly (by rw [hres] at hgood; exact hgood)
        have hver : pds'.dataSetMetaData.configurationVersion =
            ⟨env.version w.clocks, pds.dataSetMetaData.configurationVersion.minorVersion⟩ := by
          rw [hpds']; rfl
        rw [hs, hres]
        refine ⟨?_, di, pds', by simp [Call.target, hf], getElem?_set_same _ hilt, by simp [he]⟩
        by_cases hij : di = j
        · subst hij
          rw [hi] at hj
          simp only [Option.some.injEq] at hj
          subst hj
          refine ⟨_, getElem?_set_same _ hjlt, ?_, w.clocks, ?_, by rw [hver]⟩
          · rw [hver, hprev]
            exact hmono _ _ hk
          · rw [hclk]; simp [UA_PubSubConfigurationVersionTimeDifference]
        · refine ⟨ds, by rw [getElem?_set_other _ hij]; exact hj, Nat.le_refl _, k, ?_, hprev⟩
          rw [hclk]
          simp only [UA_PubSubConfigurationVersionTimeDifference]
          omega

/-- The version generator of the demo environment is non-decreasing. -/
theorem demoEnv_version_mono (a b : Nat) (h : a ≤ b) : demoEnv.version a ≤ demoEnv.version b := by
  unfold Env.version demoEnv
  simp only []
  rw [Nat.mod_eq_of_lt (by omega), Nat.mod_eq_of_lt (by omega)]
  omega

/-- C8 on the demo registry: adding "pressure" after "temp". -/
theorem version_does_not_decrease_witness :
    (∃ ds', demoAfterPressure.2.1.pubSubManager.publishedDataSets[0]? = some ds' ∧
      (demoAfterTemp.2.1.pubSubManager.publishedDataSets.headD
          demoDataSet).dataSetMetaData.configurationVersion.majorVersion ≤
        ds'.dataSetMetaData.configurationVersion.majorVersion ∧
      ∃ k, k ≤ demoAfterPressure.2.2.clocks ∧
        ds'.dataSetMetaData.configurationVersion.majorVersion = demoEnv.version k) ∧
    (∃ t dt, (Call.add demoPdsId (some (demoConfig "pressure" true)) none).target
        demoAfterTemp.2.1 = some t ∧
      demoAfterPressure.2.1.pubSubManager.publishedDataSets[t]? = some dt ∧
      demoAfterPressure.1.configurationVersion = dt.dataSetMetaData.configurationVersion) :=
  version_does_not_decrease demoEnv demoAfterTemp.2.2 demoAfterTemp.2.1
    (.add demoPdsId (some (demoConfig "pressure" true)) none)
    demoAfterPressure.1 demoAfterPressure.2.1 demoAfterPressure.2.2 rfl rfl demoEnv_version_mono 0
    (demoAfterTemp.2.1.pubSubManager.publishedDataSets.headD demoDataSet) rfl ⟨0, by decide, rfl⟩

/-! ## C7: removing the last field -/

/-- C7. Removing the last field. Let a dataset of the registry be unfrozen, hold
exactly one field and satisfy the size invariant, and let the identifier
resolve to that field. If `removeDataSetField` returns with status `Good`, the
dataset is afterwards at the same place with `fieldSize` zero, an empty field
queue, `dataSetMetaData.fieldsSize` zero and the storage of the metadata
entries released and set to null. -/
theorem remove_last_field (env : Env) (w : World) (server : UA_Server) (dsf : UA_NodeId)
    (di fi : Nat) (f : UA_DataSetField) (pds : UA_PublishedDataSet) (r : RemoveReturn)
    (hf : UA_DataSetField_findDSFbyId server dsf = some (di, fi, f))
    (hds : server.pubSubManager.publishedDataSets[di]? = some pds)
    (hone : pds.fields.length = 1) (hinv : SizeInvariant pds)
    (hunfrozen : pds.configurationFrozen = false)
    (hr : removeDataSetField env w server dsf = .ok r)
    (hgood : r.result.result = UA_STATUSCODE_GOOD) :
    ∃ pds', r.server.pubSubManager.publishedDataSets[di]? = some pds' ∧
      pds'.identifier = pds.identifier ∧ pds'.configurationFrozen = false ∧
      pds'.fieldSize = 0 ∧ pds'.fields = [] ∧
      pds'.dataSetMetaData.fieldsSize = 0 ∧ pds'.dataSetMetaData.fields = .null := by
  rcases removeDataSetField_ok hr with ⟨-, hbad, -⟩ | ⟨di', fi', currentField, pds2, res', early,
    pds', hf', hp, -, -, -, -, hreg, -, hs⟩
  · exact absurd hgood hbad
  · rw [hf] at hf'
    simp only [Option.some.injEq, Prod.mk.injEq] at hf'
    obtain ⟨rfl, rfl, rfl⟩ := hf'
    obtain ⟨hi, -⟩ := findPDSbyId_some hp
    rw [hds] at hi
    simp only [Option.some.injEq] at hi
    subst hi
    have hilt := lt_length_of_getElem? hds
    obtain ⟨ds2, hds2, hfi, -⟩ := findDSFbyId_some hf
    rw [hds] at hds2
    simp only [Option.some.injEq] at hds2
    subst hds2
    have hfilt : fi < pds.fields.length := lt_length_of_getElem? hfi
    have hnil : pds.fields.eraseIdx fi = [] := by
      apply List.eq_nil_of_length_eq_zero
      simp only [List.length_eraseIdx, hfilt, if_true]; omega
    rw [hs]
    refine ⟨pds', getElem?_set_same _ hilt, ?_⟩
    unfold SizeInvariant at hinv
    unfold removeDataSetField_regenerate at hreg
    simp only [removeDataSetField_unlink] at hreg
    split at hreg
    · simp at hreg
    · split at hreg
      · rename_i hpos
        omega
      · split at hreg
        · simp at hreg
        · simp at hreg
        · simp at hreg
        · simp only [Except.ok.injEq, Prod.mk.injEq] at hreg
          obtain ⟨-, -, rfl, -⟩ := hreg
          refine ⟨rfl, hunfrozen, ?_, hnil, ?_, rfl⟩
          · simp only []; omega
          · simp only []; omega

/-- C7 on the demo registry that holds only "temp". -/
theorem remove_last_field_witness :
    ∃ pds', demoRemoveTemp.server.pubSubManager.publishedDataSets[0]? = some pds' ∧
      pds'.identifier = demoTempDataSet.identifier ∧ pds'.configurationFrozen = false ∧
      pds'.fieldSize = 0 ∧ pds'.fields = [] ∧
      pds'.dataSetMetaData.fieldsSize = 0 ∧ pds'.dataSetMetaData.fields = .null :=
  remove_last_field demoEnv demoAfterTemp.2.2 demoAfterTemp.2.1 demoTempId 0 0 demoTempField
    demoTempDataSet demoRemoveTemp rfl rfl rfl (by decide) rfl rfl rfl

/-! ## C10: metadata of a static snapshot field -/

theorem copyArrayDimensions_eq (arrayDimensions : List Nat) :
    copyArrayDimensions arrayDimensions = arrayDimensions := by
  unfold copyArrayDimensions
  split
  · rfl
  · rename_i h
    cases arrayDimensions with
    | nil => rfl
    | cons a l => simp at h

theorem generateFieldMetaData_static_good {env : Env} {w w' : World}
    {var : UA_DataSetVariableConfig} {fmd fmd' : UA_FieldMetaData}
    (h : generateFieldMetaData_static env w var fmd = .ok (UA_STATUSCODE_GOOD, fmd', w')) :
    ∃ cell svs type, var.rtValueSource.staticValueSource = some cell ∧
      env.staticValue cell = some svs ∧ svs.value.type = some type ∧
      fmd' = { fmd with arrayDimensions := svs.value.arrayDimensions, dataType := type.typeId,
                        properties := [], fieldFlags := UA_DATASETFIELDFLAGS_NONE } := by
  unfold generateFieldMetaData_static at h
  split at h
  · simp at h
  · rename_i cell hcell
    split at h
    · simp at h
    · rename_i svs hsvs
      simp only [] at h
      split at h
      · simp [UA_STATUSCODE_BADOUTOFMEMORY, UA_STATUSCODE_GOOD] at h
      · split at h
        · simp at h
        · rename_i type htype
          split at h
          · rename_i hc
            simp only [Except.ok.injEq, Prod.mk.injEq] at h
            exact absurd h.1 hc
          · rename_i hc
            have hcopy := UA_NodeId_copy_good (not_not.mp hc)
            simp only [Except.ok.injEq, Prod.mk.injEq] at h
            obtain ⟨-, rfl, -⟩ := h
            refine ⟨cell, svs, type, hcell, hsvs, htype, ?_⟩
            rw [hcopy, copyArrayDimensions_eq]

/-- C10. Metadata of a static snapshot field. For every `Variable` field whose
value source is the static snapshot (`rtFieldSourceEnabled` set,
`rtInformationModelNode` not set), `generateFieldMetaData` issues no attribute
read, whatever it returns: the read counter of the world is where it was. When
it returns `Good`, the snapshot and its type were there to read, the array
dimensions of the entry are those of the snapshot value (same length, same
elements), the data type is the type identifier of the snapshot value's type,
the name is the configured alias; value rank, built-in type and maximal string
length are as the caller passed them (zero at both call sites), and the
properties are empty and the flags `None`. -/
theorem static_snapshot_metadata (env : Env) (w : World) (field : UA_DataSetField)
    (fmd0 : UA_FieldMetaData)
    (hvar : field.config.dataSetFieldType = .UA_PUBSUB_DATASETFIELD_VARIABLE)
    (hen : field.config.field.var.rtValueSource.rtFieldSourceEnabled = true)
    (hnode : field.config.field.var.rtValueSource.rtInformationModelNode = false) :
    (∀ res fmd w', generateFieldMetaData env w field fmd0 = .ok (res, fmd, w') →
      w'.reads = w.reads) ∧
    (∀ fmd w', generateFieldMetaData env w field fmd0 = .ok (UA_STATUSCODE_GOOD, fmd, w') →
      ∃ cell svs type,
        field.config.field.var.rtValueSource.staticValueSource = some cell ∧
        env.staticValue cell = some svs ∧ svs.value.type = some type ∧
        fmd.arrayDimensions = svs.value.arrayDimensions ∧
        fmd.dataType = type.typeId ∧
        fmd.name = field.config.field.var.fieldNameAlias ∧
        fmd.valueRank = fmd0.valueRank ∧ fmd.properties = [] ∧
        fmd.builtInType = fmd0.builtInType ∧ fmd.maxStringLength = fmd0.maxStringLength ∧
        fmd.fieldFlags = UA_DATASETFIELDFLAGS_NONE) := by
  have hsplit : ∀ res fmd w', generateFieldMetaData env w field fmd0 = .ok (res, fmd, w') →
      (res ≠ UA_STATUSCODE_GOOD ∧ w'.reads = w.reads) ∨
      generateFieldMetaData_static env
        (UA_String_copy env (UA_PubSubManager_generateUniqueGuid env w).2
          field.config.field.var.fieldNameAlias).2.2 field.config.field.var
        { fmd0 with dataSetFieldId := env.randomGuid w.guids, description := ⟨"", ""⟩,
                    name := (UA_String_copy env (UA_PubSubManager_generateUniqueGuid env w).2
                      field.config.field.var.fieldNameAlias).2.1 } = .ok (res, fmd, w') := by
    intro res fmd w' h
    unfold generateFieldMetaData at h
    simp only [hvar, ne_eq, not_true_eq_false, if_false, hen, hnode, and_self, if_true] at h
    split at h
    · rename_i hc
      left
      simp only [Except.ok.injEq, Prod.mk.injEq] at h
      obtain ⟨rfl, -, rfl⟩ := h
      refine ⟨hc, ?_⟩
      unfold UA_String_copy UA_calloc UA_PubSubManager_generateUniqueGuid
      simp only []
      split <;> rfl
    · right; exact h
  have hreads : (UA_String_copy env (UA_PubSubManager_generateUniqueGuid env w).2
      field.config.field.var.fieldNameAlias).2.2.reads = w.reads := by
    unfold UA_String_copy UA_calloc UA_PubSubManager_generateUniqueGuid
    simp only []
    split <;> rfl
  constructor
  · intro res fmd w' h
    rcases hsplit res fmd w' h with ⟨-, hr⟩ | hs
    · exact hr
    · exact (generateFieldMetaData_static_world hs).2.1.trans hreads
  · intro fmd w' h
    obtain ⟨hname, -⟩ := generateFieldMetaData_good_name h
    rcases hsplit _ fmd w' h with ⟨hbad, -⟩ | hs
    · exact absurd rfl hbad
    · obtain ⟨cell, svs, type, h1, h2, h3, rfl⟩ := generateFieldMetaData_static_good hs
      exact ⟨cell, svs, type, h1, h2, h3, rfl, rfl, hname, rfl, rfl, rfl, rfl, rfl⟩

/-- C10 on the static demo field, in an environment whose attribute reads all
fail. -/
theorem static_snapshot_metadata_witness :
    demoStaticGeneration.2.2.reads = demoWorld.reads ∧
    ∃ cell svs type,
      demoStaticField.config.field.var.rtValueSource.staticValueSource = some cell ∧
      demoStaticEnv.staticValue cell = some svs ∧ svs.value.type = some type ∧
      demoStaticGeneration.2.1.arrayDimensions = svs.value.arrayDimensions ∧
      demoStaticGeneration.2.1.dataType = type.typeId ∧
      demoStaticGeneration.2.1.name = demoStaticField.config.field.var.fieldNameAlias ∧
      demoStaticGeneration.2.1.valueRank = UA_FieldMetaData_init.valueRank ∧
      demoStaticGeneration.2.1.properties = [] ∧
      demoStaticGeneration.2.1.builtInType = UA_FieldMetaData_init.builtInType ∧
      demoStaticGeneration.2.1.maxStringLength = UA_FieldMetaData_init.maxStringLength ∧
      demoStaticGeneration.2.1.fieldFlags = UA_DATASETFIELDFLAGS_NONE :=
  ⟨(static_snapshot_metadata demoStaticEnv demoWorld demoStaticField UA_FieldMetaData_init
      rfl rfl rfl).1 UA_STATUSCODE_GOOD demoStaticGeneration.2.1 demoStaticGeneration.2.2 rfl,
   (static_snapshot_metadata demoStaticEnv demoWorld demoStaticField UA_FieldMetaData_init
      rfl rfl rfl).2 demoStaticGeneration.2.1 demoStaticGeneration.2.2 rfl⟩

/-! ## Calls in which every step succeeds -/

theorem UA_Array_append_ok {env : Env} {w : World} {p : FieldsStorage} {size : Nat}
    (e : UA_FieldMetaData) (hp : p ≠ .freed) (hsize : size = p.cells.length)
    (ha : env.allocOk w.allocs = true) :
    UA_Array_append env w p size e =
      .ok (UA_STATUSCODE_GOOD, .block (p.cells ++ [e]), p.cells.length + 1,
        { w with allocs := w.allocs + 1 }) := by
  subst hsize
  cases p with
  | freed => exact absurd rfl hp
  | null => simp [UA_Array_append, UA_calloc, ha, FieldsStorage.cells]
  | block cells => simp [UA_Array_append, UA_calloc, ha, FieldsStorage.cells]

/-- A call of `addDataSetField` whose every step succeeds, as an equation. -/
theorem addDataSetField_eq (env : Env) (w : World) (server : UA_Server) (pdsId : UA_NodeId)
    (i : Nat) (currDS : UA_PublishedDataSet) (cfg : UA_DataSetFieldConfig)
    (out : Option UA_NodeId) (fmd : UA_FieldMetaData) (gw : World) (dsfs : List UA_DataSetField)
    (hfind : UA_PublishedDataSet_findPDSbyId server pdsId = some (i, currDS))
    (hfrozen : currDS.configurationFrozen = false)
    (htype : currDS.config.publishedDataSetType = .UA_PUBSUB_DATASET_PUBLISHEDITEMS)
    (hvar : cfg.dataSetFieldType = .UA_PUBSUB_DATASETFIELD_VARIABLE)
    (h0 : env.allocOk w.allocs = true) (h1 : env.allocOk (w.allocs + 1) = true)
    (h2 : env.allocOk (w.allocs + 2) = true) (h3 : env.allocOk (w.allocs + 3) = true)
    (hgen : generateFieldMetaData env { w with allocs := w.allocs + 4 }
        (newFieldOf cfg currDS.identifier UA_NODEID_NULL) UA_FieldMetaData_init =
          .ok (UA_STATUSCODE_GOOD, fmd, gw))
    (happ : env.allocOk gw.allocs = true)
    (hstorage : currDS.dataSetMetaData.fields ≠ .freed)
    (hsize : currDS.dataSetMetaData.fieldsSize = currDS.dataSetMetaData.fields.cells.length)
    (hreb : rebindFieldMetaData
        (currDS.fields ++ [newFieldOf cfg currDS.identifier (UA_NODEID_GUID 1 fmd.dataSetFieldId)])
        (currDS.dataSetMetaData.fields.cells ++ [fmd]) = .ok dsfs) :
    addDataSetField env w server pdsId (some cfg) out =
      .ok ⟨⟨UA_STATUSCODE_GOOD,
            ⟨env.version gw.clocks, currDS.dataSetMetaData.configurationVersion.minorVersion⟩⟩,
           out.map (fun _ => UA_NODEID_GUID 1 fmd.dataSetFieldId),
           ⟨⟨server.pubSubManager.publishedDataSets.set i
              (addDataSetField_commit currDS cfg.field.var.promotedField
                (.block (currDS.dataSetMetaData.fields.cells ++ [fmd]))
                (currDS.dataSetMetaData.fields.cells.length + 1) dsfs (env.version gw.clocks))⟩⟩,
           { gw with allocs := gw.allocs + 1, clocks := gw.clocks + 1 }⟩ := by
  have hc : UA_DataSetFieldConfig_copy env { w with allocs := w.allocs + 1 } cfg
      UA_DataSetFieldConfig_init = (UA_STATUSCODE_GOOD, cfg, { w with allocs := w.allocs + 3 }) := by
    rw [UA_DataSetFieldConfig_copy_ok hvar h1 h2]
  have hn : UA_NodeId_copy env { w with allocs := w.allocs + 3 } currDS.identifier =
      (UA_STATUSCODE_GOOD, currDS.identifier, { w with allocs := w.allocs + 4 }) := by
    rw [UA_NodeId_copy_ok h3]
  have ha := UA_Array_append_ok fmd hstorage hsize happ
  unfold newFieldOf at hgen hreb
  simp [addDataSetField, hfind, hfrozen, htype, UA_calloc, h0, hc, hn, hgen, ha, hreb,
    UA_PubSubConfigurationVersionTimeDifference, addDataSetField_commit]

theorem generateFieldMetaData_dataType_no_fault {env : Env} {var : UA_DataSetVariableConfig}
    {fmd : UA_FieldMetaData} {e : Fault}
    (h : UA_NodeId_isNull fmd.dataType = true ∨ (env.findDataType fmd.dataType).isSome = true)
    (he : generateFieldMetaData_dataType env var fmd = .error e) : False := by
  unfold generateFieldMetaData_dataType at he
  by_cases hnull : UA_NodeId_isNull fmd.dataType = true
  · simp [hnull] at he
  · rcases h with h | h
    · exact absurd h hnull
    · simp only [hnull, Bool.not_eq_true] at *
      simp only [if_true] at he
      unfold generateFieldMetaData_classify at he
      cases hd : env.findDataType fmd.dataType with
      | none => simp [hd] at h
      | some d =>
        simp only [hd] at he
        split at he
        · split at he
          · simp at he
          · simp at he
        · simp at he

/-- Metadata generation for a generic-source field succeeds when every
collaborator answers well. -/
theorem generateFieldMetaData_generic_source_good (env : Env) (w : World) (field : UA_DataSetField)
    (fmd0 : UA_FieldMetaData)
    (hvar : field.config.dataSetFieldType = .UA_PUBSUB_DATASETFIELD_VARIABLE)
    (hsrc : field.config.field.var.rtValueSource.rtFieldSourceEnabled = false)
    (halloc : ∀ k, env.allocOk k = true)
    (hdims : ∀ k n, (env.readArrayDimensions k n).1 = UA_STATUSCODE_GOOD)
    (htype : ∀ k n, (env.readDataType k n).1 = UA_STATUSCODE_GOOD)
    (hrank : ∀ k n, (env.readValueRank k n).1 = UA_STATUSCODE_GOOD)
    (hdesc : ∀ k n, UA_NodeId_isNull (env.readDataType k n).2 = true ∨
      (env.findDataType (env.readDataType k n).2).isSome = true) :
    ∃ fmd w', generateFieldMetaData env w field fmd0 = .ok (UA_STATUSCODE_GOOD, fmd, w') ∧
      fmd.fieldFlags = (if field.config.field.var.promotedField = true
        then UA_DATASETFIELDFLAGS_PROMOTEDFIELD else UA_DATASETFIELDFLAGS_NONE) := by
  rw [generateFieldMetaData_generic_eq hvar (by simp [hsrc]) (halloc _)]
  unfold generateFieldMetaData_generic
  have ha : ∀ w n, (allocArrayDimensions env w n).1 = true := by
    intro w n
    unfold allocArrayDimensions UA_calloc
    split
    · exact halloc _
    · rfl
  simp only [readWithReadValue_ARRAYDIMENSIONS, readWithReadValue_DATATYPE,
    readWithReadValue_VALUERANK, hdims, htype, hrank, ha, ne_eq, not_true_eq_false, if_false,
    Bool.true_eq_false]
  split
  · rename_i e he
    exact absurd he (fun he => generateFieldMetaData_dataType_no_fault (hdesc _ _) he)
  · rename_i fmd2 h2
    by_cases hp : field.config.field.var.promotedField = true
    · exact ⟨_, _, rfl, by simp [hp]⟩
    · exact ⟨_, _, rfl, by simp [hp]⟩

/-! ## C9: the scenario -/

/-- The scenario "temp", "pressure" of C9 in an environment whose type
registry knows the data types that are read. Let every allocation be served,
every attribute read succeed, every data type that is read be null or known to
the type registry, and the version generator be non-decreasing. Start from a
registry that holds one empty, unfrozen dataset `D` of the published-items
type. Adding `F1` (alias "temp", not promoted, attribute reads as value source)
returns `Good` and leaves `fieldSize` 1 and a one-entry metadata array whose
entry is named "temp", with major version `v1`. Adding `F2` (alias "pressure",
promoted, attribute reads as value source) returns `Good` and leaves
`fieldSize` 2, `promotedFieldsCount` 1 and a second metadata entry with the flag
`PromotedField`, with major version `v2 >= v1`. Removing `F1` by the identifier
the first add returned gives `Good`, `fieldSize` 1 and a one-entry metadata array
whose entry is named "pressure", with major version `v3 >= v2`. Each result
carries the major version its dataset then holds. -/
theorem scenario_temp_pressure (env : Env) (w : World) (D : UA_PublishedDataSet)
    (F1 F2 : UA_DataSetFieldConfig) (o : UA_NodeId)
    (hDfields : D.fields = []) (hDstorage : D.dataSetMetaData.fields = .null)
    (hDfieldsSize : D.dataSetMetaData.fieldsSize = 0) (hDfieldSize : D.fieldSize = 0)
    (hDpromoted : D.promotedFieldsCount = 0) (hDfrozen : D.configurationFrozen = false)
    (hDtype : D.config.publishedDataSetType = .UA_PUBSUB_DATASET_PUBLISHEDITEMS)
    (hF1var : F1.dataSetFieldType = .UA_PUBSUB_DATASETFIELD_VARIABLE)
    (hF1alias : F1.field.var.fieldNameAlias = "temp")
    (hF1promoted : F1.field.var.promotedField = false)
    (hF1source : F1.field.var.rtValueSource.rtFieldSourceEnabled = false)
    (hF2var : F2.dataSetFieldType = .UA_PUBSUB_DATASETFIELD_VARIABLE)
    (hF2alias : F2.field.var.fieldNameAlias = "pressure")
    (hF2promoted : F2.field.var.promotedField = true)
    (hF2source : F2.field.var.rtValueSource.rtFieldSourceEnabled = false)
    (halloc : ∀ k, env.allocOk k = true)
    (hdims : ∀ k n, (env.readArrayDimensions k n).1 = UA_STATUSCODE_GOOD)
    (htype : ∀ k n, (env.readDataType k n).1 = UA_STATUSCODE_GOOD)
    (hrank : ∀ k n, (env.readValueRank k n).1 = UA_STATUSCODE_GOOD)
    (hdesc : ∀ k n, UA_NodeId_isNull (env.readDataType k n).2 = true ∨
      (env.findDataType (env.readDataType k n).2).isSome = true)
    (hmono : ∀ a b, a ≤ b → env.version a ≤ env.version b) :
    ∃ (r1 r2 : AddReturn) (r3 : RemoveReturn) (id1 : UA_NodeId)
      (D1 D2 D3 : UA_PublishedDataSet) (m1 m2a m2b m3 : UA_FieldMetaData),
      addDataSetField env w ⟨⟨[D]⟩⟩ D.identifier (some F1) (some o) = .ok r1 ∧
      r1.result.result = UA_STATUSCODE_GOOD ∧ r1.fieldIdentifier = some id1 ∧
      r1.server = ⟨⟨[D1]⟩⟩ ∧ D1.fieldSize = 1 ∧ D1.fields.length = 1 ∧
      D1.dataSetMetaData.fieldsSize = 1 ∧ D1.dataSetMetaData.fields = .block [m1] ∧
      m1.name = "temp" ∧
      r1.result.configurationVersion.majorVersion =
        D1.dataSetMetaData.configurationVersion.majorVersion ∧
      addDataSetField env r1.world r1.server D.identifier (some F2) (some o) = .ok r2 ∧
      r2.result.result = UA_STATUSCODE_GOOD ∧
      r2.server = ⟨⟨[D2]⟩⟩ ∧ D2.fieldSize = 2 ∧ D2.fields.length = 2 ∧
      D2.promotedFieldsCount = 1 ∧
      D2.dataSetMetaData.fieldsSize = 2 ∧ D2.dataSetMetaData.fields = .block [m2a, m2b] ∧
      m2b.fieldFlags = UA_DATASETFIELDFLAGS_PROMOTEDFIELD ∧
      r2.result.configurationVersion.majorVersion =
        D2.dataSetMetaData.configurationVersion.majorVersion ∧
      D1.dataSetMetaData.configurationVersion.majorVersion ≤
        D2.dataSetMetaData.configurationVersion.majorVersion ∧
      removeDataSetField env r2.world r2.server id1 = .ok r3 ∧
      r3.result.result = UA_STATUSCODE_GOOD ∧
      r3.server = ⟨⟨[D3]⟩⟩ ∧ D3.fieldSize = 1 ∧ D3.fields.length = 1 ∧
      D3.dataSetMetaData.fieldsSize = 1 ∧ D3.dataSetMetaData.fields = .block [m3] ∧
      m3.name = "pressure" ∧
      r3.result.configurationVersion.majorVersion =
        D3.dataSetMetaData.configurationVersion.majorVersion ∧
      D2.dataSetMetaData.configurationVersion.majorVersion ≤
        D3.dataSetMetaData.configurationVersion.majorVersion := by
  obtain ⟨cfgD, ⟨fsz, st, ver⟩, fields, idD, fieldSize, promoted, frozen⟩ := D
  simp only at hDfields hDstorage hDfieldsSize hDfieldSize hDpromoted hDfrozen hDtype
  subst hDfields hDstorage hDfieldsSize hDfieldSize hDpromoted hDfrozen
  -- first add
  obtain ⟨fmd1, gw1, hgen1, -⟩ := generateFieldMetaData_generic_source_good env
    { w with allocs := w.allocs + 4 } (newFieldOf F1 idD UA_NODEID_NULL) UA_FieldMetaData_init
    hF1var hF1source halloc hdims htype hrank hdesc
  obtain ⟨hname1, -⟩ := generateFieldMetaData_good_name hgen1
  have hclk1 : gw1.clocks = w.clocks := (generateFieldMetaData_clocks hgen1).trans rfl
  have hadd1 := addDataSetField_eq env w
    ⟨⟨[⟨cfgD, ⟨0, .null, ver⟩, [], idD, 0, 0, false⟩]⟩⟩ idD 0
    ⟨cfgD, ⟨0, .null, ver⟩, [], idD, 0, 0, false⟩ F1 (some o) fmd1 gw1
    [{ newFieldOf F1 idD (UA_NODEID_GUID 1 fmd1.dataSetFieldId) with fieldMetaData := fmd1 }]
    (by simp [UA_PublishedDataSet_findPDSbyId, findPDSbyId, UA_NodeId_equal]) rfl hDtype hF1var
    (halloc _) (halloc _) (halloc _) (halloc _) hgen1 (halloc _) (by simp) rfl rfl
  simp only [addDataSetField_commit, hF1promoted, FieldsStorage.cells_null, List.nil_append,
    List.length_nil, List.set_cons_zero, Nat.zero_add, Bool.false_eq_true, if_false,
    Option.map_some'] at hadd1
  -- second add
  obtain ⟨fmd2, gw2, hgen2, hflag2⟩ := generateFieldMetaData_generic_source_good env
    { gw1 with allocs := gw1.allocs + 1 + 4, clocks := gw1.clocks + 1 }
    (newFieldOf F2 idD UA_NODEID_NULL) UA_FieldMetaData_init
    hF2var hF2source halloc hdims htype hrank hdesc
  have hclk2 : gw2.clocks = gw1.clocks + 1 := (generateFieldMetaData_clocks hgen2).trans rfl
  have hadd2 := addDataSetField_eq env
    { gw1 with allocs := gw1.allocs + 1, clocks := gw1.clocks + 1 }
    ⟨⟨[⟨cfgD, ⟨1, .block [fmd1], ⟨env.version gw1.clocks, ver.minorVersion⟩⟩,
      [{ newFieldOf F1 idD (UA_NODEID_GUID 1 fmd1.dataSetFieldId) with fieldMetaData := fmd1 }],
      idD, 1, 0, false⟩]⟩⟩ idD 0
    ⟨cfgD, ⟨1, .block [fmd1], ⟨env.version gw1.clocks, ver.minorVersion⟩⟩,
      [{ newFieldOf F1 idD (UA_NODEID_GUID 1 fmd1.dataSetFieldId) with fieldMetaData := fmd1 }],
      idD, 1, 0, false⟩ F2 (some o) fmd2 gw2
    [{ newFieldOf F1 idD (UA_NODEID_GUID 1 fmd1.dataSetFieldId) with fieldMetaData := fmd1 },
      { newFieldOf F2 idD (UA_NODEID_GUID 1 fmd2.dataSetFieldId) with fieldMetaData := fmd2 }]
    (by simp [UA_PublishedDataSet_findPDSbyId, findPDSbyId, UA_NodeId_equal]) rfl hDtype hF2var
    (halloc _) (halloc _) (halloc _) (halloc _) hgen2 (halloc _) (by simp) rfl rfl
  simp only [addDataSetField_commit, hF2promoted, FieldsStorage.cells_block, List.cons_append,
    List.nil_append, List.length_cons, List.length_nil, List.set_cons_zero, Nat.zero_add,
    if_true, Option.map_some'] at hadd2
  -- the remove
  obtain ⟨fmd3, gw3, hgen3, -⟩ := generateFieldMetaData_generic_source_good env
    { gw2 with allocs := gw2.allocs + 1 + 1, clocks := gw2.clocks + 1 + 1 }
    ({ newFieldOf F2 idD (UA_NODEID_GUID 1 fmd2.dataSetFieldId) with fieldMetaData := fmd2 })
    UA_FieldMetaData_init
    hF2var hF2source halloc hdims htype hrank hdesc
  obtain ⟨hname3, -⟩ := generateFieldMetaData_good_name hgen3
  have hrem : removeDataSetField env
      { gw2 with allocs := gw2.allocs + 1, clocks := gw2.clocks + 1 }
      ⟨⟨[⟨cfgD, ⟨2, .block [fmd1, fmd2], ⟨env.version gw2.clocks, ver.minorVersion⟩⟩,
        [{ newFieldOf F1 idD (UA_NODEID_GUID 1 fmd1.dataSetFieldId) with fieldMetaData := fmd1 },
         { newFieldOf F2 idD (UA_NODEID_GUID 1 fmd2.dataSetFieldId) with fieldMetaData := fmd2 }],
        idD, 2, 1, false⟩]⟩⟩ (UA_NODEID_GUID 1 fmd1.dataSetFieldId) =
      .ok ⟨⟨UA_STATUSCODE_GOOD, ⟨env.version (gw2.clocks + 1), ver.minorVersion⟩⟩,
        ⟨⟨[⟨cfgD, ⟨1, .block [fmd3], ⟨env.version (gw2.clocks + 1), ver.minorVersion⟩⟩,
          [{ newFieldOf F2 idD (UA_NODEID_GUID 1 fmd2.dataSetFieldId) with fieldMetaData := fmd2 }],
          idD, 1, 1, false⟩]⟩⟩, gw3⟩ := by
    simp [removeDataSetField, UA_DataSetField_findDSFbyId, findDSFbyId, findFieldbyId,
      UA_PublishedDataSet_findPDSbyId, findPDSbyId, UA_NodeId_equal, newFieldOf, hF1promoted,
      removeDataSetField_fail, removeDataSetField_regenerate, removeDataSetField_unlink,
      UA_PubSubConfigurationVersionTimeDifference, UA_calloc, halloc, regenerateFieldMetaData,
      List.replicate]
    simp only [newFieldOf] at hgen3
    rw [hgen3]
    simp
  refine ⟨_, _, _, _, _, _, _, _, _, _, _, hadd1, rfl, rfl, rfl, rfl, rfl, rfl, rfl,
    hname1.trans hF1alias, rfl, hadd2, rfl, rfl, rfl, rfl, rfl, rfl, rfl, ?_, rfl, ?_, hrem, rfl,
    rfl, rfl, rfl, rfl, rfl, hname3.trans hF2alias, rfl, ?_⟩
  · rw [hflag2]; simp [newFieldOf, hF2promoted]
  · exact hmono _ _ (by omega)
  · exact hmono _ _ (by omega)

/-- The scenario in the demo environment, in which every data type that is
read is null. -/
theorem scenario_temp_pressure_witness :
    ∃ (r1 r2 : AddReturn) (r3 : RemoveReturn) (id1 : UA_NodeId)
      (D1 D2 D3 : UA_PublishedDataSet) (m1 m2a m2b m3 : UA_FieldMetaData),
      addDataSetField demoEnv demoWorld ⟨⟨[demoDataSet]⟩⟩ demoDataSet.identifier
        (some (demoConfig "temp" false)) (some UA_NODEID_NULL) = .ok r1 ∧
      r1.result.result = UA_STATUSCODE_GOOD ∧ r1.fieldIdentifier = some id1 ∧
      r1.server = ⟨⟨[D1]⟩⟩ ∧ D1.fieldSize = 1 ∧ D1.fields.length = 1 ∧
      D1.dataSetMetaData.fieldsSize = 1 ∧ D1.dataSetMetaData.fields = .block [m1] ∧
      m1.name = "temp" ∧
      r1.result.configurationVersion.majorVersion =
        D1.dataSetMetaData.configurationVersion.majorVersion ∧
      addDataSetField demoEnv r1.world r1.server demoDataSet.identifier
        (some (demoConfig "pressure" true)) (some UA_NODEID_NULL) = .ok r2 ∧
      r2.result.result = UA_STATUSCODE_GOOD ∧
      r2.server = ⟨⟨[D2]⟩⟩ ∧ D2.fieldSize = 2 ∧ D2.fields.length = 2 ∧
      D2.promotedFieldsCount = 1 ∧
      D2.dataSetMetaData.fieldsSize = 2 ∧ D2.dataSetMetaData.fields = .block [m2a, m2b] ∧
      m2b.fieldFlags = UA_DATASETFIELDFLAGS_PROMOTEDFIELD ∧
      r2.result.configurationVersion.majorVersion =
        D2.dataSetMetaData.configurationVersion.majorVersion ∧
      D1.dataSetMetaData.configurationVersion.majorVersion ≤
        D2.dataSetMetaData.configurationVersion.majorVersion ∧
      removeDataSetField demoEnv r2.world r2.server id1 = .ok r3 ∧
      r3.result.result = UA_STATUSCODE_GOOD ∧
      r3.server = ⟨⟨[D3]⟩⟩ ∧ D3.fieldSize = 1 ∧ D3.fields.length = 1 ∧
      D3.dataSetMetaData.fieldsSize = 1 ∧ D3.dataSetMetaData.fields = .block [m3] ∧
      m3.name = "pressure" ∧
      r3.result.configurationVersion.majorVersion =
        D3.dataSetMetaData.configurationVersion.majorVersion ∧
      D2.dataSetMetaData.configurationVersion.majorVersion ≤
        D3.dataSetMetaData.configurationVersion.majorVersion :=
  scenario_temp_pressure demoEnv demoWorld demoDataSet (demoConfig "temp" false)
    (demoConfig "pressure" true) UA_NODEID_NULL rfl rfl rfl rfl rfl rfl rfl rfl rfl rfl rfl rfl rfl
    rfl rfl (fun _ => rfl) (fun _ _ => rfl) (fun _ _ => rfl) (fun _ _ => rfl)
    (fun _ _ => Or.inl rfl) demoEnv_version_mono

/-- C9, the failing input. In the demo environment with the unknown data type
every allocation is served, every attribute read succeeds and the version
generator is non-decreasing; the dataset of the demo registry is empty,
unfrozen and of the published-items type; `F1` has the alias "temp", is not
promoted and has the generic value source. The data type read of `F1` yields
`ns=1;i=9999`, which the type registry does not know. The first call of the
scenario, adding `F1`, reads the type kind through the null descriptor: it
returns no result, so the field is not added and no version `v1` exists. -/
theorem scenario_faults_on_unknown_data_type :
    (∀ k, demoEnvUnknownType.allocOk k = true) ∧
    (∀ k n, (demoEnvUnknownType.readArrayDimensions k n).1 = UA_STATUSCODE_GOOD) ∧
    (∀ k n, (demoEnvUnknownType.readDataType k n).1 = UA_STATUSCODE_GOOD) ∧
    (∀ k n, (demoEnvUnknownType.readValueRank k n).1 = UA_STATUSCODE_GOOD) ∧
    (∀ a b, a ≤ b → demoEnvUnknownType.version a ≤ demoEnvUnknownType.version b) ∧
    (demoDataSet.fields = [] ∧ demoDataSet.fieldSize = 0 ∧
      demoDataSet.dataSetMetaData.fieldsSize = 0 ∧
      demoDataSet.configurationFrozen = false ∧
      demoDataSet.config.publishedDataSetType = .UA_PUBSUB_DATASET_PUBLISHEDITEMS) ∧
    ((demoConfig "temp" false).dataSetFieldType = .UA_PUBSUB_DATASETFIELD_VARIABLE ∧
      (demoConfig "temp" false).field.var.fieldNameAlias = "temp" ∧
      (demoConfig "temp" false).field.var.promotedField = false ∧
      (demoConfig "temp" false).field.var.rtValueSource = ⟨false, false, none⟩) ∧
    addDataSetField demoEnvUnknownType demoWorld demoServer demoPdsId
        (some (demoConfig "temp" false)) (some UA_NODEID_NULL) =
      .error .nullDereference :=
  ⟨fun _ => rfl, fun _ _ => rfl, fun _ _ => rfl, fun _ _ => rfl,
   fun a b h => demoEnv_version_mono a b h, ⟨rfl, rfl, rfl, rfl, rfl⟩, ⟨rfl, rfl, rfl, rfl⟩, rfl⟩

/-! ## C11 and C12: precondition failures -/


/-- C11. The order of the precondition checks of `addDataSetField`. A null field
configuration gives `BadInvalidArgument`, whatever the dataset identifier;
otherwise an identifier that resolves to no dataset gives `BadNotFound`;
otherwise a frozen dataset gives `BadConfigurationError`; otherwise a dataset
whose type is not the published-items type gives `BadNotImplemented`, whatever
the variant of the field configuration, which is examined only after these
checks. In each of the four failures the version in the result is zero and
server, out-parameter and world are returned as they were. -/
theorem add_precondition_order (env : Env) (w : World) (server : UA_Server) (pdsId : UA_NodeId)
    (out : Option UA_NodeId) :
    addDataSetField env w server pdsId none out =
      .ok ⟨⟨UA_STATUSCODE_BADINVALIDARGUMENT, ⟨0, 0⟩⟩, out, server, w⟩ ∧
    (∀ cfg : UA_DataSetFieldConfig, UA_PublishedDataSet_findPDSbyId server pdsId = none →
      addDataSetField env w server pdsId (some cfg) out =
        .ok ⟨⟨UA_STATUSCODE_BADNOTFOUND, ⟨0, 0⟩⟩, out, server, w⟩) ∧
    (∀ (cfg : UA_DataSetFieldConfig) (i : Nat) (currDS : UA_PublishedDataSet),
      UA_PublishedDataSet_findPDSbyId server pdsId = some (i, currDS) →
      currDS.configurationFrozen = true →
      addDataSetField env w server pdsId (some cfg) out =
        .ok ⟨⟨UA_STATUSCODE_BADCONFIGURATIONERROR, ⟨0, 0⟩⟩, out, server, w⟩) ∧
    (∀ (cfg : UA_DataSetFieldConfig) (i : Nat) (currDS : UA_PublishedDataSet),
      UA_PublishedDataSet_findPDSbyId server pdsId = some (i, currDS) →
      currDS.configurationFrozen = false →
      currDS.config.publishedDataSetType ≠ .UA_PUBSUB_DATASET_PUBLISHEDITEMS →
      addDataSetField env w server pdsId (some cfg) out =
        .ok ⟨⟨UA_STATUSCODE_BADNOTIMPLEMENTED, ⟨0, 0⟩⟩, out, server, w⟩) := by
  refine ⟨rfl, ?_, ?_, ?_⟩
  · intro cfg hfind
    simp [addDataSetField, hfind, addDataSetField_fail]
  · intro cfg i currDS hfind hfrozen
    simp [addDataSetField, hfind, hfrozen, addDataSetField_fail]
  · intro cfg i currDS hfind hfrozen htype
    simp [addDataSetField, hfind, hfrozen, htype, addDataSetField_fail]


/-- C11 on the demo data: a null configuration; an unknown dataset; a frozen
template dataset, which reports the frozen state first; an unfrozen template
dataset with an event configuration, which reports the dataset type first. -/
theorem add_precondition_order_witness :
    addDataSetField demoEnv demoWorld demoServer demoPdsId none none =
      .ok ⟨⟨UA_STATUSCODE_BADINVALIDARGUMENT, ⟨0, 0⟩⟩, none, demoServer, demoWorld⟩ ∧
    addDataSetField demoEnv demoWorld demoServer ⟨1, .numeric 99⟩ (some demoEventConfig) none =
      .ok ⟨⟨UA_STATUSCODE_BADNOTFOUND, ⟨0, 0⟩⟩, none, demoServer, demoWorld⟩ ∧
    addDataSetField demoEnv demoWorld
        ⟨⟨[{ demoTemplateDataSet with configurationFrozen := true }]⟩⟩ demoPdsId
        (some demoEventConfig) none =
      .ok ⟨⟨UA_STATUSCODE_BADCONFIGURATIONERROR, ⟨0, 0⟩⟩, none,
        ⟨⟨[{ demoTemplateDataSet with configurationFrozen := true }]⟩⟩, demoWorld⟩ ∧
    addDataSetField demoEnv demoWorld ⟨⟨[demoTemplateDataSet]⟩⟩ demoPdsId
        (some demoEventConfig) none =
      .ok ⟨⟨UA_STATUSCODE_BADNOTIMPLEMENTED, ⟨0, 0⟩⟩, none, ⟨⟨[demoTemplateDataSet]⟩⟩,
        demoWorld⟩ :=
  ⟨(add_precondition_order demoEnv demoWorld demoServer demoPdsId none).1,
   (add_precondition_order demoEnv demoWorld demoServer ⟨1, .numeric 99⟩ none).2.1
     demoEventConfig rfl,
   (add_precondition_order demoEnv demoWorld
     ⟨⟨[{ demoTemplateDataSet with configurationFrozen := true }]⟩⟩ demoPdsId none).2.2.1
     demoEventConfig 0 { demoTemplateDataSet with configurationFrozen := true } rfl rfl,
   (add_precondition_order demoEnv demoWorld ⟨⟨[demoTemplateDataSet]⟩⟩ demoPdsId none).2.2.2
     demoEventConfig 0 demoTemplateDataSet rfl rfl (by decide)⟩

theorem findFieldbyId_eq_none {identifier : UA_NodeId} :
    ∀ {fs : List UA_DataSetField}, (∀ g ∈ fs, g.identifier ≠ identifier) →
      findFieldbyId identifier fs = none
  | [], _ => rfl
  | f :: fs, h => by
    have hf : f.identifier ≠ identifier := h f (List.mem_cons_self f fs)
    have hrec : findFieldbyId identifier fs = none :=
      findFieldbyId_eq_none (fun g hg => h g (List.mem_cons_of_mem f hg))
    simp [findFieldbyId, UA_NodeId_equal, hf, hrec]

theorem findDSFbyId_eq_none {identifier : UA_NodeId} :
    ∀ {l : List UA_PublishedDataSet}, (∀ ds ∈ l, findFieldbyId identifier ds.fields = none) →
      findDSFbyId identifier l = none
  | [], _ => rfl
  | d :: l, h => by
    have hd : findFieldbyId identifier d.fields = none := h d (List.mem_cons_self d l)
    have hrec : findDSFbyId identifier l = none :=
      findDSFbyId_eq_none (fun ds hds => h ds (List.mem_cons_of_mem d hds))
    simp [findDSFbyId, hd, hrec]

/-- C12. Precondition failures of `removeDataSetField`. When no field of any
dataset carries the identifier, the call returns `BadNotFound`. When a field
is found and its back-reference resolves to its owning dataset, the call
returns `BadConfigurationError` if the field is frozen or the dataset is
frozen. In each case the version in the result is zero and server and world
are returned as they were, so every dataset keeps its field queue, `fieldSize`,
`promotedFieldsCount`, metadata array and configuration version. -/
theorem remove_precondition_failures (env : Env) (w : World) (server : UA_Server)
    (dsf : UA_NodeId) :
    ((∀ ds ∈ server.pubSubManager.publishedDataSets, ∀ f ∈ ds.fields, f.identifier ≠ dsf) →
      removeDataSetField env w server dsf =
        .ok ⟨⟨UA_STATUSCODE_BADNOTFOUND, ⟨0, 0⟩⟩, server, w⟩) ∧
    (∀ (di fi : Nat) (currentField : UA_DataSetField) (pi : Nat) (pds : UA_PublishedDataSet),
      UA_DataSetField_findDSFbyId server dsf = some (di, fi, currentField) →
      UA_PublishedDataSet_findPDSbyId server currentField.publishedDataSet = some (pi, pds) →
      (currentField.configurationFrozen = true ∨ pds.configurationFrozen = true) →
      removeDataSetField env w server dsf =
        .ok ⟨⟨UA_STATUSCODE_BADCONFIGURATIONERROR, ⟨0, 0⟩⟩, server, w⟩) := by
  refine ⟨?_, ?_⟩
  · intro hnone
    have hf : UA_DataSetField_findDSFbyId server dsf = none :=
      findDSFbyId_eq_none (fun ds hds => findFieldbyId_eq_none (hnone ds hds))
    simp [removeDataSetField, hf, removeDataSetField_fail]
  · intro di fi currentField pi pds hf hp hfrozen
    by_cases h1 : currentField.configurationFrozen = true
    · simp [removeDataSetField, hf, hp, h1, removeDataSetField_fail]
    · rcases hfrozen with h | h
      · exact absurd h h1
      · simp [removeDataSetField, hf, hp, h1, h, removeDataSetField_fail]

/-- C12 on the demo data: an unknown identifier; the frozen field "temp"; the
field "temp" in a frozen dataset. -/
theorem remove_precondition_failures_witness :
    removeDataSetField demoEnv demoWorld demoAfterTemp.2.1 ⟨1, .numeric 99⟩ =
      .ok ⟨⟨UA_STATUSCODE_BADNOTFOUND, ⟨0, 0⟩⟩, demoAfterTemp.2.1, demoWorld⟩ ∧
    removeDataSetField demoEnv demoWorld demoFrozenFieldServer demoTempId =
      .ok ⟨⟨UA_STATUSCODE_BADCONFIGURATIONERROR, ⟨0, 0⟩⟩, demoFrozenFieldServer, demoWorld⟩ ∧
    removeDataSetField demoEnv demoWorld demoFrozenTempServer demoTempId =
      .ok ⟨⟨UA_STATUSCODE_BADCONFIGURATIONERROR, ⟨0, 0⟩⟩, demoFrozenTempServer, demoWorld⟩ :=
  ⟨(remove_precondition_failures demoEnv demoWorld demoAfterTemp.2.1 ⟨1, .numeric 99⟩).1
     (by decide),
   (remove_precondition_failures demoEnv demoWorld demoFrozenFieldServer demoTempId).2 0 0
     { demoTempField with configurationFrozen := true } 0
     { demoTempDataSet with fields := [{ demoTempField with configurationFrozen := true }] }
     rfl rfl (Or.inl rfl),
   (remove_precondition_failures demoEnv demoWorld demoFrozenTempServer demoTempId).2 0 0
     demoTempField 0 { demoTempDataSet with configurationFrozen := true } rfl rfl (Or.inr rfl)⟩

/-! ## C16: sampling -/

/-- C16. The three backends of `UA_PubSubDataSetField_sampleValue`. For a field
bound to a live node whose node, external cell and value are there, the result
is the content of the external value cell with the storage type of its variant
set to no-delete, every other part as in the cell, and no read is issued. For
a static snapshot field (source enabled, no live node) whose pointers are
valid, the result is the snapshot with the storage type set to no-delete and
every other part as in the snapshot, and no read is issued. For a generic
field (neither flag set) the result is exactly what one attribute read on
published variable, attribute id and index range with both timestamps
answers, with its storage type as the read left it, and the read counter
advances by one. -/
theorem sampleValue_backends (env : Env) (w : World) (field : UA_DataSetField) :
    (field.config.field.var.rtValueSource.rtInformationModelNode = true →
      ∀ (rtNode : UA_VariableNode) (cell : Nat) (v : UA_DataValue),
        env.nodestore field.config.field.var.publishParameters.publishedVariable = some rtNode →
        rtNode.valueBackend.backend.external.value = some cell →
        env.externalValue cell = some v →
        UA_PubSubDataSetField_sampleValue env w field =
          .ok ({ v with value := { v.value with storageType := .UA_VARIANT_DATA_NODELETE } }, w)) ∧
    (field.config.field.var.rtValueSource.rtInformationModelNode = false →
      field.config.field.var.rtValueSource.rtFieldSourceEnabled = true →
      ∀ (cell : Nat) (v : UA_DataValue),
        field.config.field.var.rtValueSource.staticValueSource = some cell →
        env.staticValue cell = some v →
        UA_PubSubDataSetField_sampleValue env w field =
          .ok ({ v with value := { v.value with storageType := .UA_VARIANT_DATA_NODELETE } }, w)) ∧
    (field.config.field.var.rtValueSource.rtInformationModelNode = false →
      field.config.field.var.rtValueSource.rtFieldSourceEnabled = false →
      UA_PubSubDataSetField_sampleValue env w field =
        .ok (env.readAttribute w.reads
              { nodeId := field.config.field.var.publishParameters.publishedVariable,
                attributeId := field.config.field.var.publishParameters.attributeId,
                indexRange := field.config.field.var.publishParameters.indexRange,
                dataEncoding := ⟨0, ""⟩ }
              .UA_TIMESTAMPSTORETURN_BOTH,
             { w with reads := w.reads + 1 })) := by
  refine ⟨?_, ?_, ?_⟩
  · intro hnode rtNode cell v hn hc hv
    simp [UA_PubSubDataSetField_sampleValue, hnode, hn, hc, hv]
  · intro hnode hen cell v hc hv
    simp [UA_PubSubDataSetField_sampleValue, hnode, hen, hc, hv]
  · intro hnode hen
    simp [UA_PubSubDataSetField_sampleValue, hnode, hen, UA_ReadValueId_init, UA_NODEID_NULL]

/-- C16 on the demo data: the live field "speed" yields the snapshot of the
external cell, the static field "level" yields the snapshot behind its
pointer, both marked no-delete, and the generic field "temp" yields the
answer of read number 3 on attribute 13, unmarked. -/
theorem sampleValue_backends_witness :
    UA_PubSubDataSetField_sampleValue demoSampleEnv ⟨0, 0, 3, 0⟩ demoLiveField =
      .ok ({ demoSnapshot with
             value := { demoSnapshot.value with storageType := .UA_VARIANT_DATA_NODELETE } },
           ⟨0, 0, 3, 0⟩) ∧
    UA_PubSubDataSetField_sampleValue demoSampleEnv ⟨0, 0, 3, 0⟩ demoStaticField =
      .ok ({ demoSnapshot with
             value := { demoSnapshot.value with storageType := .UA_VARIANT_DATA_NODELETE } },
           ⟨0, 0, 3, 0⟩) ∧
    UA_PubSubDataSetField_sampleValue demoSampleEnv ⟨0, 0, 3, 0⟩ demoTempField =
      .ok ({ demoSnapshot with
             value := { UA_Variant_init with data := [3, 13] },
             hasSourceTimestamp := true, hasServerTimestamp := true },
           ⟨0, 0, 4, 0⟩) :=
  ⟨(sampleValue_backends demoSampleEnv ⟨0, 0, 3, 0⟩ demoLiveField).1 rfl
     ⟨⟨⟨⟨some 8⟩⟩⟩⟩ 8 demoSnapshot rfl rfl rfl,
   (sampleValue_backends demoSampleEnv ⟨0, 0, 3, 0⟩ demoStaticField).2.1 rfl rfl
     5 demoSnapshot rfl rfl,
   (sampleValue_backends demoSampleEnv ⟨0, 0, 3, 0⟩ demoTempField).2.2 rfl rfl⟩

/-! ## C18 and C20: what a successful add leaves -/

theorem findPDSbyId_set {identifier : UA_NodeId} :
    ∀ {l : List UA_PublishedDataSet} {i : Nat} {ds ds' : UA_PublishedDataSet},
      findPDSbyId identifier l = some (i, ds) → ds'.identifier = ds.identifier →
      findPDSbyId identifier (l.set i ds') = some (i, ds')
  | [], _, _, _, h, _ => by simp [findPDSbyId] at h
  | d :: l, i, ds, ds', h, hid => by
    unfold findPDSbyId at h
    by_cases hd : UA_NodeId_equal d.identifier identifier = true
    · simp only [hd, if_true, Option.some.injEq, Prod.mk.injEq] at h
      obtain ⟨rfl, rfl⟩ := h
      have hd' : UA_NodeId_equal ds'.identifier identifier = true := by rw [hid]; exact hd
      simp [findPDSbyId, hd']
    · simp only [hd, Bool.false_eq_true, if_false, Option.map_eq_some'] at h
      obtain ⟨⟨k, d'⟩, hk, hkk⟩ := h
      simp only [Prod.mk.injEq] at hkk
      obtain ⟨rfl, rfl⟩ := hkk
      have hrec := findPDSbyId_set hk hid
      simp [findPDSbyId, hd, hrec]

/-- C18. After a successful `addDataSetField` every field of the dataset has
its borrowed metadata view bound by position: the dataset is found under its
identifier again with one field more, and for every position `k` the
`fieldMetaData` of the `k`-th field of the queue is the `k`-th entry of
`dataSetMetaData.fields`. -/
theorem add_rebinds_every_view (env : Env) (w : World) (server : UA_Server) (pdsId : UA_NodeId)
    (fieldConfig : Option UA_DataSetFieldConfig) (out : Option UA_NodeId) (r : AddReturn)
    (h : addDataSetField env w server pdsId fieldConfig out = .ok r)
    (hgood : r.result.result = UA_STATUSCODE_GOOD) :
    ∃ (i : Nat) (currDS ds' : UA_PublishedDataSet),
      UA_PublishedDataSet_findPDSbyId server pdsId = some (i, currDS) ∧
      UA_PublishedDataSet_findPDSbyId r.server pdsId = some (i, ds') ∧
      ds'.fields.length = currDS.fields.length + 1 ∧
      ∀ (k : Nat) (f : UA_DataSetField), ds'.fields[k]? = some f →
        ds'.dataSetMetaData.fields.cells[k]? = some f.fieldMetaData := by
  rcases addDataSetField_ok h with ⟨_, hbad, _⟩ | ⟨cfg, i, currDS, fmd, gw, dsfs, -, hfind, -, -, -,
    -, -, -, hreb, -, -, -, hserver⟩
  · exact absurd hgood hbad
  · refine ⟨i, currDS, addDataSetField_commit currDS cfg.field.var.promotedField
      (.block (currDS.dataSetMetaData.fields.cells ++ [fmd]))
      (currDS.dataSetMetaData.fields.cells.length + 1) dsfs (env.version gw.clocks),
      hfind, ?_, ?_, ?_⟩
    · rw [hserver]
      exact findPDSbyId_set hfind rfl
    · have := (rebindFieldMetaData_ok hreb).1
      simpa [addDataSetField_commit] using this
    · intro k f hk
      obtain ⟨f0, m, -, hm, rfl⟩ := rebindFieldMetaData_getElem hreb k f hk
      simpa [addDataSetField_commit] using hm

/-- C18 on the demo data: adding "pressure" to the registry that holds
"temp". -/
theorem add_rebinds_every_view_witness :
    ∃ (i : Nat) (currDS ds' : UA_PublishedDataSet),
      UA_PublishedDataSet_findPDSbyId demoAfterTemp.2.1 demoPdsId = some (i, currDS) ∧
      UA_PublishedDataSet_findPDSbyId demoAddPressure.server demoPdsId = some (i, ds') ∧
      ds'.fields.length = currDS.fields.length + 1 ∧
      ∀ (k : Nat) (f : UA_DataSetField), ds'.fields[k]? = some f →
        ds'.dataSetMetaData.fields.cells[k]? = some f.fieldMetaData :=
  add_rebinds_every_view demoEnv demoAfterTemp.2.2 demoAfterTemp.2.1 demoPdsId
    (some (demoConfig "pressure" true)) (some UA_NODEID_NULL) demoAddPressure rfl rfl


theorem rebindFieldMetaData_unbind :
    ∀ {fs : List UA_DataSetField} {cells : List UA_FieldMetaData} {dsfs : List UA_DataSetField},
      rebindFieldMetaData fs cells = .ok dsfs →
        dsfs.map (fun f => { f with fieldMetaData := UA_FieldMetaData_init }) =
          fs.map (fun f => { f with fieldMetaData := UA_FieldMetaData_init })
  | [], _, _, h => by
    simp only [rebindFieldMetaData, Except.ok.injEq] at h
    subst h; rfl
  | _ :: _, [], _, h => by simp [rebindFieldMetaData] at h
  | f :: fs, m :: cells, dsfs, h => by
    unfold rebindFieldMetaData at h
    split at h
    · simp at h
    · rename_i rest hrest
      simp only [Except.ok.injEq] at h
      subst h
      simp [rebindFieldMetaData_unbind hrest]

theorem rebindFieldMetaData_append (n : UA_DataSetField) (m : UA_FieldMetaData) :
    ∀ {fs : List UA_DataSetField} {cells : List UA_FieldMetaData} {dsfs : List UA_DataSetField},
      rebindFieldMetaData (fs ++ [n]) (cells ++ [m]) = .ok dsfs →
      fs.map (fun f => f.fieldMetaData) = cells →
        dsfs = fs ++ [{ n with fieldMetaData := m }]
  | [], cells, dsfs, h, hc => by
    simp only [List.map_nil] at hc
    subst hc
    simp only [List.nil_append, rebindFieldMetaData, Except.ok.injEq] at h
    exact h.symm
  | f :: fs, [], _, _, hc => by simp at hc
  | f :: fs, c :: cells, dsfs, h, hc => by
    simp only [List.map_cons, List.cons.injEq] at hc
    simp only [List.cons_append] at h
    unfold rebindFieldMetaData at h
    split at h
    · simp at h
    · rename_i rest hrest
      simp only [Except.ok.injEq] at h
      subst h
      have := rebindFieldMetaData_append n m hrest hc.2
      rw [this, ← hc.1]
      rfl

/-- C20. A successful `addDataSetField` appends and changes nothing else of
the ordering. The dataset is found under its identifier at the same position
again. Its queue is the old queue followed by the new field: with the
borrowed views set aside, every old field is there unchanged (configuration,
identifier, back-reference and frozen flag) in its old position and the new
field, which carries the given configuration and the generated identifier, is
last; when every old field viewed its own entry before the call, the queue is
literally the old queue followed by the new field bound to its entry. The
metadata array is the old array, entry by entry, followed by the generated
entry. Configuration, identifier and frozen flag of the dataset are
unchanged, and every other dataset of the registry is unchanged. -/
theorem add_appends_only (env : Env) (w : World) (server : UA_Server) (pdsId : UA_NodeId)
    (fieldConfig : Option UA_DataSetFieldConfig) (out : Option UA_NodeId) (r : AddReturn)
    (h : addDataSetField env w server pdsId fieldConfig out = .ok r)
    (hgood : r.result.result = UA_STATUSCODE_GOOD) :
    ∃ (cfg : UA_DataSetFieldConfig) (i : Nat) (currDS ds' : UA_PublishedDataSet)
      (fmd : UA_FieldMetaData) (gw : World),
      fieldConfig = some cfg ∧
      UA_PublishedDataSet_findPDSbyId server pdsId = some (i, currDS) ∧
      UA_PublishedDataSet_findPDSbyId r.server pdsId = some (i, ds') ∧
      generateFieldMetaData env { w with allocs := w.allocs + 4 }
        (newFieldOf cfg currDS.identifier UA_NODEID_NULL)
        UA_FieldMetaData_init = .ok (UA_STATUSCODE_GOOD, fmd, gw) ∧
      ds'.fields.map (fun f => { f with fieldMetaData := UA_FieldMetaData_init }) =
        currDS.fields.map (fun f => { f with fieldMetaData := UA_FieldMetaData_init }) ++
          [newFieldOf cfg currDS.identifier (UA_NODEID_GUID 1 fmd.dataSetFieldId)] ∧
      (currDS.fields.map (fun f => f.fieldMetaData) = currDS.dataSetMetaData.fields.cells →
        ds'.fields = currDS.fields ++
          [{ newFieldOf cfg currDS.identifier (UA_NODEID_GUID 1 fmd.dataSetFieldId) with
             fieldMetaData := fmd }]) ∧
      ds'.dataSetMetaData.fields = .block (currDS.dataSetMetaData.fields.cells ++ [fmd]) ∧
      ds'.config = currDS.config ∧ ds'.identifier = currDS.identifier ∧
      ds'.configurationFrozen = currDS.configurationFrozen ∧
      r.server.pubSubManager.publishedDataSets.length =
        server.pubSubManager.publishedDataSets.length ∧
      ∀ j : Nat, j ≠ i →
        r.server.pubSubManager.publishedDataSets[j]? = server.pubSubManager.publishedDataSets[j]? := by
  rcases addDataSetField_ok h with ⟨_, hbad, _⟩ | ⟨cfg, i, currDS, fmd, gw, dsfs, hcfg, hfind, -, -,
    -, hgen, -, -, hreb, -, -, -, hserver⟩
  · exact absurd hgood hbad
  · refine ⟨cfg, i, currDS, addDataSetField_commit currDS cfg.field.var.promotedField
      (.block (currDS.dataSetMetaData.fields.cells ++ [fmd]))
      (currDS.dataSetMetaData.fields.cells.length + 1) dsfs (env.version gw.clocks), fmd, gw,
      hcfg, hfind, ?_, hgen, ?_, ?_, rfl, rfl, rfl, rfl, ?_, ?_⟩
    · rw [hserver]
      exact findPDSbyId_set hfind rfl
    · have := rebindFieldMetaData_unbind hreb
      simpa [addDataSetField_commit, newFieldOf] using this
    · intro hviews
      exact rebindFieldMetaData_append _ _ hreb hviews
    · rw [hserver]; simp
    · intro j hj
      rw [hserver]
      exact getElem?_set_other _ (Ne.symm hj)

/-- C20 on the demo data: adding "pressure" to the registry that holds "temp"
leaves the queue "temp", "pressure" and the array with the entry of "temp"
followed by the entry of "pressure". -/
theorem add_appends_only_witness :
    ∃ (cfg : UA_DataSetFieldConfig) (i : Nat) (currDS ds' : UA_PublishedDataSet)
      (fmd : UA_FieldMetaData) (gw : World),
      some (demoConfig "pressure" true) = some cfg ∧
      UA_PublishedDataSet_findPDSbyId demoAfterTemp.2.1 demoPdsId = some (i, currDS) ∧
      UA_PublishedDataSet_findPDSbyId demoAddPressure.server demoPdsId = some (i, ds') ∧
      generateFieldMetaData demoEnv { demoAfterTemp.2.2 with allocs := demoAfterTemp.2.2.allocs + 4 }
        (newFieldOf cfg currDS.identifier UA_NODEID_NULL)
        UA_FieldMetaData_init = .ok (UA_STATUSCODE_GOOD, fmd, gw) ∧
      ds'.fields.map (fun f => { f with fieldMetaData := UA_FieldMetaData_init }) =
        currDS.fields.map (fun f => { f with fieldMetaData := UA_FieldMetaData_init }) ++
          [newFieldOf cfg currDS.identifier (UA_NODEID_GUID 1 fmd.dataSetFieldId)] ∧
      (currDS.fields.map (fun f => f.fieldMetaData) = currDS.dataSetMetaData.fields.cells →
        ds'.fields = currDS.fields ++
          [{ newFieldOf cfg currDS.identifier (UA_NODEID_GUID 1 fmd.dataSetFieldId) with
             fieldMetaData := fmd }]) ∧
      ds'.dataSetMetaData.fields = .block (currDS.dataSetMetaData.fields.cells ++ [fmd]) ∧
      ds'.config = currDS.config ∧ ds'.identifier = currDS.identifier ∧
      ds'.configurationFrozen = currDS.configurationFrozen ∧
      demoAddPressure.server.pubSubManager.publishedDataSets.length =
        demoAfterTemp.2.1.pubSubManager.publishedDataSets.length ∧
      ∀ j : Nat, j ≠ i →
        demoAddPressure.server.pubSubManager.publishedDataSets[j]? =
          demoAfterTemp.2.1.pubSubManager.publishedDataSets[j]? :=
  add_appends_only demoEnv demoAfterTemp.2.2 demoAfterTemp.2.1 demoPdsId
    (some (demoConfig "pressure" true)) (some UA_NODEID_NULL) demoAddPressure rfl rfl

/-! ## C13: metadata of a field bound to a live node -/

/-- C13, counterexample to the claim as stated. The demo field "speed" is a Variable field
bound to a live node; metadata generation for it returns `Good` with the entry
the three attribute reads yield, and `addDataSetField` with its configuration
returns `Good` as well. -/
theorem live_node_metadata_is_generated :
    demoLiveField.config.dataSetFieldType = .UA_PUBSUB_DATASETFIELD_VARIABLE ∧
    demoLiveField.config.field.var.rtValueSource.rtInformationModelNode = true ∧
    generateFieldMetaData demoEnv demoWorld demoLiveField UA_FieldMetaData_init =
      .ok (UA_STATUSCODE_GOOD,
           { UA_FieldMetaData_init with name := "speed", valueRank := -1,
                                        dataSetFieldId := ⟨1, 0, 0, []⟩ },
           ⟨1, 1, 3, 0⟩) ∧
    UA_STATUSCODE_GOOD ≠ UA_STATUSCODE_BADNOTSUPPORTED ∧
    (addDataSetField demoEnv demoWorld demoServer demoPdsId (some demoLiveField.config) none).toOption.map
      (fun r => r.result.result) = some UA_STATUSCODE_GOOD := by
  refine ⟨rfl, rfl, rfl, by decide, rfl⟩

/-- C13, amended. For a Variable field bound to a live node, metadata
generation does not look at the value source: it runs exactly as for the same
field with the generic value source, that is, it draws the identifier, copies
the name and reads array dimensions, data type and value rank of the
published variable. When every allocation is served, every read succeeds and
every data type read is null or known to the type registry, it returns
`Good`. -/
theorem live_node_metadata_takes_generic_path (env : Env) (w : World) (field : UA_DataSetField)
    (fmd0 : UA_FieldMetaData)
    (hvar : field.config.dataSetFieldType = .UA_PUBSUB_DATASETFIELD_VARIABLE)
    (hnode : field.config.field.var.rtValueSource.rtInformationModelNode = true) :
    generateFieldMetaData env w field fmd0 =
      generateFieldMetaData env w
        { field with config := { field.config with
            field := ⟨{ field.config.field.var with rtValueSource := ⟨false, false, none⟩ }⟩ } }
        fmd0 ∧
    ((∀ k, env.allocOk k = true) →
      (∀ k n, (env.readArrayDimensions k n).1 = UA_STATUSCODE_GOOD) →
      (∀ k n, (env.readDataType k n).1 = UA_STATUSCODE_GOOD) →
      (∀ k n, (env.readValueRank k n).1 = UA_STATUSCODE_GOOD) →
      (∀ k n, UA_NodeId_isNull (env.readDataType k n).2 = true ∨
        (env.findDataType (env.readDataType k n).2).isSome = true) →
      ∃ fmd w', generateFieldMetaData env w field fmd0 = .ok (UA_STATUSCODE_GOOD, fmd, w')) := by
  have heq : generateFieldMetaData env w field fmd0 =
      generateFieldMetaData env w
        { field with config := { field.config with
            field := ⟨{ field.config.field.var with rtValueSource := ⟨false, false, none⟩ }⟩ } }
        fmd0 := by
    unfold generateFieldMetaData
    simp only [hvar, hnode, ne_eq, not_true_eq_false, if_false, Bool.true_eq_false, and_false,
      Bool.false_eq_true, false_and]
    rfl
  refine ⟨heq, ?_⟩
  intro halloc hdims htype hrank hdesc
  rw [heq]
  obtain ⟨fmd, w', h, -⟩ := generateFieldMetaData_generic_source_good env w
    { field with config := { field.config with
        field := ⟨{ field.config.field.var with rtValueSource := ⟨false, false, none⟩ }⟩ } }
    fmd0 hvar rfl halloc hdims htype hrank hdesc
  exact ⟨fmd, w', h⟩

/-- C13 amended, on the demo data: generation for the live field "speed" is
generation for "speed" with the generic value source, and returns `Good`. -/
theorem live_node_metadata_takes_generic_path_witness :
    generateFieldMetaData demoEnv demoWorld demoLiveField UA_FieldMetaData_init =
      generateFieldMetaData demoEnv demoWorld
        (newFieldOf (demoConfig "speed" false) demoPdsId UA_NODEID_NULL) UA_FieldMetaData_init ∧
    ∃ fmd w', generateFieldMetaData demoEnv demoWorld demoLiveField UA_FieldMetaData_init =
      .ok (UA_STATUSCODE_GOOD, fmd, w') :=
  ⟨(live_node_metadata_takes_generic_path demoEnv demoWorld demoLiveField UA_FieldMetaData_init
      rfl rfl).1,
   (live_node_metadata_takes_generic_path demoEnv demoWorld demoLiveField UA_FieldMetaData_init
      rfl rfl).2 (fun _ => rfl) (fun _ _ => rfl) (fun _ _ => rfl) (fun _ _ => rfl)
      (fun _ _ => Or.inl rfl)⟩

/-! ## C15: the descriptor of the data type -/

/-- C15, the failing input. The data type read of the published variable of
"temp" succeeds with the identifier `ns=1;i=9999`, which is not null and which
the type registry does not know: `generateFieldMetaData` reads the type kind
through the null descriptor and returns no status. -/
theorem unknown_data_type_faults :
    (demoEnvUnknownType.readDataType 0 ⟨1, .numeric 42⟩).1 = UA_STATUSCODE_GOOD ∧
    UA_NodeId_isNull (demoEnvUnknownType.readDataType 0 ⟨1, .numeric 42⟩).2 = false ∧
    demoEnvUnknownType.findDataType (demoEnvUnknownType.readDataType 0 ⟨1, .numeric 42⟩).2 = none ∧
    demoTempField.config.dataSetFieldType = .UA_PUBSUB_DATASETFIELD_VARIABLE ∧
    generateFieldMetaData demoEnvUnknownType demoWorld demoTempField UA_FieldMetaData_init =
      .error .nullDereference := by
  refine ⟨rfl, rfl, rfl, rfl, rfl⟩

/-! ## C14 and C19: what removeDataSetField leaves of identifiers and views -/

/-- C14, the failing input. After "temp" and "pressure" were added with the
demo environment the dataset has the shared identifier. Removing "temp"
returns `Good`; the remaining field "pressure" keeps the identifier built
from the second GUID, while its regenerated metadata entry carries the third
GUID: the shared identifier is lost. -/
theorem shared_identifier_lost_by_remove :
    SharedIdentifier demoPressureDataSet ∧
    removeDataSetField demoEnv demoAfterPressure.2.2 demoAfterPressure.2.1 demoTempId =
      .ok demoRemoveTempOfTwo ∧
    demoRemoveTempOfTwo.result.result = UA_STATUSCODE_GOOD ∧
    demoRemoveTempOfTwo.server.pubSubManager.publishedDataSets = [demoRemainingDataSet] ∧
    demoRemainingDataSet.fields.map (fun f => f.identifier) =
      [UA_NODEID_GUID 1 ⟨2, 0, 0, []⟩] ∧
    demoRemainingDataSet.dataSetMetaData.fields.cells.map
        (fun m => UA_NODEID_GUID 1 m.dataSetFieldId) =
      [UA_NODEID_GUID 1 ⟨3, 0, 0, []⟩] ∧
    ¬ SharedIdentifier demoRemainingDataSet := by
  refine ⟨by decide, rfl, rfl, rfl, rfl, rfl, by decide⟩

/-- C19, the failing input. After "temp" and "pressure" were added with the
demo environment every field views its entry. Removing "temp" returns `Good`
and leaves the field "pressure"; the view it holds is still the entry of
before the call, with the second GUID, while the regenerated array holds an
entry with the third GUID: the view was not bound again. -/
theorem views_stale_after_remove :
    ViewsBound demoPressureDataSet ∧
    removeDataSetField demoEnv demoAfterPressure.2.2 demoAfterPressure.2.1 demoTempId =
      .ok demoRemoveTempOfTwo ∧
    demoRemoveTempOfTwo.result.result = UA_STATUSCODE_GOOD ∧
    demoRemainingDataSet.fields.map (fun f => f.fieldMetaData) = [demoPressureEntry 2] ∧
    demoRemainingDataSet.dataSetMetaData.fields = .block [demoPressureEntry 3] ∧
    ¬ ViewsBound demoRemainingDataSet := by
  refine ⟨by decide, rfl, rfl, rfl, rfl, by decide⟩

/-! ## C17: clearing a dataset -/

/-- C17, counterexample to the claim as stated. The frozen demo dataset holds the one field
"temp". `UA_PublishedDataSet_clear` returns, the field is still in the queue of
the dataset and `UA_DataSetField_findDSFbyId` still finds its identifier. -/
theorem clear_keeps_fields_of_frozen_dataset :
    demoFrozenTempServer.pubSubManager.publishedDataSets.map
      (fun ds => ds.fields.map (fun f => f.identifier)) = [[demoTempId]] ∧
    UA_PublishedDataSet_clear demoEnv demoWorld demoFrozenTempServer 0 = .ok demoClearFrozen ∧
    demoClearFrozen.1.pubSubManager.publishedDataSets.map (fun ds => ds.fields) =
      [[demoTempField]] ∧
    UA_DataSetField_findDSFbyId demoClearFrozen.1 demoTempId = some (0, 0, demoTempField) := by
  refine ⟨rfl, rfl, rfl, rfl⟩


theorem findDSFbyId_at {identifier : UA_NodeId} :
    ∀ {l : List UA_PublishedDataSet} {p : Nat} {ds : UA_PublishedDataSet} {k : Nat}
      {f : UA_DataSetField},
      l[p]? = some ds → findFieldbyId identifier ds.fields = some (k, f) →
      (∀ (j : Nat) (other : UA_PublishedDataSet), j < p → l[j]? = some other →
        findFieldbyId identifier other.fields = none) →
      findDSFbyId identifier l = some (p, k, f)
  | [], p, _, _, _, h, _, _ => by simp at h
  | d :: l, 0, ds, k, f, h, hf, _ => by
    simp only [List.getElem?_cons_zero, Option.some.injEq] at h
    subst h
    simp [findDSFbyId, hf]
  | d :: l, p + 1, ds, k, f, h, hf, hbefore => by
    have hd : findFieldbyId identifier d.fields = none := hbefore 0 d (Nat.succ_pos p) (by simp)
    have hrec : findDSFbyId identifier l = some (p, k, f) :=
      findDSFbyId_at (by simpa using h) hf
        (fun j other hj ho => hbefore (j + 1) other (Nat.succ_lt_succ hj) (by simpa using ho))
    simp [findDSFbyId, hd, hrec]

/-- The regeneration loop returns when the generation returns for every field
and there is a slot for every field; it hands back as many slots as it was
given. -/
theorem regenerateFieldMetaData_total {env : Env} :
    ∀ (fs : List UA_DataSetField) (w : World) (res : UA_StatusCode)
      (slots : List UA_FieldMetaData),
      fs.length ≤ slots.length →
      (∀ (w : World) (g : UA_DataSetField) (m : UA_FieldMetaData), g ∈ fs →
        ∃ r, generateFieldMetaData env w g m = .ok r) →
      ∃ res' cells w', regenerateFieldMetaData env w res fs slots = .ok (res', cells, w') ∧
        cells.length = slots.length
  | [], w, res, slots, _, _ => ⟨res, slots, w, rfl, rfl⟩
  | f :: fs, w, res, [], hlen, _ => by simp at hlen
  | f :: fs, w, res, slot :: slots, hlen, hgen => by
    obtain ⟨⟨gres, fmd, gw⟩, hg⟩ := hgen w f slot (List.mem_cons_self f fs)
    unfold regenerateFieldMetaData
    simp only [hg]
    by_cases hres : gres = UA_STATUSCODE_GOOD
    · obtain ⟨res', cells, w', hrec, hl⟩ := regenerateFieldMetaData_total fs gw gres slots
        (by simpa using hlen) (fun w g m hgm => hgen w g m (List.mem_cons_of_mem f hgm))
      simp only [hres, ne_eq, not_true_eq_false, if_false] at hrec ⊢
      rw [hrec]
      exact ⟨res', fmd :: cells, w', rfl, by simp [hl]⟩
    · simp only [ne_eq, hres, not_false_eq_true, if_true]
      exact ⟨gres, UA_FieldMetaData_init :: slots, gw, rfl, by simp⟩


/-- The tail of `removeDataSetField` returns, and not early, on a dataset whose
array holds one entry more than the queue has fields, when the heap serves
and the generation returns for every field. -/
theorem removeDataSetField_regenerate_total {env : Env} (w : World) (pds : UA_PublishedDataSet)
    (hsize : pds.dataSetMetaData.fieldsSize = pds.fields.length + 1)
    (hcells : pds.dataSetMetaData.fields.cells.length = pds.fields.length + 1)
    (halloc : ∀ k, env.allocOk k = true)
    (hgen : ∀ (w : World) (g : UA_DataSetField) (m : UA_FieldMetaData), g ∈ pds.fields →
      ∃ r, generateFieldMetaData env w g m = .ok r) :
    ∃ (res : UA_StatusCode) (storage : FieldsStorage) (rw : World),
      removeDataSetField_regenerate env w pds =
        .ok (res, false,
             { pds with dataSetMetaData :=
                 { pds.dataSetMetaData with fieldsSize := pds.fields.length,
                                            fields := storage } }, rw) ∧
      storage.cells.length = pds.fields.length ∧ storage ≠ .freed := by
  unfold removeDataSetField_regenerate
  cases hst : pds.dataSetMetaData.fields with
  | null => simp [hst, FieldsStorage.cells] at hcells
  | freed => simp [hst, FieldsStorage.cells] at hcells
  | block cells =>
    simp only [hst, FieldsStorage.cells_block] at hcells
    simp only [hsize, Nat.add_one_ne_zero, if_false, Nat.add_sub_cancel]
    by_cases hpos : pds.fields.length > 0
    · obtain ⟨res', cells', w', hrec, hl⟩ := @regenerateFieldMetaData_total env pds.fields
        (UA_calloc env w).2 UA_STATUSCODE_GOOD
        (List.replicate pds.fields.length UA_FieldMetaData_init) (by simp) hgen
      simp only [hpos, if_true, hcells, Nat.lt_irrefl, if_false, UA_calloc, halloc,
        Bool.true_eq_false]
      simp only [UA_calloc] at hrec
      rw [hrec]
      exact ⟨res', .block cells', w', rfl, by simpa using hl, by simp⟩
    · have hz : pds.fields.length = 0 := Nat.eq_zero_of_not_pos hpos
      cases cells with
      | nil => simp at hcells
      | cons c cs =>
        simp only [hpos, if_false]
        exact ⟨UA_STATUSCODE_GOOD, .null, w, by simp [hz], by simp [hz], by simp⟩


/-- Removing the field at the head of the queue of a consistent, unfrozen
dataset: the call returns and leaves the dataset with the rest of the queue,
consistent again. -/
theorem removeDataSetField_head {env : Env} (w : World) (server : UA_Server) (p : Nat)
    (ds : UA_PublishedDataSet) (f : UA_DataSetField) (rest : List UA_DataSetField)
    (hfields : ds.fields = f :: rest)
    (hfindP : UA_PublishedDataSet_findPDSbyId server f.publishedDataSet = some (p, ds))
    (hfindF : UA_DataSetField_findDSFbyId server f.identifier = some (p, 0, f))
    (hfrozen : ds.configurationFrozen = false) (hffrozen : f.configurationFrozen = false)
    (hcons : Consistent ds)
    (halloc : ∀ k, env.allocOk k = true)
    (hgen : ∀ (w : World) (g : UA_DataSetField) (m : UA_FieldMetaData), g ∈ rest →
      ∃ r, generateFieldMetaData env w g m = .ok r) :
    ∃ (r : RemoveReturn) (ds' : UA_PublishedDataSet),
      removeDataSetField env w server f.identifier = .ok r ∧
      r.server = ⟨⟨server.pubSubManager.publishedDataSets.set p ds'⟩⟩ ∧
      ds'.fields = rest ∧ ds'.identifier = ds.identifier ∧ ds'.config = ds.config ∧
      ds'.configurationFrozen = false ∧ Consistent ds' := by
  obtain ⟨⟨hfieldSize, hfieldsSize⟩, hcells, hfreed, hpromoted⟩ := hcons
  rw [hfields] at hfieldSize hfieldsSize hcells hpromoted
  simp only [List.length_cons] at hfieldSize hfieldsSize hcells
  have hcount : ¬ (f.config.field.var.promotedField = true ∧ ds.promotedFieldsCount = 0) := by
    rintro ⟨h1, h2⟩
    rw [h2] at hpromoted
    simp [List.filter, h1] at hpromoted
  have hunlink : (removeDataSetField_unlink ds f 0
      (UA_PubSubConfigurationVersionTimeDifference env w).1).fields = rest := by
    simp [removeDataSetField_unlink, hfields]
  obtain ⟨res, storage, rw, hreg, hlen, hnf⟩ := @removeDataSetField_regenerate_total env
    (UA_PubSubConfigurationVersionTimeDifference env w).2
    (removeDataSetField_unlink ds f 0 (UA_PubSubConfigurationVersionTimeDifference env w).1)
    (by rw [hunlink]; simpa [removeDataSetField_unlink] using hfieldsSize)
    (by rw [hunlink]; simpa [removeDataSetField_unlink] using hcells) halloc
    (by rw [hunlink]; exact hgen)
  unfold removeDataSetField
  simp only [hfindF, hfindP, hffrozen, hfrozen, Bool.false_eq_true, if_false, hcount, hfieldSize,
    Nat.add_one_ne_zero, ne_eq, not_true_eq_false, hreg]
  refine ⟨_, _, rfl, rfl, ?_, ?_, ?_, ?_, ?_⟩
  · exact hunlink
  · simp [removeDataSetField_unlink]
  · simp [removeDataSetField_unlink]
  · simpa [removeDataSetField_unlink] using hfrozen
  · refine ⟨⟨?_, ?_⟩, ?_, hnf, ?_⟩
    · simp [removeDataSetField_unlink, hfields, hfieldSize]
    · simp [removeDataSetField_unlink, hfields]
    · simpa [hunlink] using hlen
    · by_cases hp : f.config.field.var.promotedField = true
      · simp [removeDataSetField_unlink, hfields, hp, hpromoted, List.filter]
      · simp [removeDataSetField_unlink, hfields, hp, hpromoted, List.filter]


theorem set_of_getElem? {α : Type} :
    ∀ {l : List α} {i : Nat} {x : α}, l[i]? = some x → l.set i x = l
  | [], _, _, h => by simp at h
  | a :: l, 0, x, h => by
    simp only [List.getElem?_cons_zero, Option.some.injEq] at h
    subst h; rfl
  | a :: l, i + 1, x, h => by
    simp only [List.getElem?_cons_succ] at h
    simp [set_of_getElem? h]

/-- The loop of `UA_PublishedDataSet_clear` on a consistent, unfrozen dataset
whose field identifiers are carried by no other field of the registry: it
returns and leaves the dataset with an empty queue. -/
theorem UA_PublishedDataSet_clear_fields_total {env : Env} (p : Nat)
    (halloc : ∀ k, env.allocOk k = true) :
    ∀ (fs : List UA_DataSetField) (w : World) (server : UA_Server) (ds : UA_PublishedDataSet),
      ds.fields = fs →
      UA_PublishedDataSet_findPDSbyId server ds.identifier = some (p, ds) →
      ds.configurationFrozen = false →
      (∀ f ∈ fs, f.configurationFrozen = false) →
      (∀ f ∈ fs, f.publishedDataSet = ds.identifier) →
      (fs.map (fun f => f.identifier)).Nodup →
      (∀ (j : Nat) (other : UA_PublishedDataSet), j ≠ p →
        server.pubSubManager.publishedDataSets[j]? = some other →
        ∀ g ∈ other.fields, ∀ f ∈ fs, g.identifier ≠ f.identifier) →
      Consistent ds →
      (∀ (w : World) (g : UA_DataSetField) (m : UA_FieldMetaData), g ∈ fs →
        ∃ r, generateFieldMetaData env w g m = .ok r) →
      ∃ (server' : UA_Server) (w' : World) (ds' : UA_PublishedDataSet),
        UA_PublishedDataSet_clear_fields env w server fs = .ok (server', w') ∧
        server'.pubSubManager.publishedDataSets =
          server.pubSubManager.publishedDataSets.set p ds' ∧
        ds'.fields = [] ∧ ds'.identifier = ds.identifier ∧ ds'.config = ds.config ∧
        Consistent ds'
  | [], w, server, ds, hfields, hfind, _, _, _, _, _, hcons, _ => by
    refine ⟨server, w, ds, rfl, ?_, hfields, rfl, rfl, hcons⟩
    have hp := (findPDSbyId_some hfind).1
    exact (set_of_getElem? hp).symm
  | f :: rest, w, server, ds, hfields, hfind, hfrozen, hffrozen, hback, hnodup, hothers, hcons,
      hgen => by
    have hp := (findPDSbyId_some hfind).1
    have hfhead : findFieldbyId f.identifier ds.fields = some (0, f) := by
      simp [hfields, findFieldbyId, UA_NodeId_equal]
    have hfindF : UA_DataSetField_findDSFbyId server f.identifier = some (p, 0, f) :=
      findDSFbyId_at hp hfhead (fun j other hj ho =>
        findFieldbyId_eq_none (fun g hg =>
          hothers j other (Nat.ne_of_lt hj) ho g hg f (List.mem_cons_self f rest)))
    obtain ⟨r, ds1, hrem, hserver, hfields1, hid1, hcfg1, hfrozen1, hcons1⟩ :=
      @removeDataSetField_head env w server p ds f rest hfields
        (by rw [hback f (List.mem_cons_self f rest)]; exact hfind) hfindF hfrozen
        (hffrozen f (List.mem_cons_self f rest)) hcons halloc
        (fun w g m hg => hgen w g m (List.mem_cons_of_mem f hg))
    have hfind1 : UA_PublishedDataSet_findPDSbyId r.server ds1.identifier = some (p, ds1) := by
      rw [hserver, hid1]
      exact findPDSbyId_set hfind hid1
    obtain ⟨server', w', ds', hloop, hserver', hfields', hid', hcfg', hcons'⟩ :=
      UA_PublishedDataSet_clear_fields_total p halloc rest r.world r.server ds1 hfields1 hfind1
        hfrozen1 (fun g hg => hffrozen g (List.mem_cons_of_mem f hg))
        (fun g hg => (hback g (List.mem_cons_of_mem f hg)).trans hid1.symm)
        (by simp only [List.map_cons, List.nodup_cons] at hnodup; exact hnodup.2)
        (fun j other hj ho g hg f' hf' => by
          rw [hserver] at ho
          have ho' : server.pubSubManager.publishedDataSets[j]? = some other := by
            rw [← ho]; exact (getElem?_set_other ds1 (Ne.symm hj)).symm
          exact hothers j other hj ho' g hg f' (List.mem_cons_of_mem f hf'))
        hcons1 (fun w g m hg => hgen w g m (List.mem_cons_of_mem f hg))
    refine ⟨server', w', ds', ?_, ?_, hfields', hid'.trans hid1, hcfg'.trans hcfg1, hcons'⟩
    · simp only [UA_PublishedDataSet_clear_fields, hrem]
      exact hloop
    · rw [hserver', hserver]
      simp [List.set_set]


/-- C17, amended. Let a dataset be registered, be what its identifier resolves
to, be unfrozen with no frozen field, and let its fields refer back to it and
carry identifiers that are pairwise distinct and carried by no field of
another dataset; let its bookkeeping be consistent, the heap serve every
request and metadata generation return for each of its fields. Then
`UA_PublishedDataSet_clear` returns; afterwards the queue of the dataset is
empty, its metadata is zeroed, its name and identifier are cleared, the other
datasets are as they were, and `UA_DataSetField_findDSFbyId` finds none of the
former field identifiers. -/
theorem clear_removes_every_field (env : Env) (w : World) (server : UA_Server) (p : Nat)
    (ds : UA_PublishedDataSet)
    (hfind : UA_PublishedDataSet_findPDSbyId server ds.identifier = some (p, ds))
    (hfrozen : ds.configurationFrozen = false)
    (hffrozen : ∀ f ∈ ds.fields, f.configurationFrozen = false)
    (hback : ∀ f ∈ ds.fields, f.publishedDataSet = ds.identifier)
    (hnodup : (ds.fields.map (fun f => f.identifier)).Nodup)
    (hothers : ∀ (j : Nat) (other : UA_PublishedDataSet), j ≠ p →
      server.pubSubManager.publishedDataSets[j]? = some other →
      ∀ g ∈ other.fields, ∀ f ∈ ds.fields, g.identifier ≠ f.identifier)
    (hcons : Consistent ds)
    (halloc : ∀ k, env.allocOk k = true)
    (hgen : ∀ (w : World) (g : UA_DataSetField) (m : UA_FieldMetaData), g ∈ ds.fields →
      ∃ r, generateFieldMetaData env w g m = .ok r) :
    ∃ (server' : UA_Server) (w' : World) (ds' : UA_PublishedDataSet),
      UA_PublishedDataSet_clear env w server p = .ok (server', w') ∧
      server'.pubSubManager.publishedDataSets =
        server.pubSubManager.publishedDataSets.set p ds' ∧
      server'.pubSubManager.publishedDataSets[p]? = some ds' ∧
      ds'.fields = [] ∧
      ds'.dataSetMetaData = ⟨0, .null, ⟨0, 0⟩⟩ ∧
      ds'.config = UA_PublishedDataSetConfig_clear ds.config ∧
      ds'.identifier = UA_NODEID_NULL ∧
      ∀ f ∈ ds.fields, UA_DataSetField_findDSFbyId server' f.identifier = none := by
  have hp := (findPDSbyId_some hfind).1
  have hlt := lt_length_of_getElem? hp
  obtain ⟨server1, w1, ds1, hloop, hserver1, hfields1, hid1, hcfg1, hcons1⟩ :=
    UA_PublishedDataSet_clear_fields_total p halloc ds.fields w server ds rfl hfind hfrozen
      hffrozen hback hnodup hothers hcons hgen
  have hp1 : server1.pubSubManager.publishedDataSets[p]? = some ds1 := by
    rw [hserver1]; exact getElem?_set_same ds1 hlt
  have hmeta : UA_DataSetMetaDataType_clear ds1.dataSetMetaData = .ok ⟨0, .null, ⟨0, 0⟩⟩ := by
    obtain ⟨⟨-, hsz⟩, hcells, hfreed, -⟩ := hcons1
    rw [hfields1] at hsz hcells
    unfold UA_DataSetMetaDataType_clear
    cases hst : ds1.dataSetMetaData.fields with
    | null => simp [hsz]
    | freed => exact absurd hst hfreed
    | block cells => simp [hsz]
  refine ⟨⟨⟨server1.pubSubManager.publishedDataSets.set p
      { ds1 with config := UA_PublishedDataSetConfig_clear ds1.config,
                 dataSetMetaData := ⟨0, .null, ⟨0, 0⟩⟩,
                 identifier := UA_NODEID_NULL }⟩⟩, w1,
    { ds1 with config := UA_PublishedDataSetConfig_clear ds1.config,
               dataSetMetaData := ⟨0, .null, ⟨0, 0⟩⟩,
               identifier := UA_NODEID_NULL }, ?_, ?_, ?_, hfields1, rfl, ?_, rfl, ?_⟩
  · unfold UA_PublishedDataSet_clear
    simp only [hp, hloop, hp1, hmeta]
  · simp [hserver1, List.set_set]
  · simp only [hserver1, List.set_set]
    exact getElem?_set_same _ hlt
  · simp [hcfg1]
  · intro f hf
    refine findDSFbyId_eq_none ?_
    intro d hd
    obtain ⟨j, hj⟩ := List.mem_iff_getElem?.mp hd
    simp only [hserver1, List.set_set] at hj
    by_cases hjp : j = p
    · subst hjp
      rw [getElem?_set_same _ hlt] at hj
      simp only [Option.some.injEq] at hj
      subst hj
      simp [hfields1, findFieldbyId]
    · rw [getElem?_set_other _ (Ne.symm hjp)] at hj
      exact findFieldbyId_eq_none (fun g hg => hothers j d hjp hj g hg f hf)

/-- C17 amended, on the demo data: clearing the dataset that holds "temp" and
"pressure" returns, leaves its queue empty and neither identifier findable. -/
theorem clear_removes_every_field_witness :
    demoPressureDataSet.fields.map (fun f => f.identifier) =
      [demoTempId, UA_NODEID_GUID 1 ⟨2, 0, 0, []⟩] ∧
    ∃ (server' : UA_Server) (w' : World) (ds' : UA_PublishedDataSet),
      UA_PublishedDataSet_clear demoEnv demoAfterPressure.2.2 demoAfterPressure.2.1 0 =
        .ok (server', w') ∧
      server'.pubSubManager.publishedDataSets =
        demoAfterPressure.2.1.pubSubManager.publishedDataSets.set 0 ds' ∧
      server'.pubSubManager.publishedDataSets[0]? = some ds' ∧
      ds'.fields = [] ∧
      ds'.dataSetMetaData = ⟨0, .null, ⟨0, 0⟩⟩ ∧
      ds'.config = UA_PublishedDataSetConfig_clear demoPressureDataSet.config ∧
      ds'.identifier = UA_NODEID_NULL ∧
      ∀ f ∈ demoPressureDataSet.fields, UA_DataSetField_findDSFbyId server' f.identifier = none :=
  ⟨rfl,
   clear_removes_every_field demoEnv demoAfterPressure.2.2 demoAfterPressure.2.1 0
    demoPressureDataSet rfl rfl (by decide) (by decide) (by decide)
    (fun j other hj ho => by
      cases j with
      | zero => exact absurd rfl hj
      | succ j =>
        have hl : demoAfterPressure.2.1.pubSubManager.publishedDataSets =
            [demoPressureDataSet] := rfl
        rw [hl] at ho
        simp at ho)
    (by decide) (fun _ => rfl)
    (fun w g m hg => by
      have hg' : g.config.dataSetFieldType = .UA_PUBSUB_DATASETFIELD_VARIABLE ∧
          g.config.field.var.rtValueSource.rtFieldSourceEnabled = false := by
        revert g
        decide
      obtain ⟨fmd, w', h, -⟩ := generateFieldMetaData_generic_source_good demoEnv w g m
        hg'.1 hg'.2 (fun _ => rfl) (fun _ _ => rfl) (fun _ _ => rfl) (fun _ _ => rfl)
        (fun _ _ => Or.inl rfl)
      exact ⟨_, h⟩)⟩

/-! ## C21: the promoted-field counter -/

theorem filter_length_of_map_eq {α β : Type} (g : α → β) (p : β → Bool) {l1 l2 : List α}
    (h : l1.map g = l2.map g) :
    (l1.filter (fun a => p (g a))).length = (l2.filter (fun a => p (g a))).length := by
  have h1 : ∀ l : List α, (l.filter (fun a => p (g a))).length = ((l.map g).filter p).length := by
    intro l
    induction l with
    | nil => rfl
    | cons a l ih =>
      by_cases hp : p (g a) = true
      · simp [List.filter, hp, ih]
      · simp [List.filter, hp, ih]
  rw [h1 l1, h1 l2, h]

theorem filter_length_eraseIdx {α : Type} (p : α → Bool) :
    ∀ {l : List α} {i : Nat} {x : α}, l[i]? = some x →
      ((l.eraseIdx i).filter p).length + (if p x = true then 1 else 0) = (l.filter p).length
  | [], _, _, h => by simp at h
  | a :: l, 0, x, h => by
    simp only [List.getElem?_cons_zero, Option.some.injEq] at h
    subst h
    by_cases hp : p a = true
    · simp [List.filter, hp]
    · simp [List.filter, hp]
  | a :: l, i + 1, x, h => by
    simp only [List.getElem?_cons_succ] at h
    have ih := filter_length_eraseIdx p h
    by_cases hp : p a = true
    · simp only [List.eraseIdx_cons_succ, List.filter, hp, List.length_cons]
      omega
    · simp only [List.eraseIdx_cons_succ, List.filter, hp]
      exact ih


/-- C21. The promoted-field counter. For any call of `addDataSetField` or
`removeDataSetField` that returns, every dataset of the registry in which
`promotedFieldsCount` is the number of promoted fields of the queue is still in
the registry at the same place and the two are equal again. An add that
returns `Good` raises `fieldSize` of the dataset by one and
`promotedFieldsCount` by one exactly when the configuration has `promotedField`
set, whatever its value source. A remove that returns after it found an
unfrozen field whose back-reference resolves to an unfrozen dataset has
lowered `fieldSize` of that dataset by one and `promotedFieldsCount` by one
exactly when the removed field is promoted. -/
theorem promoted_counter_invariant (env : Env) (w : World) (server : UA_Server) :
    (∀ (call : Call) (res : UA_DataSetFieldResult) (server' : UA_Server) (w' : World),
      call.run env w server = .ok (res, server', w') →
      ∀ (j : Nat) (ds : UA_PublishedDataSet),
        server.pubSubManager.publishedDataSets[j]? = some ds → PromotedInvariant ds →
        ∃ ds', server'.pubSubManager.publishedDataSets[j]? = some ds' ∧ PromotedInvariant ds') ∧
    (∀ (pdsId : UA_NodeId) (cfg : UA_DataSetFieldConfig) (out : Option UA_NodeId) (r : AddReturn),
      addDataSetField env w server pdsId (some cfg) out = .ok r →
      r.result.result = UA_STATUSCODE_GOOD →
      ∃ (i : Nat) (currDS ds' : UA_PublishedDataSet),
        UA_PublishedDataSet_findPDSbyId server pdsId = some (i, currDS) ∧
        r.server.pubSubManager.publishedDataSets[i]? = some ds' ∧
        ds'.fieldSize = currDS.fieldSize + 1 ∧
        ds'.promotedFieldsCount =
          currDS.promotedFieldsCount + (if cfg.field.var.promotedField = true then 1 else 0)) ∧
    (∀ (dsf : UA_NodeId) (di fi : Nat) (f : UA_DataSetField) (pi : Nat)
      (pds : UA_PublishedDataSet) (r : RemoveReturn),
      UA_DataSetField_findDSFbyId server dsf = some (di, fi, f) →
      UA_PublishedDataSet_findPDSbyId server f.publishedDataSet = some (pi, pds) →
      f.configurationFrozen = false → pds.configurationFrozen = false →
      removeDataSetField env w server dsf = .ok r →
      ∃ pds', r.server.pubSubManager.publishedDataSets[pi]? = some pds' ∧
        pds'.fieldSize + 1 = pds.fieldSize ∧
        pds'.promotedFieldsCount + (if f.config.field.var.promotedField = true then 1 else 0) =
          pds.promotedFieldsCount) := by
  refine ⟨?_, ?_, ?_⟩
  · intro call res server' w' hrun j ds hj hinv
    have hjlt : j < server.pubSubManager.publishedDataSets.length := lt_length_of_getElem? hj
    cases call with
    | add pdsId fieldConfig out =>
      simp only [Call.run] at hrun
      split at hrun
      · simp at hrun
      · rename_i r hr
        simp only [Except.ok.injEq, Prod.mk.injEq] at hrun
        obtain ⟨-, rfl, -⟩ := hrun
        rcases addDataSetField_ok hr with ⟨hs, -⟩ | ⟨cfg, i, currDS, fmd, gw, dsfs, -, hfind, -, -,
          -, -, -, -, hreb, -, -, -, hs⟩
        · rw [hs]; exact ⟨ds, hj, hinv⟩
        · rw [hs]
          obtain ⟨hi, -⟩ := findPDSbyId_some hfind
          obtain ⟨-, -, hcfg, -⟩ := rebindFieldMetaData_ok hreb
          by_cases hij : i = j
          · subst hij
            rw [hi] at hj
            simp only [Option.some.injEq] at hj
            subst hj
            refine ⟨_, getElem?_set_same _ hjlt, ?_⟩
            have hlen := filter_length_of_map_eq (fun f : UA_DataSetField => f.config)
              (fun c => c.field.var.promotedField) hcfg
            unfold PromotedInvariant at hinv ⊢
            simp only [addDataSetField_commit, hlen, List.filter_append, List.length_append]
            by_cases hp : cfg.field.var.promotedField = true
            · simp [hp, hinv, newFieldOf, List.filter]
            · simp [hp, hinv, newFieldOf, List.filter]
          · exact ⟨ds, by rw [getElem?_set_other _ hij]; exact hj, hinv⟩
    | remove dsf =>
      simp only [Call.run] at hrun
      split at hrun
      · simp at hrun
      · rename_i r hr
        simp only [Except.ok.injEq, Prod.mk.injEq] at hrun
        obtain ⟨-, rfl, -⟩ := hrun
        rcases removeDataSetField_ok hr with ⟨hs, -⟩ | ⟨di, fi, currentField, pds, res', early,
          pds', hf, hp, -, -, -, hprom, hreg, -, hs⟩
        · rw [hs]; exact ⟨ds, hj, hinv⟩
        · rw [hs]
          obtain ⟨hi, -⟩ := findPDSbyId_some hp
          obtain ⟨ds2, hds2, hfi, -⟩ := findDSFbyId_some hf
          rw [hi] at hds2
          simp only [Option.some.injEq] at hds2
          subst hds2
          obtain ⟨-, hpds'⟩ := removeDataSetField_regenerate_ok hreg
          by_cases hij : di = j
          · subst hij
            rw [hi] at hj
            simp only [Option.some.injEq] at hj
            subst hj
            refine ⟨_, getElem?_set_same _ hjlt, ?_⟩
            have hlen := filter_length_eraseIdx
              (fun f : UA_DataSetField => f.config.field.var.promotedField) hfi
            unfold PromotedInvariant at hinv ⊢
            rw [hpds']
            simp only [removeDataSetField_unlink]
            by_cases hpf : currentField.config.field.var.promotedField = true
            · have := hprom hpf
              simp only [hpf, if_true] at hlen ⊢
              omega
            · simp only [hpf, Bool.false_eq_true, if_false] at hlen ⊢
              omega
          · exact ⟨ds, by rw [getElem?_set_other _ hij]; exact hj, hinv⟩
  · intro pdsId cfg out r h hgood
    rcases addDataSetField_ok h with ⟨_, hbad, _⟩ | ⟨cfg', i, currDS, fmd, gw, dsfs, hcfg, hfind, -,
      -, -, -, -, -, -, -, -, -, hserver⟩
    · exact absurd hgood hbad
    · simp only [Option.some.injEq] at hcfg
      subst hcfg
      have hlt := lt_length_of_getElem? (findPDSbyId_some hfind).1
      refine ⟨i, currDS, _, hfind, by rw [hserver]; exact getElem?_set_same _ hlt, ?_, ?_⟩
      · simp [addDataSetField_commit]
      · by_cases hp : cfg.field.var.promotedField = true
        · simp [addDataSetField_commit, hp]
        · simp [addDataSetField_commit, hp]
  · intro dsf di fi f pi pds r hF hP hff hpf h
    have hlt := lt_length_of_getElem? (findPDSbyId_some hP).1
    unfold removeDataSetField at h
    simp only [hF, hP, hff, hpf, Bool.false_eq_true, if_false] at h
    split at h
    · simp at h
    · rename_i hprom
      split at h
      · simp at h
      · rename_i hsz
        split at h
        · simp at h
        · split at h
          · simp at h
          · rename_i res early pds' rw hreg
            simp only [Except.ok.injEq] at h
            subst h
            obtain ⟨-, hpds'⟩ := removeDataSetField_regenerate_ok hreg
            refine ⟨pds', getElem?_set_same _ hlt, ?_, ?_⟩
            · rw [hpds']
              simp only [removeDataSetField_unlink]
              omega
            · rw [hpds']
              simp only [removeDataSetField_unlink]
              by_cases hp : f.config.field.var.promotedField = true
              · have : pds.promotedFieldsCount ≠ 0 := fun h0 => hprom ⟨hp, h0⟩
                simp only [hp, if_true]
                omega
              · simp [hp]


/-- C21 on the demo data: removing "temp" from "temp" and "pressure" keeps the
invariant; adding the promoted static snapshot field "level" to the empty
dataset raises both counters by one; removing the promoted field "pressure"
lowers both by one. -/
theorem promoted_counter_invariant_witness :
    (PromotedInvariant demoPressureDataSet ∧
      ∃ ds', demoRemoveTempOfTwo.server.pubSubManager.publishedDataSets[0]? = some ds' ∧
        PromotedInvariant ds') ∧
    (demoStaticField.config.field.var.promotedField = true ∧
      ∃ (i : Nat) (currDS ds' : UA_PublishedDataSet),
        UA_PublishedDataSet_findPDSbyId demoServer demoPdsId = some (i, currDS) ∧
        demoAddStatic.server.pubSubManager.publishedDataSets[i]? = some ds' ∧
        ds'.fieldSize = currDS.fieldSize + 1 ∧
        ds'.promotedFieldsCount =
          currDS.promotedFieldsCount +
            (if demoStaticField.config.field.var.promotedField = true then 1 else 0)) ∧
    (demoPressureField.config.field.var.promotedField = true ∧
      ∃ pds', demoRemovePressure.server.pubSubManager.publishedDataSets[0]? = some pds' ∧
        pds'.fieldSize + 1 = demoPressureDataSet.fieldSize ∧
        pds'.promotedFieldsCount +
            (if demoPressureField.config.field.var.promotedField = true then 1 else 0) =
          demoPressureDataSet.promotedFieldsCount) :=
  ⟨⟨by decide,
    (promoted_counter_invariant demoEnv demoAfterPressure.2.2 demoAfterPressure.2.1).1
      (.remove demoTempId) demoRemoveTempOfTwo.result demoRemoveTempOfTwo.server
      demoRemoveTempOfTwo.world rfl 0 demoPressureDataSet rfl (by decide)⟩,
   ⟨rfl,
    (promoted_counter_invariant demoStaticEnv demoWorld demoServer).2.1 demoPdsId
      demoStaticField.config none demoAddStatic rfl rfl⟩,
   ⟨rfl,
    (promoted_counter_invariant demoEnv demoAfterPressure.2.2 demoAfterPressure.2.1).2.2
      demoPressureId 0 1 demoPressureField 0 demoPressureDataSet demoRemovePressure
      rfl rfl rfl rfl rfl⟩⟩

/-! ## C23: the flags of a generated entry -/

/-- What the generic part of the generation leaves when it returns `Good`: the
classification ran on the entry with the dimensions and the data type that
were read, and value rank, flags and properties were set after it. -/
theorem generateFieldMetaData_generic_good {env : Env} {w w' : World}
    {var : UA_DataSetVariableConfig} {fmd fmd' : UA_FieldMetaData}
    (h : generateFieldMetaData_generic env w var fmd = .ok (UA_STATUSCODE_GOOD, fmd', w')) :
    (env.readArrayDimensions w.reads var.publishParameters.publishedVariable).1 =
      UA_STATUSCODE_GOOD ∧
    (env.readDataType (w.reads + 1) var.publishParameters.publishedVariable).1 =
      UA_STATUSCODE_GOOD ∧
    (env.readValueRank (w.reads + 2) var.publishParameters.publishedVariable).1 =
      UA_STATUSCODE_GOOD ∧
    ∃ fmd2, generateFieldMetaData_dataType env var
        { fmd with
          arrayDimensions := copyArrayDimensions
            (env.readArrayDimensions w.reads var.publishParameters.publishedVariable).2.arrayDimensions,
          dataType := (env.readDataType (w.reads + 1) var.publishParameters.publishedVariable).2 } =
          .ok fmd2 ∧
      fmd' = { fmd2 with
        valueRank := (env.readValueRank (w.reads + 2) var.publishParameters.publishedVariable).2,
        fieldFlags := if var.promotedField = true then UA_DATASETFIELDFLAGS_PROMOTEDFIELD
          else UA_DATASETFIELDFLAGS_NONE,
        properties := [] } := by
  unfold generateFieldMetaData_generic at h
  simp only [readWithReadValue_ARRAYDIMENSIONS, readWithReadValue_DATATYPE,
    readWithReadValue_VALUERANK] at h
  have ha := fun n => (allocArrayDimensions_world env { w with reads := w.reads + 1 } n).2.1
  simp only [ha] at h
  split at h
  · rename_i h1
    simp only [Except.ok.injEq, Prod.mk.injEq] at h
    exact absurd h.1 h1
  · rename_i h1
    split at h
    · simp [UA_STATUSCODE_BADOUTOFMEMORY, UA_STATUSCODE_GOOD] at h
    · split at h
      · rename_i h2
        simp only [Except.ok.injEq, Prod.mk.injEq] at h
        exact absurd h.1 h2
      · rename_i h2
        split at h
        · simp at h
        · rename_i fmd2 hcl
          split at h
          · rename_i h3
            simp only [Except.ok.injEq, Prod.mk.injEq] at h
            exact absurd h.1 h3
          · rename_i h3
            simp only [Except.ok.injEq, Prod.mk.injEq] at h
            obtain ⟨-, rfl, -⟩ := h
            refine ⟨not_not.mp h1, not_not.mp h2, not_not.mp h3, fmd2, hcl, ?_⟩
            by_cases hp : var.promotedField = true
            · simp [hp]
            · simp [hp]

/-- C23. The flags of a generated entry. Whenever `generateFieldMetaData`
returns `Good`, the `fieldFlags` of the entry are `PromotedField` when the
configuration marks the field promoted and its value source is not the static
snapshot (`rtFieldSourceEnabled` set, `rtInformationModelNode` not set), and
`None` in every other case: not promoted, or static snapshot whether promoted
or not. The two flag values differ. -/
theorem fieldFlags_of_generated_entry (env : Env) (w w' : World) (field : UA_DataSetField)
    (fmd0 fmd : UA_FieldMetaData)
    (h : generateFieldMetaData env w field fmd0 = .ok (UA_STATUSCODE_GOOD, fmd, w')) :
    fmd.fieldFlags =
      (if field.config.field.var.promotedField = true ∧
          ¬ (field.config.field.var.rtValueSource.rtFieldSourceEnabled = true ∧
             field.config.field.var.rtValueSource.rtInformationModelNode = false)
       then UA_DATASETFIELDFLAGS_PROMOTEDFIELD else UA_DATASETFIELDFLAGS_NONE) ∧
    UA_DATASETFIELDFLAGS_PROMOTEDFIELD ≠ UA_DATASETFIELDFLAGS_NONE := by
  refine ⟨?_, by decide⟩
  unfold generateFieldMetaData at h
  split at h
  · simp [UA_STATUSCODE_BADNOTSUPPORTED, UA_STATUSCODE_GOOD] at h
  · simp only [] at h
    split at h
    · rename_i hc
      simp only [Except.ok.injEq, Prod.mk.injEq] at h
      exact absurd h.1 hc
    · split at h
      · rename_i hstatic
        obtain ⟨cell, svs, type, -, -, -, rfl⟩ := generateFieldMetaData_static_good h
        simp [hstatic]
      · rename_i hstatic
        obtain ⟨-, -, -, fmd2, -, rfl⟩ := generateFieldMetaData_generic_good h
        by_cases hp : field.config.field.var.promotedField = true
        · simp [hp, hstatic]
        · simp [hp]

/-- C23 on the demo data: the promoted static snapshot field "level" gets the
flags `None`, the promoted generic field "pressure" gets `PromotedField`. -/
theorem fieldFlags_of_generated_entry_witness :
    (demoStaticField.config.field.var.promotedField = true ∧
      demoStaticGeneration.2.1.fieldFlags = UA_DATASETFIELDFLAGS_NONE) ∧
    demoPressureGeneration.2.1.fieldFlags = UA_DATASETFIELDFLAGS_PROMOTEDFIELD :=
  ⟨⟨rfl, (fieldFlags_of_generated_entry demoStaticEnv demoWorld demoStaticGeneration.2.2
      demoStaticField UA_FieldMetaData_init demoStaticGeneration.2.1 rfl).1⟩,
   (fieldFlags_of_generated_entry demoEnv demoWorld demoPressureGeneration.2.2
      (newFieldOf (demoConfig "pressure" true) demoPdsId UA_NODEID_NULL) UA_FieldMetaData_init
      demoPressureGeneration.2.1 rfl).1⟩

/-! ## C24 and C25: maximal string length and built-in type -/

/-- The entry the generic part of the generation works on once the dimensions
and the data type are read. -/
theorem generateFieldMetaData_generic_source_entry (env : Env) (w : World)
    (field : UA_DataSetField) (fmd0 fmd2 : UA_FieldMetaData)
    (hvar : field.config.dataSetFieldType = .UA_PUBSUB_DATASETFIELD_VARIABLE)
    (hsrc : ¬ (field.config.field.var.rtValueSource.rtFieldSourceEnabled = true ∧
               field.config.field.var.rtValueSource.rtInformationModelNode = false))
    (halloc : ∀ k, env.allocOk k = true)
    (hdims : (env.readArrayDimensions w.reads
      field.config.field.var.publishParameters.publishedVariable).1 = UA_STATUSCODE_GOOD)
    (htype : (env.readDataType (w.reads + 1)
      field.config.field.var.publishParameters.publishedVariable).1 = UA_STATUSCODE_GOOD)
    (hrank : (env.readValueRank (w.reads + 2)
      field.config.field.var.publishParameters.publishedVariable).1 = UA_STATUSCODE_GOOD)
    (hcl : generateFieldMetaData_dataType env field.config.field.var
      { fmd0 with
        dataSetFieldId := env.randomGuid w.guids, description := ⟨"", ""⟩,
        name := field.config.field.var.fieldNameAlias,
        arrayDimensions := copyArrayDimensions
          (env.readArrayDimensions w.reads
            field.config.field.var.publishParameters.publishedVariable).2.arrayDimensions,
        dataType := (env.readDataType (w.reads + 1)
          field.config.field.var.publishParameters.publishedVariable).2 } = .ok fmd2) :
    ∃ w', generateFieldMetaData env w field fmd0 =
      .ok (UA_STATUSCODE_GOOD,
           { fmd2 with
             valueRank := (env.readValueRank (w.reads + 2)
               field.config.field.var.publishParameters.publishedVariable).2,
             fieldFlags := if field.config.field.var.promotedField = true
               then UA_DATASETFIELDFLAGS_PROMOTEDFIELD else UA_DATASETFIELDFLAGS_NONE,
             properties := [] }, w') := by
  rw [generateFieldMetaData_generic_eq hvar hsrc (halloc _)]
  unfold generateFieldMetaData_generic
  have ha : ∀ w n, (allocArrayDimensions env w n).1 = true := by
    intro w n
    unfold allocArrayDimensions UA_calloc
    split
    · exact halloc _
    · rfl
  have har := fun (w0 : World) n => (allocArrayDimensions_world env w0 n).2.1
  simp only [readWithReadValue_ARRAYDIMENSIONS, readWithReadValue_DATATYPE,
    readWithReadValue_VALUERANK, har, hdims, htype, hrank, ha, ne_eq, not_true_eq_false, if_false,
    Bool.true_eq_false, hcl]
  by_cases hp : field.config.field.var.promotedField = true
  · simp only [hp, if_true]
    exact ⟨_, rfl⟩
  · simp only [hp, Bool.false_eq_true, if_false]
    exact ⟨_, rfl⟩


/-- The classification with a known descriptor returns, and sets the maximal
string length and the built-in type as the descriptor says. -/
theorem generateFieldMetaData_classify_known {env : Env} {var : UA_DataSetVariableConfig}
    {fmd : UA_FieldMetaData} {d : UA_DataType} (hd : env.findDataType fmd.dataType = some d) :
    ∃ fmd2, generateFieldMetaData_classify env var fmd = .ok fmd2 ∧
      fmd2.maxStringLength =
        (if var.maxStringLength ≠ 0 ∧
            (d.typeKind = UA_DATATYPEKIND_BYTESTRING ∨ d.typeKind = UA_DATATYPEKIND_STRING ∨
             d.typeKind = UA_DATATYPEKIND_LOCALIZEDTEXT)
         then var.maxStringLength else fmd.maxStringLength) ∧
      fmd2.builtInType =
        (if d.typeKind ≤ UA_DATATYPEKIND_ENUM then d.typeKind % 256 else fmd.builtInType) := by
  unfold generateFieldMetaData_classify
  simp only [hd]
  by_cases hm : var.maxStringLength ≠ 0
  · by_cases hk : d.typeKind = UA_DATATYPEKIND_BYTESTRING ∨ d.typeKind = UA_DATATYPEKIND_STRING ∨
        d.typeKind = UA_DATATYPEKIND_LOCALIZEDTEXT
    · rw [if_pos hm, if_pos hk]
      refine ⟨_, rfl, by simp [hm, hk], ?_⟩
      by_cases he : d.typeKind ≤ UA_DATATYPEKIND_ENUM
      · simp [he]
      · simp [he]
    · rw [if_pos hm, if_neg hk]
      refine ⟨_, rfl, ?_, ?_⟩
      · by_cases he : d.typeKind ≤ UA_DATATYPEKIND_ENUM
        · simp [hk, he]
        · simp [hk, he]
      · by_cases he : d.typeKind ≤ UA_DATATYPEKIND_ENUM
        · simp [he]
        · simp [he]
  · rw [if_neg hm]
    refine ⟨_, rfl, ?_, ?_⟩
    · by_cases he : d.typeKind ≤ UA_DATATYPEKIND_ENUM
      · simp [hm, he]
      · simp [hm, he]
    · by_cases he : d.typeKind ≤ UA_DATATYPEKIND_ENUM
      · simp [he]
      · simp [he]

theorem generateFieldMetaData_dataType_null {env : Env} {var : UA_DataSetVariableConfig}
    {fmd : UA_FieldMetaData} (h : UA_NodeId_isNull fmd.dataType = true) :
    generateFieldMetaData_dataType env var fmd = .ok fmd := by
  simp [generateFieldMetaData_dataType, h]

theorem generateFieldMetaData_dataType_known {env : Env} {var : UA_DataSetVariableConfig}
    {fmd : UA_FieldMetaData} (h : UA_NodeId_isNull fmd.dataType = false) :
    generateFieldMetaData_dataType env var fmd = generateFieldMetaData_classify env var fmd := by
  simp [generateFieldMetaData_dataType, h]


/-- The maximal string length of a generated entry, of C24, where the data
type that is read is null or known to the type registry. Take a `Variable`
field that is not a static snapshot, let the heap serve, let the reads of
array dimensions, data type and value rank succeed, and let the entry passed
in be one with a zero maximal string length (both callers pass a zeroed
entry). Whatever `maxStringLength` is configured: when the data type read is
null, `generateFieldMetaData` returns `Good` and the maximal string length of
the entry is 0; when it is not null and the type registry knows it,
`generateFieldMetaData` returns `Good` and the maximal string length of the
entry is the configured one if that is not zero and the kind of the type is
String, ByteString or LocalizedText, and 0 otherwise. -/
theorem maxStringLength_of_generated_entry (env : Env) (w : World) (field : UA_DataSetField)
    (fmd0 : UA_FieldMetaData)
    (hvar : field.config.dataSetFieldType = .UA_PUBSUB_DATASETFIELD_VARIABLE)
    (hsrc : ¬ (field.config.field.var.rtValueSource.rtFieldSourceEnabled = true ∧
               field.config.field.var.rtValueSource.rtInformationModelNode = false))
    (halloc : ∀ k, env.allocOk k = true)
    (hdims : (env.readArrayDimensions w.reads
      field.config.field.var.publishParameters.publishedVariable).1 = UA_STATUSCODE_GOOD)
    (htype : (env.readDataType (w.reads + 1)
      field.config.field.var.publishParameters.publishedVariable).1 = UA_STATUSCODE_GOOD)
    (hrank : (env.readValueRank (w.reads + 2)
      field.config.field.var.publishParameters.publishedVariable).1 = UA_STATUSCODE_GOOD)
    (hzero : fmd0.maxStringLength = 0) :
    (UA_NodeId_isNull (env.readDataType (w.reads + 1)
        field.config.field.var.publishParameters.publishedVariable).2 = true →
      ∃ fmd w', generateFieldMetaData env w field fmd0 = .ok (UA_STATUSCODE_GOOD, fmd, w') ∧
        fmd.maxStringLength = 0) ∧
    (∀ d : UA_DataType,
      UA_NodeId_isNull (env.readDataType (w.reads + 1)
        field.config.field.var.publishParameters.publishedVariable).2 = false →
      env.findDataType (env.readDataType (w.reads + 1)
        field.config.field.var.publishParameters.publishedVariable).2 = some d →
      ∃ fmd w', generateFieldMetaData env w field fmd0 = .ok (UA_STATUSCODE_GOOD, fmd, w') ∧
        fmd.maxStringLength =
          (if field.config.field.var.maxStringLength ≠ 0 ∧
              (d.typeKind = UA_DATATYPEKIND_BYTESTRING ∨ d.typeKind = UA_DATATYPEKIND_STRING ∨
               d.typeKind = UA_DATATYPEKIND_LOCALIZEDTEXT)
           then field.config.field.var.maxStringLength else 0)) := by
  refine ⟨?_, ?_⟩
  · intro hnull
    obtain ⟨w', h⟩ := generateFieldMetaData_generic_source_entry env w field fmd0 _ hvar hsrc
      halloc hdims htype hrank (generateFieldMetaData_dataType_null hnull)
    exact ⟨_, w', h, hzero⟩
  · intro d hnull hd
    obtain ⟨fmd2, hcl, hmax, -⟩ := @generateFieldMetaData_classify_known env
      field.config.field.var
      { fmd0 with
        dataSetFieldId := env.randomGuid w.guids, description := ⟨"", ""⟩,
        name := field.config.field.var.fieldNameAlias,
        arrayDimensions := copyArrayDimensions
          (env.readArrayDimensions w.reads
            field.config.field.var.publishParameters.publishedVariable).2.arrayDimensions,
        dataType := (env.readDataType (w.reads + 1)
          field.config.field.var.publishParameters.publishedVariable).2 } d hd
    obtain ⟨w', h⟩ := generateFieldMetaData_generic_source_entry env w field fmd0 fmd2 hvar hsrc
      halloc hdims htype hrank ((generateFieldMetaData_dataType_known hnull).trans hcl)
    refine ⟨_, w', h, ?_⟩
    simp only [hmax, hzero]

/-- The maximal string length on the demo data, for the field "label" with a
configured maximal string length of 32: with the string type the entry gets 32, with a
structured type it gets 0, with the null type it gets 0; each generation
returns `Good`. -/
theorem maxStringLength_of_generated_entry_witness :
    (∃ fmd w', generateFieldMetaData demoEnvString demoWorld demoLabelField
        UA_FieldMetaData_init = .ok (UA_STATUSCODE_GOOD, fmd, w') ∧
      fmd.maxStringLength =
        (if demoLabelField.config.field.var.maxStringLength ≠ 0 ∧
            (UA_DATATYPEKIND_STRING = UA_DATATYPEKIND_BYTESTRING ∨
             UA_DATATYPEKIND_STRING = UA_DATATYPEKIND_STRING ∨
             UA_DATATYPEKIND_STRING = UA_DATATYPEKIND_LOCALIZEDTEXT)
         then demoLabelField.config.field.var.maxStringLength else 0)) ∧
    (∃ fmd w', generateFieldMetaData demoEnvStructure demoWorld demoLabelField
        UA_FieldMetaData_init = .ok (UA_STATUSCODE_GOOD, fmd, w') ∧
      fmd.maxStringLength =
        (if demoLabelField.config.field.var.maxStringLength ≠ 0 ∧
            (27 = UA_DATATYPEKIND_BYTESTRING ∨ 27 = UA_DATATYPEKIND_STRING ∨
             27 = UA_DATATYPEKIND_LOCALIZEDTEXT)
         then demoLabelField.config.field.var.maxStringLength else 0)) ∧
    (∃ fmd w', generateFieldMetaData demoEnv demoWorld demoLabelField
        UA_FieldMetaData_init = .ok (UA_STATUSCODE_GOOD, fmd, w') ∧
      fmd.maxStringLength = 0) :=
  ⟨(maxStringLength_of_generated_entry demoEnvString demoWorld demoLabelField
      UA_FieldMetaData_init rfl (by decide) (fun _ => rfl) rfl rfl rfl rfl).2
      ⟨⟨0, .numeric 12⟩, UA_DATATYPEKIND_STRING, "String"⟩ rfl rfl,
   (maxStringLength_of_generated_entry demoEnvStructure demoWorld demoLabelField
      UA_FieldMetaData_init rfl (by decide) (fun _ => rfl) rfl rfl rfl rfl).2
      ⟨⟨0, .numeric 22⟩, 27, "Structure"⟩ rfl rfl,
   (maxStringLength_of_generated_entry demoEnv demoWorld demoLabelField
      UA_FieldMetaData_init rfl (by decide) (fun _ => rfl) rfl rfl rfl rfl).1 rfl⟩


/-- C24, the failing input. The demo field "label" is a `Variable` field with
the generic value source and a configured maximal string length of 32. In the
demo environment with the unknown data type its three attribute reads
succeed; the data type read yields `ns=1;i=9999`, which is not null and which
the type registry does not know. `generateFieldMetaData` reads the type kind
through the null descriptor before it looks at the maximal string length: it
returns no status and leaves no entry with a maximal string length of 0. -/
theorem maxStringLength_faults_on_unknown_data_type :
    demoLabelField.config.dataSetFieldType = .UA_PUBSUB_DATASETFIELD_VARIABLE ∧
    demoLabelField.config.field.var.rtValueSource = ⟨false, false, none⟩ ∧
    demoLabelField.config.field.var.maxStringLength = 32 ∧
    (∀ k, demoEnvUnknownType.allocOk k = true) ∧
    (demoEnvUnknownType.readArrayDimensions demoWorld.reads
      demoLabelField.config.field.var.publishParameters.publishedVariable).1 =
        UA_STATUSCODE_GOOD ∧
    (demoEnvUnknownType.readDataType (demoWorld.reads + 1)
      demoLabelField.config.field.var.publishParameters.publishedVariable).1 =
        UA_STATUSCODE_GOOD ∧
    (demoEnvUnknownType.readValueRank (demoWorld.reads + 2)
      demoLabelField.config.field.var.publishParameters.publishedVariable).1 =
        UA_STATUSCODE_GOOD ∧
    UA_NodeId_isNull (demoEnvUnknownType.readDataType (demoWorld.reads + 1)
      demoLabelField.config.field.var.publishParameters.publishedVariable).2 = false ∧
    demoEnvUnknownType.findDataType (demoEnvUnknownType.readDataType (demoWorld.reads + 1)
      demoLabelField.config.field.var.publishParameters.publishedVariable).2 = none ∧
    generateFieldMetaData demoEnvUnknownType demoWorld demoLabelField UA_FieldMetaData_init =
      .error .nullDereference :=
  ⟨rfl, rfl, rfl, fun _ => rfl, rfl, rfl, rfl, rfl, rfl, rfl⟩

/-- C25. The built-in type of a generated entry. Take a `Variable` field that
is not a static snapshot, let the heap serve, let the reads of array
dimensions, data type and value rank succeed, and let the entry passed in be
one with a zero built-in type (both callers pass a zeroed entry). When the
data type read is null, `generateFieldMetaData` returns `Good` and the
built-in type of the entry is 0. When it is not null and the type registry
knows it, `generateFieldMetaData` returns `Good` and the built-in type of the
entry is the type kind of the descriptor if that is at most `Enum`, and 0 if
it is above. -/
theorem builtInType_of_generated_entry (env : Env) (w : World) (field : UA_DataSetField)
    (fmd0 : UA_FieldMetaData)
    (hvar : field.config.dataSetFieldType = .UA_PUBSUB_DATASETFIELD_VARIABLE)
    (hsrc : ¬ (field.config.field.var.rtValueSource.rtFieldSourceEnabled = true ∧
               field.config.field.var.rtValueSource.rtInformationModelNode = false))
    (halloc : ∀ k, env.allocOk k = true)
    (hdims : (env.readArrayDimensions w.reads
      field.config.field.var.publishParameters.publishedVariable).1 = UA_STATUSCODE_GOOD)
    (htype : (env.readDataType (w.reads + 1)
      field.config.field.var.publishParameters.publishedVariable).1 = UA_STATUSCODE_GOOD)
    (hrank : (env.readValueRank (w.reads + 2)
      field.config.field.var.publishParameters.publishedVariable).1 = UA_STATUSCODE_GOOD)
    (hzero : fmd0.builtInType = 0) :
    (UA_NodeId_isNull (env.readDataType (w.reads + 1)
        field.config.field.var.publishParameters.publishedVariable).2 = true →
      ∃ fmd w', generateFieldMetaData env w field fmd0 = .ok (UA_STATUSCODE_GOOD, fmd, w') ∧
        fmd.builtInType = 0) ∧
    (∀ d : UA_DataType,
      UA_NodeId_isNull (env.readDataType (w.reads + 1)
        field.config.field.var.publishParameters.publishedVariable).2 = false →
      env.findDataType (env.readDataType (w.reads + 1)
        field.config.field.var.publishParameters.publishedVariable).2 = some d →
      ∃ fmd w', generateFieldMetaData env w field fmd0 = .ok (UA_STATUSCODE_GOOD, fmd, w') ∧
        fmd.builtInType = (if d.typeKind ≤ UA_DATATYPEKIND_ENUM then d.typeKind else 0)) := by
  refine ⟨?_, ?_⟩
  · intro hnull
    obtain ⟨w', h⟩ := generateFieldMetaData_generic_source_entry env w field fmd0 _ hvar hsrc
      halloc hdims htype hrank (generateFieldMetaData_dataType_null hnull)
    exact ⟨_, w', h, hzero⟩
  · intro d hnull hd
    obtain ⟨fmd2, hcl, -, hbuiltin⟩ := @generateFieldMetaData_classify_known env
      field.config.field.var
      { fmd0 with
        dataSetFieldId := env.randomGuid w.guids, description := ⟨"", ""⟩,
        name := field.config.field.var.fieldNameAlias,
        arrayDimensions := copyArrayDimensions
          (env.readArrayDimensions w.reads
            field.config.field.var.publishParameters.publishedVariable).2.arrayDimensions,
        dataType := (env.readDataType (w.reads + 1)
          field.config.field.var.publishParameters.publishedVariable).2 } d hd
    obtain ⟨w', h⟩ := generateFieldMetaData_generic_source_entry env w field fmd0 fmd2 hvar hsrc
      halloc hdims htype hrank ((generateFieldMetaData_dataType_known hnull).trans hcl)
    refine ⟨_, w', h, ?_⟩
    simp only [hbuiltin, hzero]
    by_cases he : d.typeKind ≤ UA_DATATYPEKIND_ENUM
    · have : d.typeKind < 256 := by
        unfold UA_DATATYPEKIND_ENUM at he
        omega
      simp [he, Nat.mod_eq_of_lt this]
    · simp [he]

/-- C25 on the demo data, for the field "label": with the string type the
entry gets the kind of the string type, with a structured type (kind 27,
above `Enum`) it gets 0, with the null type it gets 0; each generation
returns `Good`. -/
theorem builtInType_of_generated_entry_witness :
    (∃ fmd w', generateFieldMetaData demoEnvString demoWorld demoLabelField
        UA_FieldMetaData_init = .ok (UA_STATUSCODE_GOOD, fmd, w') ∧
      fmd.builtInType =
        (if UA_DATATYPEKIND_STRING ≤ UA_DATATYPEKIND_ENUM then UA_DATATYPEKIND_STRING else 0)) ∧
    (∃ fmd w', generateFieldMetaData demoEnvStructure demoWorld demoLabelField
        UA_FieldMetaData_init = .ok (UA_STATUSCODE_GOOD, fmd, w') ∧
      fmd.builtInType = (if 27 ≤ UA_DATATYPEKIND_ENUM then 27 else 0)) ∧
    (∃ fmd w', generateFieldMetaData demoEnv demoWorld demoLabelField
        UA_FieldMetaData_init = .ok (UA_STATUSCODE_GOOD, fmd, w') ∧
      fmd.builtInType = 0) :=
  ⟨(builtInType_of_generated_entry demoEnvString demoWorld demoLabelField
      UA_FieldMetaData_init rfl (by decide) (fun _ => rfl) rfl rfl rfl rfl).2
      ⟨⟨0, .numeric 12⟩, UA_DATATYPEKIND_STRING, "String"⟩ rfl rfl,
   (builtInType_of_generated_entry demoEnvStructure demoWorld demoLabelField
      UA_FieldMetaData_init rfl (by decide) (fun _ => rfl) rfl rfl rfl rfl).2
      ⟨⟨0, .numeric 22⟩, 27, "Structure"⟩ rfl rfl,
   (builtInType_of_generated_entry demoEnv demoWorld demoLabelField
      UA_FieldMetaData_init rfl (by decide) (fun _ => rfl) rfl rfl rfl rfl).1 rfl⟩

/-! ## C26: what a successful remove leaves -/

theorem findFieldbyId_eraseIdx {identifier : UA_NodeId} :
    ∀ {fs : List UA_DataSetField} {k : Nat} {g : UA_DataSetField},
      (fs.map (fun f => f.identifier)).Nodup →
      findFieldbyId identifier fs = some (k, g) →
      findFieldbyId identifier (fs.eraseIdx k) = none
  | [], _, _, _, h => by simp [findFieldbyId] at h
  | f0 :: fs, k, g, hnd, h => by
    simp only [List.map_cons, List.nodup_cons] at hnd
    unfold findFieldbyId at h
    by_cases hd : UA_NodeId_equal f0.identifier identifier = true
    · simp only [hd, if_true, Option.some.injEq, Prod.mk.injEq] at h
      obtain ⟨rfl, rfl⟩ := h
      have hid : f0.identifier = identifier := by simpa [UA_NodeId_equal] using hd
      simp only [List.eraseIdx_cons_zero]
      refine findFieldbyId_eq_none (fun g hg heq => hnd.1 ?_)
      rw [hid, ← heq]
      exact List.mem_map_of_mem (fun f => f.identifier) hg
    · simp only [hd, Bool.false_eq_true, if_false, Option.map_eq_some'] at h
      obtain ⟨⟨k', g'⟩, hk, hkk⟩ := h
      simp only [Prod.mk.injEq] at hkk
      obtain ⟨rfl, rfl⟩ := hkk
      have hrec := findFieldbyId_eraseIdx hnd.2 hk
      simp [findFieldbyId, hd, hrec]

theorem findDSFbyId_eraseIdx {identifier : UA_NodeId} :
    ∀ {l : List UA_PublishedDataSet} {di fi : Nat} {f : UA_DataSetField}
      {pds pds' : UA_PublishedDataSet},
      ((l.map (fun ds => ds.fields.map (fun f => f.identifier))).flatten).Nodup →
      findDSFbyId identifier l = some (di, fi, f) →
      l[di]? = some pds → pds'.fields = pds.fields.eraseIdx fi →
      findDSFbyId identifier (l.set di pds') = none
  | [], _, _, _, _, _, _, h, _, _ => by simp [findDSFbyId] at h
  | d :: l, di, fi, f, pds, pds', hnd, h, hdi, hfields => by
    simp only [List.map_cons, List.flatten_cons, List.nodup_append] at hnd
    obtain ⟨hnd1, hnd2, hdisj⟩ := hnd
    unfold findDSFbyId at h
    cases hd : findFieldbyId identifier d.fields with
    | some x =>
      obtain ⟨k, g⟩ := x
      simp only [hd, Option.some.injEq, Prod.mk.injEq] at h
      obtain ⟨rfl, rfl, rfl⟩ := h
      simp only [List.getElem?_cons_zero, Option.some.injEq] at hdi
      subst hdi
      obtain ⟨hk, hid⟩ := findFieldbyId_some hd
      have hmem : identifier ∈ d.fields.map (fun f => f.identifier) := by
        rw [← hid]
        exact List.mem_map_of_mem (fun f => f.identifier) (List.getElem?_mem hk)
      have hrest : findDSFbyId identifier l = none := by
        refine findDSFbyId_eq_none (fun ds hds => findFieldbyId_eq_none (fun g' hg' heq => ?_))
        refine hdisj hmem (List.mem_flatten.mpr ⟨ds.fields.map (fun f => f.identifier), ?_, ?_⟩)
        · exact List.mem_map_of_mem (fun ds => ds.fields.map (fun f => f.identifier)) hds
        · rw [← heq]
          exact List.mem_map_of_mem (fun f => f.identifier) hg'
      have hhead : findFieldbyId identifier pds'.fields = none := by
        rw [hfields]
        exact findFieldbyId_eraseIdx hnd1 hd
      simp [findDSFbyId, hhead, hrest]
    | none =>
      simp only [hd, Option.map_eq_some'] at h
      obtain ⟨⟨a, b, c⟩, hk, hkk⟩ := h
      simp only [Prod.mk.injEq] at hkk
      obtain ⟨rfl, rfl, rfl⟩ := hkk
      simp only [List.getElem?_cons_succ] at hdi
      have hrec := findDSFbyId_eraseIdx hnd2 hk hdi hfields
      simp [findDSFbyId, hd, hrec]

/-- C26. A `removeDataSetField` that returns `Good` removes exactly the field
with the identifier. In a registry whose field identifiers are pairwise
distinct: the field is found in a dataset, the queue of that dataset
afterwards is the old queue with the field at the found position deleted (so
the remaining fields keep their order and are themselves unchanged), the
dataset keeps its identifier and configuration, every other dataset of the
registry is unchanged, `UA_DataSetField_findDSFbyId` no longer finds the
identifier, and a second `removeDataSetField` and a
`UA_Server_getDataSetFieldConfig` with it both return `BadNotFound` and change
nothing. -/
theorem remove_removes_exactly_one (env : Env) (w : World) (server : UA_Server)
    (dsf : UA_NodeId) (r : RemoveReturn)
    (hdistinct : DistinctFieldIdentifiers server)
    (h : removeDataSetField env w server dsf = .ok r)
    (hgood : r.result.result = UA_STATUSCODE_GOOD) :
    ∃ (di fi : Nat) (f : UA_DataSetField) (pds pds' : UA_PublishedDataSet),
      UA_DataSetField_findDSFbyId server dsf = some (di, fi, f) ∧
      server.pubSubManager.publishedDataSets[di]? = some pds ∧
      pds.fields[fi]? = some f ∧ f.identifier = dsf ∧
      r.server.pubSubManager.publishedDataSets =
        server.pubSubManager.publishedDataSets.set di pds' ∧
      pds'.fields = pds.fields.eraseIdx fi ∧
      pds'.identifier = pds.identifier ∧ pds'.config = pds.config ∧
      (∀ j : Nat, j ≠ di →
        r.server.pubSubManager.publishedDataSets[j]? =
          server.pubSubManager.publishedDataSets[j]?) ∧
      UA_DataSetField_findDSFbyId r.server dsf = none ∧
      (∀ (env2 : Env) (w2 : World), removeDataSetField env2 w2 r.server dsf =
        .ok ⟨⟨UA_STATUSCODE_BADNOTFOUND, ⟨0, 0⟩⟩, r.server, w2⟩) ∧
      (∀ (env2 : Env) (w2 : World) (dst : UA_DataSetFieldConfig),
        UA_Server_getDataSetFieldConfig env2 w2 r.server dsf (some dst) =
          (UA_STATUSCODE_BADNOTFOUND, some dst, w2)) := by
  rcases removeDataSetField_ok h with ⟨-, hbad, -⟩ | ⟨di, fi, f, pds, res, early, pds', hf, hp, -,
    -, -, -, hreg, -, hs⟩
  · exact absurd hgood hbad
  · obtain ⟨hi, -⟩ := findPDSbyId_some hp
    obtain ⟨ds2, hds2, hfi, hid⟩ := findDSFbyId_some hf
    rw [hi] at hds2
    simp only [Option.some.injEq] at hds2
    subst hds2
    obtain ⟨-, hpds'⟩ := removeDataSetField_regenerate_ok hreg
    have hfields : pds'.fields = pds.fields.eraseIdx fi := by rw [hpds']; rfl
    have hnone : UA_DataSetField_findDSFbyId r.server dsf = none := by
      rw [hs]
      exact findDSFbyId_eraseIdx hdistinct hf hi hfields
    refine ⟨di, fi, f, pds, pds', hf, hi, hfi, hid, by rw [hs], hfields, by rw [hpds']; rfl,
      by rw [hpds']; rfl, ?_, hnone, ?_, ?_⟩
    · intro j hj
      rw [hs]
      exact getElem?_set_other _ (Ne.symm hj)
    · intro env2 w2
      simp [removeDataSetField, hnone, removeDataSetField_fail]
    · intro env2 w2 dst
      simp [UA_Server_getDataSetFieldConfig, hnone]

/-- C26 on the demo data: removing "temp" from the registry that holds "temp"
and "pressure" leaves the queue with "pressure" alone, and the identifier of
"temp" is no longer found. -/
theorem remove_removes_exactly_one_witness :
    DistinctFieldIdentifiers demoAfterPressure.2.1 ∧
    ∃ (di fi : Nat) (f : UA_DataSetField) (pds pds' : UA_PublishedDataSet),
      UA_DataSetField_findDSFbyId demoAfterPressure.2.1 demoTempId = some (di, fi, f) ∧
      demoAfterPressure.2.1.pubSubManager.publishedDataSets[di]? = some pds ∧
      pds.fields[fi]? = some f ∧ f.identifier = demoTempId ∧
      demoRemoveTempOfTwo.server.pubSubManager.publishedDataSets =
        demoAfterPressure.2.1.pubSubManager.publishedDataSets.set di pds' ∧
      pds'.fields = pds.fields.eraseIdx fi ∧
      pds'.identifier = pds.identifier ∧ pds'.config = pds.config ∧
      (∀ j : Nat, j ≠ di →
        demoRemoveTempOfTwo.server.pubSubManager.publishedDataSets[j]? =
          demoAfterPressure.2.1.pubSubManager.publishedDataSets[j]?) ∧
      UA_DataSetField_findDSFbyId demoRemoveTempOfTwo.server demoTempId = none ∧
      (∀ (env2 : Env) (w2 : World), removeDataSetField env2 w2 demoRemoveTempOfTwo.server
          demoTempId =
        .ok ⟨⟨UA_STATUSCODE_BADNOTFOUND, ⟨0, 0⟩⟩, demoRemoveTempOfTwo.server, w2⟩) ∧
      (∀ (env2 : Env) (w2 : World) (dst : UA_DataSetFieldConfig),
        UA_Server_getDataSetFieldConfig env2 w2 demoRemoveTempOfTwo.server demoTempId
            (some dst) =
          (UA_STATUSCODE_BADNOTFOUND, some dst, w2)) :=
  ⟨by decide,
   remove_removes_exactly_one demoEnv demoAfterPressure.2.2 demoAfterPressure.2.1 demoTempId
     demoRemoveTempOfTwo (by decide) rfl rfl⟩

/-! ## C22: the degraded state after a failed rebuild -/

theorem generateInOrder_length {env : Env} :
    ∀ {fs : List UA_DataSetField} {w wk : World} {ms : List UA_FieldMetaData},
      generateInOrder env w fs = some (ms, wk) → ms.length = fs.length
  | [], _, _, _, h => by
    simp only [generateInOrder, Option.some.injEq, Prod.mk.injEq] at h
    rw [← h.1]
    rfl
  | f :: fs, w, wk, ms, h => by
    unfold generateInOrder at h
    split at h
    · simp at h
    · rename_i res fmd gw hg
      split at h
      · simp only [Option.map_eq_some'] at h
        obtain ⟨⟨ms', w'⟩, hrec, heq⟩ := h
        simp only [Prod.mk.injEq] at heq
        obtain ⟨rfl, -⟩ := heq
        simp [generateInOrder_length hrec]
      · simp at h

/-- The regeneration loop when the generation for the field at position `k`
is the first that does not return `Good`: the loop ends with that status, the
entries of the fields before are in their slots and every slot from `k` on is
zeroed. -/
theorem regenerateFieldMetaData_fails_at {env : Env} :
    ∀ (k : Nat) (fs : List UA_DataSetField) (w : World) (res : UA_StatusCode) (n : Nat)
      (ms : List UA_FieldMetaData) (wk : World) (fk : UA_DataSetField) (s : UA_StatusCode)
      (m : UA_FieldMetaData) (gw : World),
      generateInOrder env w (fs.take k) = some (ms, wk) → fs[k]? = some fk →
      generateFieldMetaData env wk fk UA_FieldMetaData_init = .ok (s, m, gw) →
      s ≠ UA_STATUSCODE_GOOD → k < n →
      regenerateFieldMetaData env w res fs (List.replicate n UA_FieldMetaData_init) =
        .ok (s, ms ++ List.replicate (n - k) UA_FieldMetaData_init, gw)
  | 0, [], _, _, _, _, _, _, _, _, _, _, hfk, _, _, _ => by simp at hfk
  | 0, f :: fs, w, res, n, ms, wk, fk, s, m, gw, hpre, hfk, hfail, hs, hn => by
    simp only [List.take_zero, generateInOrder, Option.some.injEq, Prod.mk.injEq] at hpre
    obtain ⟨rfl, rfl⟩ := hpre
    simp only [List.getElem?_cons_zero, Option.some.injEq] at hfk
    subst hfk
    obtain ⟨n', rfl⟩ : ∃ n', n = n' + 1 := ⟨n - 1, by omega⟩
    simp only [List.replicate_succ, regenerateFieldMetaData, hfail, ne_eq, hs, not_false_eq_true,
      if_true, List.nil_append, Nat.sub_zero]
  | k + 1, [], _, _, _, _, _, _, _, _, _, _, hfk, _, _, _ => by simp at hfk
  | k + 1, f :: fs, w, res, n, ms, wk, fk, s, m, gw, hpre, hfk, hfail, hs, hn => by
    simp only [List.take_succ_cons] at hpre
    unfold generateInOrder at hpre
    split at hpre
    · simp at hpre
    · rename_i res0 fmd gw0 hg
      split at hpre
      · rename_i hres0
        subst hres0
        simp only [Option.map_eq_some'] at hpre
        obtain ⟨⟨ms', w'⟩, hrec, heq⟩ := hpre
        simp only [Prod.mk.injEq] at heq
        obtain ⟨rfl, rfl⟩ := heq
        obtain ⟨n', rfl⟩ : ∃ n', n = n' + 1 := ⟨n - 1, by omega⟩
        have ih := regenerateFieldMetaData_fails_at k fs gw0 UA_STATUSCODE_GOOD n' ms' w' fk s m gw
          hrec (by simpa using hfk) hfail hs (by omega)
        simp only [List.replicate_succ, regenerateFieldMetaData, hg, ne_eq, not_true_eq_false,
          if_false, ih, List.cons_append, Nat.add_sub_add_right]
      · simp at hpre


/-- C22. The degraded state after a failed rebuild. Let `removeDataSetField`
pass its preconditions: the field is found at position `fi` of the dataset
`pds`, its back-reference resolves to that dataset, neither is frozen; let
the counters be positive, the metadata array be a live allocation with its
`fieldsSize` entries and the heap serve the new array. Let the generation
return `Good` for the first `k` remaining fields, in queue order, and end
with a status `s` other than `Good` for the remaining field at position `k`.
Then the call returns `s` with the version of the dataset; the world is the one
the failed generation left, so no later field was generated; in the dataset
the removed field is gone from the queue, `fieldSize` and, for a promoted
field, `promotedFieldsCount` are one less, the major version is the generated
one, `fieldsSize` is one less, and the array holds the `k` regenerated entries
in the slots before `k` and zeroed entries in every slot from `k` on. -/
theorem remove_degraded_state (env : Env) (w : World) (server : UA_Server) (dsf : UA_NodeId)
    (di fi : Nat) (currentField : UA_DataSetField) (pds : UA_PublishedDataSet)
    (cells : List UA_FieldMetaData) (k : Nat) (fk : UA_DataSetField)
    (ms : List UA_FieldMetaData) (wk : World) (s : UA_StatusCode) (m : UA_FieldMetaData)
    (gw : World)
    (hfindF : UA_DataSetField_findDSFbyId server dsf = some (di, fi, currentField))
    (hfindP : UA_PublishedDataSet_findPDSbyId server currentField.publishedDataSet =
      some (di, pds))
    (hff : currentField.configurationFrozen = false) (hpf : pds.configurationFrozen = false)
    (hsize : 0 < pds.fieldSize)
    (hprom : currentField.config.field.var.promotedField = true → 0 < pds.promotedFieldsCount)
    (hstorage : pds.dataSetMetaData.fields = .block cells)
    (hcells : pds.dataSetMetaData.fieldsSize ≤ cells.length)
    (hk : k + 1 < pds.dataSetMetaData.fieldsSize)
    (halloc : env.allocOk w.allocs = true)
    (hfk : (pds.fields.eraseIdx fi)[k]? = some fk)
    (hfirst : generateInOrder env { w with allocs := w.allocs + 1, clocks := w.clocks + 1 }
      ((pds.fields.eraseIdx fi).take k) = some (ms, wk))
    (hfail : generateFieldMetaData env wk fk UA_FieldMetaData_init = .ok (s, m, gw))
    (hs : s ≠ UA_STATUSCODE_GOOD) :
    ms.length = k ∧
    removeDataSetField env w server dsf =
      .ok ⟨⟨s, ⟨env.version w.clocks, pds.dataSetMetaData.configurationVersion.minorVersion⟩⟩,
           ⟨⟨server.pubSubManager.publishedDataSets.set di
              { pds with
                fields := pds.fields.eraseIdx fi,
                fieldSize := pds.fieldSize - 1,
                promotedFieldsCount :=
                  if currentField.config.field.var.promotedField = true
                  then pds.promotedFieldsCount - 1 else pds.promotedFieldsCount,
                dataSetMetaData :=
                  { fieldsSize := pds.dataSetMetaData.fieldsSize - 1,
                    fields := .block (ms ++ List.replicate
                      (pds.dataSetMetaData.fieldsSize - 1 - k) UA_FieldMetaData_init),
                    configurationVersion :=
                      ⟨env.version w.clocks,
                       pds.dataSetMetaData.configurationVersion.minorVersion⟩ } }⟩⟩,
           gw⟩ := by
  have hlen : ms.length = k := by
    have h1 := generateInOrder_length hfirst
    have h2 : k < (pds.fields.eraseIdx fi).length := lt_length_of_getElem? hfk
    rw [h1, List.length_take]
    omega
  refine ⟨hlen, ?_⟩
  have hcount : ¬ (currentField.config.field.var.promotedField = true ∧
      pds.promotedFieldsCount = 0) := by
    rintro ⟨h1, h2⟩
    have := hprom h1
    omega
  have hfs : pds.fieldSize ≠ 0 := by omega
  have hreg := @regenerateFieldMetaData_fails_at env k (pds.fields.eraseIdx fi)
    { w with allocs := w.allocs + 1, clocks := w.clocks + 1 } UA_STATUSCODE_GOOD
    (pds.dataSetMetaData.fieldsSize - 1) ms wk fk s m gw hfirst hfk hfail hs (by omega)
  have hz : pds.dataSetMetaData.fieldsSize ≠ 0 := by omega
  have hpos : pds.dataSetMetaData.fieldsSize - 1 > 0 := by omega
  have hnlt : ¬ cells.length < pds.dataSetMetaData.fieldsSize - 1 + 1 := by omega
  unfold removeDataSetField
  simp only [hfindF, hfindP, hff, hpf, Bool.false_eq_true, if_false, hcount, hfs, ne_eq,
    not_true_eq_false, removeDataSetField_regenerate, removeDataSetField_unlink, hz, hpos, if_true,
    hstorage, hnlt, UA_calloc, UA_PubSubConfigurationVersionTimeDifference, halloc, hreg,
    Bool.true_eq_false]


/-- C22 on the demo data: "temp" is removed from "temp", "pressure", "flow"
while the value rank of "flow" cannot be read. The entry of "pressure" is
regenerated into slot 0, the generation for "flow" (position 1) ends with
`BadUnexpectedError`, which the call returns, and slot 1 is zeroed. -/
theorem remove_degraded_state_witness :
    (demoDegradedEntries.1 = [demoPressureEntry 4] ∧
      demoDegradedFailure.1 = UA_STATUSCODE_BADUNEXPECTEDERROR) ∧
    demoDegradedEntries.1.length = 1 ∧
    removeDataSetField demoEnvLateRankFails demoAfterFlow.2.2 demoAfterFlow.2.1 demoTempId =
      .ok ⟨⟨demoDegradedFailure.1,
            ⟨demoEnvLateRankFails.version demoAfterFlow.2.2.clocks,
             demoFlowDataSet.dataSetMetaData.configurationVersion.minorVersion⟩⟩,
           ⟨⟨demoAfterFlow.2.1.pubSubManager.publishedDataSets.set 0
              { demoFlowDataSet with
                fields := demoFlowDataSet.fields.eraseIdx 0,
                fieldSize := demoFlowDataSet.fieldSize - 1,
                promotedFieldsCount :=
                  if demoTempField.config.field.var.promotedField = true
                  then demoFlowDataSet.promotedFieldsCount - 1
                  else demoFlowDataSet.promotedFieldsCount,
                dataSetMetaData :=
                  { fieldsSize := demoFlowDataSet.dataSetMetaData.fieldsSize - 1,
                    fields := .block (demoDegradedEntries.1 ++ List.replicate
                      (demoFlowDataSet.dataSetMetaData.fieldsSize - 1 - 1) UA_FieldMetaData_init),
                    configurationVersion :=
                      ⟨demoEnvLateRankFails.version demoAfterFlow.2.2.clocks,
                       demoFlowDataSet.dataSetMetaData.configurationVersion.minorVersion⟩ } }⟩⟩,
           demoDegradedFailure.2.2⟩ :=
  ⟨⟨rfl, rfl⟩,
   remove_degraded_state demoEnvLateRankFails demoAfterFlow.2.2 demoAfterFlow.2.1 demoTempId
     0 0 demoTempField demoFlowDataSet demoFlowDataSet.dataSetMetaData.fields.cells 1
     demoFlowField demoDegradedEntries.1 demoDegradedEntries.2 demoDegradedFailure.1
     demoDegradedFailure.2.1 demoDegradedFailure.2.2
     rfl rfl rfl rfl (by decide) (by decide) rfl (by decide) (by decide) rfl rfl rfl rfl
     (by decide)⟩

end Open62541
